import Mathlib

/-!
# Games Management API: query / validation / CRUD contract

A shallow embedding of the Express handlers of `src/routes/games.js`,
`src/routes/genres.js`, `src/routes/platforms.js` and `src/routes/auth.js`, of
the two closing middlewares of `src/app.js`, and of the Sequelize models of
`src/models/`.

Modelling conventions.

* A request body field is a `Field α`: absent (`undefined`), JSON `null`, or a
  JSON value of the type a client sends for that field (a string for text
  fields, a number for `rating`, `releaseYear`, `genreId`, `platformId`).
  JSON numbers are rationals.  JSON booleans, arrays and objects in these
  fields are outside the model.
* The persistence layer (Sequelize over the relational store) is a pure
  function on `Store`; a rejected promise is an `Except.error`, and each
  handler's `catch` block maps it to a response.  Model-level validators
  (`allowNull`, `len`, `notEmpty`, `min`, `max`, `isUrl`), the unique index on
  `name` and the declared foreign keys are part of the layer.  Whether the
  store enforces foreign keys is a configuration flag, so that statements
  about the handlers' own checks can be made with enforcement switched off.
* The dialect is `sqlite` (`src/config/database.js`).  `Op.like` is its `LIKE`:
  case-insensitive on the ASCII letters, with the wildcards `%` and `_` and no
  escape character.  `Op.iLike` is emitted as `ILIKE`, an operator that SQLite
  does not have: a query that uses it is rejected by the store, and the
  `catch` block of the handler answers.
* A route parameter `:id` and the query parameters `genreId` and `platformId`
  reach the store as text; SQLite compares the text with the integer column
  by numeric affinity (`parseKey`): white space around the number, a sign, a
  fraction and an exponent are read, so that `1.0`, `+1` and `1e0` denote the
  key 1.
* A query parameter is absent or a string.  The numbers of JavaScript and the
  real numbers of SQLite are IEEE 754 doubles: `parseInt` and `parseFloat`
  yield the double nearest to the number written (ties to the even
  significand), and the sum and the product of the handlers are rounded the
  same way; `none` stands for a value that is not a finite number (`NaN`,
  `Infinity`).  Every integer up to 2^53 in magnitude is a double.  A number
  field of a JSON response is `none` when the value is serialised as `null`.
* A table has fewer than 2^53 rows, so that a count of rows is an exact
  number.
* The order in which the store returns rows is a parameter (`Sorter`): any
  function that permutes the rows it is given.
* Timestamps (`createdAt`, `updatedAt`) are not modelled, except on users,
  whose timestamps the auth routes return.
* The users table is a state of its own (`UserTable`), apart from `Store`: the
  auth routes touch no other table and the other routes do not touch it.  The
  password hash (`bcrypt`) and the e-mail validator are parameters (`AuthEnv`).
  `findOne` returns the first matching row in the order of insertion.
* The value handed to the final error middleware is an `Error`, whose
  `message` is a string.
-/

namespace GamesApi

/-! ## JavaScript values and string primitives -/

/-- A body field: absent, `null`, or a JSON value of type `α`. -/
inductive Field (α : Type) where
  | undefined : Field α
  | null : Field α
  | val (a : α) : Field α
deriving DecidableEq, Repr

/-- JavaScript truthiness of a text field: `undefined`, `null` and the empty
string are falsy. -/
def truthyStr : Field String → Bool
  | .val s => !s.data.isEmpty
  | _ => false

/-- JavaScript truthiness of a numeric field: `undefined`, `null` and `0` are
falsy (a JSON number is never `NaN`). -/
def truthyNum : Field ℚ → Bool
  | .val q => decide (q ≠ 0)
  | _ => false

/-- The test `x !== undefined`. -/
def Field.supplied {α : Type} : Field α → Bool
  | .undefined => false
  | _ => true

/-- The `length` property of a JavaScript string: the number of UTF-16 code
units (a character outside the basic plane counts twice). -/
def jsLength (s : String) : Nat :=
  (s.data.map fun c => if c.toNat < 65536 then 1 else 2).sum

/-- White space and line terminators, as removed by `String.prototype.trim`
and matched by `\s`. -/
def isJsSpace (c : Char) : Bool :=
  [9, 10, 11, 12, 13, 32, 160, 5760, 8232, 8233, 8239, 8287, 12288, 65279].contains c.toNat
    || (decide (8192 ≤ c.toNat) && decide (c.toNat ≤ 8202))

/-- The characters of a trimmed string. -/
def trimChars (l : List Char) : List Char :=
  ((l.dropWhile isJsSpace).reverse.dropWhile isJsSpace).reverse

/-- JavaScript `s.trim()`. -/
def jsTrim (s : String) : String := ⟨trimChars s.data⟩

/-- Case folding used by the case-insensitive comparisons (ASCII letters). -/
def foldCase (l : List Char) : List Char := l.map Char.toLower

/-- Two names are equal ignoring letter case. -/
def eqIgnoreCase (a b : String) : Bool := foldCase a.data == foldCase b.data

/-- Some suffix of the text satisfies `f` (the expansion of a `%`). -/
def anySuffix (f : List Char → Bool) : List Char → Bool
  | [] => f []
  | c :: t => f (c :: t) || anySuffix f t

/-- Case-insensitive `LIKE`: `%` stands for any run of characters, `_` for any
single character, every other pattern character for itself up to case. -/
def likeChars : List Char → List Char → Bool
  | [] => fun s => s.isEmpty
  | a :: p =>
    if a = '%' then fun s => anySuffix (likeChars p) s
    else fun s =>
      match s with
      | [] => false
      | c :: t => (a = '_' || a.toLower = c.toLower) && likeChars p t

/-! ### Doubles -/

/-- The number of binary digits of a natural number, counted in at most `fuel`
halvings. -/
def bitLengthAux : Nat → Nat → Nat
  | 0, _ => 0
  | fuel + 1, a => if a = 0 then 0 else bitLengthAux fuel (a / 2) + 1

/-- The number of binary digits of a natural number: `a < 2 ^ bitLength a`, and
`2 ^ (bitLength a - 1) ≤ a` for a positive `a`. -/
def bitLength (a : Nat) : Nat := bitLengthAux a a

/-- The double nearest to a natural number, ties to the even significand; `none`
when the result is `Infinity` (2^1024 or more, a number of more than 1024 bits).
Up to 2^53 every natural number is a double. -/
def roundNat (a : Nat) : Option Nat :=
  if a ≤ 9007199254740992 then some a
  else
    let shift := bitLength a - 53
    let q := a / 2 ^ shift
    let r := a % 2 ^ shift
    let up := decide (2 ^ shift < 2 * r) || (decide (2 * r = 2 ^ shift) && decide (q % 2 = 1))
    let m := (if up then q + 1 else q) * 2 ^ shift
    if bitLength m ≤ 1024 then some m else none

/-- The double nearest to an integer; `none` when the result is infinite. -/
def roundInt (n : Int) : Option Int :=
  if 0 ≤ n then (roundNat n.toNat).map Int.ofNat
  else (roundNat n.natAbs).map fun m => -Int.ofNat m

/-- The fraction `num / den` divided by `2 ^ e`, as a numerator and a denominator. -/
def scaleBy (num den : Nat) (e : Int) : Nat × Nat :=
  if e < 0 then (num * 2 ^ e.natAbs, den) else (num, den * 2 ^ e.toNat)

/-- The double nearest to the fraction `num / den` (`den` positive), ties to the
even significand: the significand has 53 bits, or fewer at the least exponent
-1074 (subnormal numbers); `none` when the result is `Infinity`. -/
def roundFraction (num den : Nat) : Option ℚ :=
  if num = 0 then some 0
  else
    let e0 : Int := (bitLength num : Int) - (bitLength den : Int) - 52
    let e1 : Int := if (scaleBy num den e0).1 < 2 ^ 52 * (scaleBy num den e0).2 then e0 - 1 else e0
    let e : Int := max e1 (-1074)
    let n := (scaleBy num den e).1
    let d := (scaleBy num den e).2
    let q := n / d
    let r := n % d
    let up := decide (d < 2 * r) || (decide (2 * r = d) && decide (q % 2 = 1))
    let m := if up then q + 1 else q
    if 0 ≤ e ∧ 1024 < bitLength (m * 2 ^ e.toNat) then none
    else some ((m : ℚ) * 2 ^ e)

/-- The double nearest to a rational number; `none` when the result is infinite.
An integer up to 2^53 in magnitude is a double. -/
def roundRat (q : ℚ) : Option ℚ :=
  if q.den = 1 ∧ q.num.natAbs ≤ 9007199254740992 then some q
  else if 0 ≤ q then roundFraction q.num.natAbs q.den
  else (roundFraction q.num.natAbs q.den).map fun r => -r

/-! ### Numerals -/

/-- The value of a character as a digit of the given radix. -/
def digitOf (radix : Nat) (c : Char) : Option Nat :=
  let n := c.toNat
  let v : Option Nat :=
    if 48 ≤ n ∧ n ≤ 57 then some (n - 48)
    else if 97 ≤ n ∧ n ≤ 122 then some (n - 87)
    else if 65 ≤ n ∧ n ≤ 90 then some (n - 55)
    else none
  v.filter fun d => decide (d < radix)

/-- The digits of the longest prefix made of digits of the radix. -/
def leadingDigits (radix : Nat) : List Char → List Nat
  | [] => []
  | c :: t =>
    match digitOf radix c with
    | some d => d :: leadingDigits radix t
    | none => []

/-- The number written by a list of digits. -/
def digitsNumber (radix : Nat) (ds : List Nat) : Nat :=
  ds.foldl (fun n d => radix * n + d) 0

/-- A leading sign: whether it is a minus, and the text after it. -/
def splitSign (cs : List Char) : Bool × List Char :=
  match cs with
  | [] => (false, [])
  | c :: t => if c = '-' then (true, t) else if c = '+' then (false, t) else (false, c :: t)

/-- A decimal literal read from a text: sign, digits before and after the point,
number of digits after the point, exponent. -/
structure Decimal where
  negative : Bool
  whole : Nat
  frac : Nat
  fracDigits : Nat
  exponent : Int
deriving DecidableEq, Repr

/-- The number a decimal literal stands for. -/
def Decimal.value (d : Decimal) : ℚ :=
  let magnitude : ℚ := ((d.whole : ℚ) + (d.frac : ℚ) / 10 ^ d.fracDigits) * 10 ^ d.exponent
  if d.negative then -magnitude else magnitude

/-! ### Keys read from text -/

/-- White space that SQLite skips around a numeric text. -/
def isSqliteSpace (c : Char) : Bool :=
  decide (c.toNat = 32) || (decide (9 ≤ c.toNat) && decide (c.toNat ≤ 13))

/-- The end of a numeric text: only white space may follow, and there is a digit
before or after the point. -/
def numericEnd (digits : Bool) (tail : List Char) : Bool :=
  digits && (tail.dropWhile isSqliteSpace).isEmpty

/-- A text that SQLite takes for a number: white space, an optional sign, digits,
an optional point and digits, an optional exponent with at least one digit, white
space; nothing else. The flag tells whether the text is an integer literal (no
point and no exponent). `none` for any other text. -/
def readSqliteNumber (s : String) : Option (Bool × Decimal) :=
  let signed := splitSign (s.data.dropWhile isSqliteSpace)
  let whole := leadingDigits 10 signed.2
  let rest := signed.2.drop whole.length
  let point := match rest with
    | [] => false
    | c :: _ => decide (c = '.')
  let frac := if point then leadingDigits 10 (rest.drop 1) else []
  let tail := if point then (rest.drop 1).drop frac.length else rest
  let digits := !(whole.isEmpty && frac.isEmpty)
  let mantissa (exponent : Int) : Decimal :=
    ⟨signed.1, digitsNumber 10 whole, digitsNumber 10 frac, frac.length, exponent⟩
  match tail with
  | [] => if digits then some (!point, mantissa 0) else none
  | c :: t =>
    if c = 'e' ∨ c = 'E' then
      let esigned := splitSign t
      let eds := leadingDigits 10 esigned.2
      if eds.isEmpty then none
      else if numericEnd digits (esigned.2.drop eds.length) then
        some (false, mantissa (if esigned.1 then -(Int.ofNat (digitsNumber 10 eds))
          else Int.ofNat (digitsNumber 10 eds)))
      else none
    else if numericEnd digits (c :: t) then some (!point, mantissa 0)
    else none

/-- Whether an integer is a 64-bit signed integer, the range of the integers of
SQLite. -/
def isInt64 (n : Int) : Bool :=
  decide (-9223372036854775808 ≤ n) && decide (n ≤ 9223372036854775807)

/-- The integer key that a text equals in the comparison `column = 'text'` of
SQLite, where the column holds integers (a route parameter `:id` handed to
`findByPk`, a `genreId` or `platformId` of the query string): numeric affinity
turns a numeric text into an integer when it is an integer literal of 64 bits,
and otherwise into the nearest double, which equals a key when it is an integer.
A text that is not numeric equals no key. -/
def parseKey (s : String) : Option Int :=
  match readSqliteNumber s with
  | none => none
  | some (integer, d) =>
    let n : Int := if d.negative then -(Int.ofNat d.whole) else Int.ofNat d.whole
    if integer && isInt64 n then some n
    else
      match roundRat d.value with
      | none => none
      | some r => if r.den = 1 ∧ isInt64 r.num = true then some r.num else none

/-- The integer key denoted by a JSON number; a fractional number matches no
integer primary key. -/
def numKey (q : ℚ) : Option Int :=
  if q.den = 1 then some q.num else none

/-- JavaScript `parseInt` on a number whose decimal rendering is positional:
truncation toward zero. -/
def parseInt (q : ℚ) : Int :=
  if 0 ≤ q then Int.floor q else Int.ceil q

/-! ## Data model (`src/models/`) -/

/-- A row of table `genres`. -/
structure Genre where
  id : Int
  name : String
  description : Option String
deriving DecidableEq, Repr

/-- A row of table `platforms`. -/
structure Platform where
  id : Int
  name : String
  manufacturer : Option String
  releaseYear : Option Int
deriving DecidableEq, Repr

/-- A row of table `games`. -/
structure Game where
  id : Int
  name : String
  description : Option String
  rating : Option ℚ
  releaseDate : Option String
  developer : Option String
  publisher : Option String
  imageUrl : Option String
  genreId : Int
  platformId : Int
deriving DecidableEq, Repr

/-- The relational store: the three tables and their auto-increment counters. -/
structure Store where
  genres : List Genre
  platforms : List Platform
  games : List Game
  nextGenreId : Int
  nextPlatformId : Int
  nextGameId : Int
deriving DecidableEq, Repr

/-- What the code reads from its environment. `currentYear` is
`new Date().getFullYear()` at request time, `bootYear` the same expression
evaluated when `models/Platform.js` is loaded, `isUrl` the URL validator,
`dateOnly` the rendering of a `DATEONLY` value, `foreignKeys` whether the
store enforces the declared references. -/
structure Config where
  currentYear : Int
  bootYear : Int
  isUrl : String → Bool
  dateOnly : String → String
  foreignKeys : Bool

/-- A rejected persistence call, by the error names the handlers test. -/
inductive DbError where
  | validation (messages : List String) : DbError
  | uniqueConstraint : DbError
  | foreignKeyConstraint : DbError
  | other : DbError
deriving DecidableEq, Repr

/-- The user record kept in the session. -/
structure SessionUser where
  id : Int
  username : String
  email : String
deriving DecidableEq, Repr

/-- The session of a request (`req.session`). -/
structure Session where
  user : Option SessionUser
deriving DecidableEq, Repr

/-- A game with its genre and platform expanded, as returned by `findByPk`
with `include`. -/
structure GameView where
  game : Game
  genre : Option Genre
  platform : Option Platform
deriving DecidableEq, Repr

/-- The identifying echo `{id, name}` of a deleted row. -/
structure Deleted where
  id : Int
  name : String
deriving DecidableEq, Repr

/-- A JSON response: the status and the fields of the body that the handlers
set (`none` when the field is absent). -/
structure Response where
  status : Nat
  error : Option String
  message : Option String
  gamesCount : Option Nat
  game : Option GameView
  genre : Option Genre
  platform : Option Platform
  deleted : Option Deleted
deriving DecidableEq, Repr

/-- An error body `{error, message}`. -/
def Response.fail (status : Nat) (error message : String) : Response :=
  ⟨status, some error, some message, none, none, none, none, none⟩

/-- A 400 body of a blocked delete, carrying the number of blocking games. -/
def Response.blocked (error message : String) (count : Nat) : Response :=
  ⟨400, some error, some message, some count, none, none, none, none⟩

/-! ## Persistence layer (Sequelize model methods) -/

/-- The primary key denoted by a numeric body field (`findByPk` answers `null`
for `null` and `undefined`). -/
def fieldKey : Field ℚ → Option Int
  | .val q => numKey q
  | _ => none

/-- Validator `len: [lo, hi]` (characters counted as code points). -/
def lenOk (lo hi : Nat) (s : String) : Bool :=
  decide (lo ≤ s.data.length) && decide (s.data.length ≤ hi)

/-- Validator `notEmpty`: the text is not made of white space only. -/
def notEmptyOk (s : String) : Bool := !s.data.all isJsSpace

/-- The message list of one failed check. -/
def check (ok : Bool) (message : String) : List String :=
  if ok then [] else [message]

/-- Validators of a `name` column with `len: [2, hi]` and `notEmpty`. -/
def nameErrors (hi : Nat) (s : String) : List String :=
  check (lenOk 2 hi s) "Validation len on name failed"
    ++ check (notEmptyOk s) "Validation notEmpty on name failed"

/-- The method `Genre.findByPk`. -/
def Genre.findByPk (db : Store) (key : Option Int) : Option Genre :=
  match key with
  | none => none
  | some k => db.genres.find? fun g => decide (g.id = k)

/-- The method `Platform.findByPk`. -/
def Platform.findByPk (db : Store) (key : Option Int) : Option Platform :=
  match key with
  | none => none
  | some k => db.platforms.find? fun p => decide (p.id = k)

/-- The method `Game.findByPk`. -/
def Game.findByPk (db : Store) (key : Option Int) : Option Game :=
  match key with
  | none => none
  | some k => db.games.find? fun g => decide (g.id = k)

/-- The method `Game.findByPk` with genre and platform included. -/
def Game.findView (db : Store) (key : Option Int) : Option GameView :=
  (Game.findByPk db key).map fun g =>
    ⟨g, Genre.findByPk db (some g.genreId), Platform.findByPk db (some g.platformId)⟩

/-- The query `Game.count` with `where: {genreId: id}`. -/
def Game.countByGenre (db : Store) (key : Option Int) : Nat :=
  match key with
  | none => 0
  | some k => db.games.countP fun g => decide (g.genreId = k)

/-- The query `Game.count` with `where: {platformId: id}`. -/
def Game.countByPlatform (db : Store) (key : Option Int) : Nat :=
  match key with
  | none => 0
  | some k => db.games.countP fun g => decide (g.platformId = k)

/-- The query `Genre.findOne` with `name: { [Op.iLike]: pattern }` and, in update,
`id` different from the route key (`skip`). The statement sent to the store is
`... WHERE name ILIKE 'pattern' ...`; SQLite has no operator `ILIKE` and rejects
the statement (a syntax error), whatever the table holds, so the promise is
rejected. -/
def Genre.findOneILike (_db : Store) (_pattern : String) (_skip : Option (Option Int)) :
    Except DbError (Option Genre) :=
  .error .other

/-- The query `Platform.findOne` with `name: { [Op.iLike]: pattern }` and, in
update, `id` different from the route key (`skip`); rejected by the store as for
genres. -/
def Platform.findOneILike (_db : Store) (_pattern : String) (_skip : Option (Option Int)) :
    Except DbError (Option Platform) :=
  .error .other

/-- The method `Genre.create`: model validation, the unique index on `name`, then
the insert. -/
def Genre.create (db : Store) (name : String) (description : Option String) :
    Except DbError (Genre × Store) :=
  let errors := nameErrors 50 name
  if !errors.isEmpty then .error (.validation errors)
  else if db.genres.any fun g => decide (g.name = name) then .error .uniqueConstraint
  else
    let row : Genre := ⟨db.nextGenreId, name, description⟩
    .ok (row, { db with genres := db.genres ++ [row], nextGenreId := db.nextGenreId + 1 })

/-- The method `genre.update`: `name` and `description` are `some` when the key is
in `updateData`. The statement `UPDATE genres SET ... WHERE id = ...` writes the
columns of `updateData` in the rows with the key of the instance; the instance with
its new values is returned. -/
def Genre.update (db : Store) (row : Genre) (name : Option String)
    (description : Option (Option String)) : Except DbError (Genre × Store) :=
  let errors := match name with
    | none => []
    | some n => nameErrors 50 n
  if !errors.isEmpty then .error (.validation errors)
  else if (match name with
      | none => false
      | some n => db.genres.any fun g => decide (g.id ≠ row.id) && decide (g.name = n))
    then .error .uniqueConstraint
  else
    let row' : Genre := ⟨row.id, name.getD row.name, description.getD row.description⟩
    .ok (row', { db with genres := db.genres.map fun g =>
      if g.id = row.id then ⟨g.id, name.getD g.name, description.getD g.description⟩ else g })

/-- The method `genre.destroy`; a store that enforces foreign keys restricts the
delete while a game refers to the row. -/
def Genre.destroy (cfg : Config) (db : Store) (row : Genre) : Except DbError Store :=
  if cfg.foreignKeys && db.games.any fun g => decide (g.genreId = row.id) then
    .error .foreignKeyConstraint
  else .ok { db with genres := db.genres.filter fun g => decide (g.id ≠ row.id) }

/-- Validators of the `Platform` model other than those of `name`. -/
def platformErrors (cfg : Config) (manufacturer : Option String) (releaseYear : Option Int) :
    List String :=
  (match manufacturer with
    | none => []
    | some m => check (lenOk 0 50 m) "Validation len on manufacturer failed")
  ++ (match releaseYear with
    | none => []
    | some y => check (decide (1970 ≤ y)) "Validation min on releaseYear failed"
        ++ check (decide (y ≤ cfg.bootYear + 5)) "Validation max on releaseYear failed")

/-- The method `Platform.create`. -/
def Platform.create (cfg : Config) (db : Store) (name : String) (manufacturer : Option String)
    (releaseYear : Option Int) : Except DbError (Platform × Store) :=
  let errors := nameErrors 50 name ++ platformErrors cfg manufacturer releaseYear
  if !errors.isEmpty then .error (.validation errors)
  else if db.platforms.any fun p => decide (p.name = name) then .error .uniqueConstraint
  else
    let row : Platform := ⟨db.nextPlatformId, name, manufacturer, releaseYear⟩
    .ok (row, { db with platforms := db.platforms ++ [row],
                        nextPlatformId := db.nextPlatformId + 1 })

/-- The method `platform.update`: each argument is `some` when its key is in
`updateData`; the columns of `updateData` are written in the rows with the key of
the instance. -/
def Platform.update (cfg : Config) (db : Store) (row : Platform) (name : Option String)
    (manufacturer : Option (Option String)) (releaseYear : Option (Option Int)) :
    Except DbError (Platform × Store) :=
  let errors := (match name with
    | none => []
    | some n => nameErrors 50 n) ++ platformErrors cfg (manufacturer.getD none) (releaseYear.getD none)
  if !errors.isEmpty then .error (.validation errors)
  else if (match name with
      | none => false
      | some n => db.platforms.any fun p => decide (p.id ≠ row.id) && decide (p.name = n))
    then .error .uniqueConstraint
  else
    let row' : Platform :=
      ⟨row.id, name.getD row.name, manufacturer.getD row.manufacturer,
        releaseYear.getD row.releaseYear⟩
    .ok (row', { db with platforms := db.platforms.map fun p =>
      if p.id = row.id then
        ⟨p.id, name.getD p.name, manufacturer.getD p.manufacturer,
          releaseYear.getD p.releaseYear⟩
      else p })

/-- The method `platform.destroy`. -/
def Platform.destroy (cfg : Config) (db : Store) (row : Platform) : Except DbError Store :=
  if cfg.foreignKeys && db.games.any fun g => decide (g.platformId = row.id) then
    .error .foreignKeyConstraint
  else .ok { db with platforms := db.platforms.filter fun p => decide (p.id ≠ row.id) }

/-- The fields of a game as they appear in a request body and in the object
handed to `Game.create` or `game.update` (there, `undefined` means that the key is
absent). -/
structure GameFields where
  name : Field String
  description : Field String
  rating : Field ℚ
  releaseDate : Field String
  developer : Field String
  publisher : Field String
  imageUrl : Field String
  genreId : Field ℚ
  platformId : Field ℚ
deriving DecidableEq, Repr

/-- The check of `allowNull: false`: on create an absent value is `NULL` too. -/
def requiredErrors {α : Type} (create : Bool) (f : Field α) (message : String) : List String :=
  match f with
  | .null => [message]
  | .undefined => if create then [message] else []
  | .val _ => []

/-- Validators of an optional text column. -/
def textErrors (f : Field String) (ok : String → Bool) (message : String) : List String :=
  match f with
  | .val s => check (ok s) message
  | _ => []

/-- Validators of the `Game` model, in the order of its attributes. -/
def gameErrors (cfg : Config) (create : Bool) (v : GameFields) : List String :=
  requiredErrors create v.name "Game.name cannot be null"
  ++ (match v.name with
      | .val s => nameErrors 100 s
      | _ => [])
  ++ (match v.rating with
      | .val q => check (decide (0 ≤ q)) "Validation min on rating failed"
          ++ check (decide (q ≤ 10)) "Validation max on rating failed"
      | _ => [])
  ++ textErrors v.developer (lenOk 0 100) "Validation len on developer failed"
  ++ textErrors v.publisher (lenOk 0 100) "Validation len on publisher failed"
  ++ textErrors v.imageUrl cfg.isUrl "Validation isUrl on imageUrl failed"
  ++ requiredErrors create v.genreId "Game.genreId cannot be null"
  ++ requiredErrors create v.platformId "Game.platformId cannot be null"

/-- The value of a nullable column after an update with field `f`. -/
def Field.over {α : Type} (f : Field α) (old : Option α) : Option α :=
  match f with
  | .undefined => old
  | .null => none
  | .val a => some a

/-- The value of an integer key column after a write with field `f`; `none` when
the value cannot be stored in the column. -/
def keyOver (f : Field ℚ) (old : Option Int) : Option Int :=
  match f with
  | .undefined => old
  | .null => none
  | .val q => numKey q

/-- The check of the declared references of a written game row, for the key
columns that the write sets. -/
def referencesOk (db : Store) (v : GameFields) (genreId platformId : Int) : Bool :=
  (!v.genreId.supplied || (Genre.findByPk db (some genreId)).isSome)
    && (!v.platformId.supplied || (Platform.findByPk db (some platformId)).isSome)

/-- The game row obtained from `old` by writing the fields of `v`. -/
def Game.write (cfg : Config) (old : Game) (v : GameFields) (genreId platformId : Int) : Game :=
  ⟨old.id,
    (match v.name with
      | .val s => s
      | _ => old.name),
    v.description.over old.description,
    v.rating.over old.rating,
    (match v.releaseDate with
      | .undefined => old.releaseDate
      | .null => none
      | .val d => some (cfg.dateOnly d)),
    v.developer.over old.developer,
    v.publisher.over old.publisher,
    v.imageUrl.over old.imageUrl,
    genreId, platformId⟩

/-- The method `Game.create`: model validation, the declared references when the
store enforces them, then the insert. -/
def Game.create (cfg : Config) (db : Store) (v : GameFields) : Except DbError (Game × Store) :=
  let errors := gameErrors cfg true v
  if !errors.isEmpty then .error (.validation errors)
  else
    match keyOver v.genreId none, keyOver v.platformId none with
    | some gk, some pk =>
      if cfg.foreignKeys && !referencesOk db v gk pk then .error .foreignKeyConstraint
      else
        let row := Game.write cfg ⟨db.nextGameId, "", none, none, none, none, none, none, gk, pk⟩ v gk pk
        .ok (row, { db with games := db.games ++ [row], nextGameId := db.nextGameId + 1 })
    | _, _ => .error .other

/-- The method `game.update`: validation of the keys of `updateData`, the
declared references when the store enforces them, then the update of the row. -/
def Game.update (cfg : Config) (db : Store) (row : Game) (v : GameFields) :
    Except DbError (Game × Store) :=
  let errors := gameErrors cfg false v
  if !errors.isEmpty then .error (.validation errors)
  else
    match keyOver v.genreId (some row.genreId), keyOver v.platformId (some row.platformId) with
    | some gk, some pk =>
      if cfg.foreignKeys && !referencesOk db v gk pk then .error .foreignKeyConstraint
      else
        let row' := Game.write cfg row v gk pk
        .ok (row', { db with games := db.games.map fun g => if g.id = row.id then row' else g })
    | _, _ => .error .other

/-- The method `game.destroy`. -/
def Game.destroy (db : Store) (row : Game) : Store :=
  { db with games := db.games.filter fun g => decide (g.id ≠ row.id) }

/-! ## Handlers of `src/routes/games.js` -/

/-- The middleware `requireAuth`: without a session user the request is answered
401 and the handler `next` is not run. -/
def requireAuth (session : Session) (next : Store → Response × Store) (db : Store) :
    Response × Store :=
  if session.user.isNone then
    (Response.fail 401 "Unauthorized" "Authentication required", db)
  else next db

/-- The test `rating < 0 || rating > 10`. -/
def ratingOutside : Field ℚ → Bool
  | .val q => decide (q < 0) || decide (q > 10)
  | _ => false

/-- The expression `rating ? parseFloat(rating) : null`. -/
def ratingValue (rating : Field ℚ) : Field ℚ :=
  if truthyNum rating then rating else .null

/-- A response carrying a message and a game. -/
def Response.withGame (status : Nat) (message : String) (view : Option GameView) : Response :=
  ⟨status, none, some message, none, view, none, none, none⟩

/-- The body `text.join(", ")` of a validation error. -/
def joinMessages (messages : List String) : String := ", ".intercalate messages

/-- The handler of `POST /api/games`. -/
def createGame (cfg : Config) (session : Session) (body : GameFields) :
    Store → Response × Store :=
  requireAuth session fun db =>
    if !truthyStr body.name || !truthyNum body.genreId || !truthyNum body.platformId then
      (Response.fail 400 "Validation error" "Name, genre, and platform are required", db)
    else
      let genre := Genre.findByPk db (fieldKey body.genreId)
      let platform := Platform.findByPk db (fieldKey body.platformId)
      if genre.isNone then
        (Response.fail 400 "Validation error" "Invalid genre ID", db)
      else if platform.isNone then
        (Response.fail 400 "Validation error" "Invalid platform ID", db)
      else if truthyNum body.rating && ratingOutside body.rating then
        (Response.fail 400 "Validation error" "Rating must be between 0 and 10", db)
      else
        match Game.create cfg db { body with rating := ratingValue body.rating } with
        | .ok (game, db') =>
          (Response.withGame 201 "Game created successfully" (Game.findView db' (some game.id)), db')
        | .error (.validation messages) =>
          (Response.fail 400 "Validation error" (joinMessages messages), db)
        | .error _ =>
          (Response.fail 500 "Internal server error" "Failed to create game", db)

/-- The object `updateData` of `PUT /api/games/:id`: the supplied fields, with
`rating` passed through `rating ? parseFloat(rating) : null`. -/
def gameUpdateData (body : GameFields) : GameFields :=
  { body with rating := if body.rating.supplied then ratingValue body.rating else .undefined }

/-- The handler of `PUT /api/games/:id`. -/
def updateGame (cfg : Config) (session : Session) (id : String) (body : GameFields) :
    Store → Response × Store :=
  requireAuth session fun db =>
    match Game.findByPk db (parseKey id) with
    | none => (Response.fail 404 "Game not found" ("Game with ID " ++ id ++ " not found"), db)
    | some game =>
      if truthyNum body.genreId && (Genre.findByPk db (fieldKey body.genreId)).isNone then
        (Response.fail 400 "Validation error" "Invalid genre ID", db)
      else if truthyNum body.platformId
          && (Platform.findByPk db (fieldKey body.platformId)).isNone then
        (Response.fail 400 "Validation error" "Invalid platform ID", db)
      else if truthyNum body.rating && ratingOutside body.rating then
        (Response.fail 400 "Validation error" "Rating must be between 0 and 10", db)
      else
        match Game.update cfg db game (gameUpdateData body) with
        | .ok (_, db') =>
          (Response.withGame 200 "Game updated successfully" (Game.findView db' (parseKey id)), db')
        | .error (.validation messages) =>
          (Response.fail 400 "Validation error" (joinMessages messages), db)
        | .error _ =>
          (Response.fail 500 "Internal server error" "Failed to update game", db)

/-- A response carrying a message and the echo of the deleted row. -/
def Response.withDeleted (message : String) (id : Int) (name : String) : Response :=
  ⟨200, none, some message, none, none, none, none, some ⟨id, name⟩⟩

/-- The handler of `DELETE /api/games/:id`. -/
def deleteGame (session : Session) (id : String) : Store → Response × Store :=
  requireAuth session fun db =>
    match Game.findByPk db (parseKey id) with
    | none => (Response.fail 404 "Game not found" ("Game with ID " ++ id ++ " not found"), db)
    | some game =>
      (Response.withDeleted "Game deleted successfully" game.id game.name, Game.destroy db game)

/-! ## Handlers of `src/routes/genres.js` -/

/-- The body of a genre request. -/
structure GenreFields where
  name : Field String
  description : Field String
deriving DecidableEq, Repr

/-- The expression `text ? text.trim() : null`. -/
def trimOrNull (f : Field String) : Option String :=
  match f with
  | .val s => if truthyStr f then some (jsTrim s) else none
  | _ => none

/-- The test `name.length < 2 || name.length > 50`. -/
def nameLengthOutside (name : String) : Bool :=
  decide (jsLength name < 2) || decide (jsLength name > 50)

/-- A response carrying a message and a genre. -/
def Response.withGenre (status : Nat) (message : String) (genre : Genre) : Response :=
  ⟨status, none, some message, none, none, some genre, none, none⟩

/-- A response carrying a message and a platform. -/
def Response.withPlatform (status : Nat) (message : String) (platform : Platform) : Response :=
  ⟨status, none, some message, none, none, none, some platform, none⟩

/-- The `catch` block of the genre handlers. -/
def genreCatch (action : String) (e : DbError) : Response :=
  match e with
  | .validation messages => Response.fail 400 "Validation error" (joinMessages messages)
  | .uniqueConstraint =>
    Response.fail 409 "Genre already exists" "A genre with this name already exists"
  | _ => Response.fail 500 "Internal server error" ("Failed to " ++ action ++ " genre")

/-- The handler of `POST /api/genres`. -/
def createGenre (session : Session) (body : GenreFields) : Store → Response × Store :=
  requireAuth session fun db =>
    match body.name with
    | .val name =>
      if !truthyStr body.name then
        (Response.fail 400 "Validation error" "Name is required", db)
      else if nameLengthOutside name then
        (Response.fail 400 "Validation error" "Name must be between 2 and 50 characters", db)
      else
        match Genre.findOneILike db name none with
        | .error e => (genreCatch "create" e, db)
        | .ok existingGenre =>
          if existingGenre.isSome then
            (Response.fail 409 "Genre already exists" "A genre with this name already exists",
              db)
          else
            match Genre.create db (jsTrim name) (trimOrNull body.description) with
            | .ok (genre, db') => (Response.withGenre 201 "Genre created successfully" genre, db')
            | .error e => (genreCatch "create" e, db)
    | _ => (Response.fail 400 "Validation error" "Name is required", db)

/-- The handler of `PUT /api/genres/:id`. -/
def updateGenre (session : Session) (id : String) (body : GenreFields) :
    Store → Response × Store :=
  requireAuth session fun db =>
    match Genre.findByPk db (parseKey id) with
    | none => (Response.fail 404 "Genre not found" ("Genre with ID " ++ id ++ " not found"), db)
    | some genre =>
      let description : Option (Option String) :=
        if body.description.supplied then some (trimOrNull body.description) else none
      let save (name : Option String) : Response × Store :=
        match Genre.update db genre name description with
        | .ok (genre', db') => (Response.withGenre 200 "Genre updated successfully" genre', db')
        | .error e => (genreCatch "update" e, db)
      match body.name with
      | .undefined => save none
      | .null =>
        (Response.fail 400 "Validation error" "Name must be between 2 and 50 characters", db)
      | .val name =>
        if !truthyStr body.name || nameLengthOutside name then
          (Response.fail 400 "Validation error" "Name must be between 2 and 50 characters", db)
        else
          match Genre.findOneILike db name (some (parseKey id)) with
          | .error e => (genreCatch "update" e, db)
          | .ok existingGenre =>
            if existingGenre.isSome then
              (Response.fail 409 "Genre already exists"
                "Another genre with this name already exists", db)
            else save (some (jsTrim name))

/-- The handler of `DELETE /api/genres/:id`. -/
def deleteGenre (cfg : Config) (session : Session) (id : String) : Store → Response × Store :=
  requireAuth session fun db =>
    match Genre.findByPk db (parseKey id) with
    | none => (Response.fail 404 "Genre not found" ("Genre with ID " ++ id ++ " not found"), db)
    | some genre =>
      let gameCount := Game.countByGenre db (parseKey id)
      if gameCount > 0 then
        (Response.blocked "Cannot delete genre"
          ("Cannot delete genre. " ++ toString gameCount ++ " game(s) are using this genre.")
          gameCount, db)
      else
        match Genre.destroy cfg db genre with
        | .ok db' => (Response.withDeleted "Genre deleted successfully" genre.id genre.name, db')
        | .error _ => (Response.fail 500 "Internal server error" "Failed to delete genre", db)

/-! ## Handlers of `src/routes/platforms.js` -/

/-- The body of a platform request. -/
structure PlatformFields where
  name : Field String
  manufacturer : Field String
  releaseYear : Field ℚ
deriving DecidableEq, Repr

/-- The test `releaseYear < 1970 || releaseYear > currentYear + 5`. -/
def yearOutside (cfg : Config) : Field ℚ → Bool
  | .val q => decide (q < 1970) || decide (q > ((cfg.currentYear + 5 : Int) : ℚ))
  | .null => true
  | .undefined => false

/-- The expression `releaseYear ? parseInt(releaseYear) : null`. -/
def yearValue (releaseYear : Field ℚ) : Option Int :=
  match releaseYear with
  | .val q => if truthyNum releaseYear then some (parseInt q) else none
  | _ => none

/-- The `catch` block of the platform handlers. -/
def platformCatch (action : String) (e : DbError) : Response :=
  match e with
  | .validation messages => Response.fail 400 "Validation error" (joinMessages messages)
  | .uniqueConstraint =>
    Response.fail 409 "Platform already exists" "A platform with this name already exists"
  | _ => Response.fail 500 "Internal server error" ("Failed to " ++ action ++ " platform")

/-- The message of a rejected release year. -/
def yearMessage (cfg : Config) : String :=
  "Release year must be between 1970 and " ++ toString (cfg.currentYear + 5)

/-- The handler of `POST /api/platforms`. -/
def createPlatform (cfg : Config) (session : Session) (body : PlatformFields) :
    Store → Response × Store :=
  requireAuth session fun db =>
    match body.name with
    | .val name =>
      if !truthyStr body.name then
        (Response.fail 400 "Validation error" "Name is required", db)
      else if nameLengthOutside name then
        (Response.fail 400 "Validation error" "Name must be between 2 and 50 characters", db)
      else if truthyNum body.releaseYear && yearOutside cfg body.releaseYear then
        (Response.fail 400 "Validation error" (yearMessage cfg), db)
      else
        match Platform.findOneILike db name none with
        | .error e => (platformCatch "create" e, db)
        | .ok existingPlatform =>
          if existingPlatform.isSome then
            (Response.fail 409 "Platform already exists"
              "A platform with this name already exists", db)
          else
            match Platform.create cfg db (jsTrim name) (trimOrNull body.manufacturer)
                (yearValue body.releaseYear) with
            | .ok (platform, db') =>
              (Response.withPlatform 201 "Platform created successfully" platform, db')
            | .error e => (platformCatch "create" e, db)
    | _ => (Response.fail 400 "Validation error" "Name is required", db)

/-- The handler of `PUT /api/platforms/:id`. -/
def updatePlatform (cfg : Config) (session : Session) (id : String) (body : PlatformFields) :
    Store → Response × Store :=
  requireAuth session fun db =>
    match Platform.findByPk db (parseKey id) with
    | none =>
      (Response.fail 404 "Platform not found" ("Platform with ID " ++ id ++ " not found"), db)
    | some platform =>
      let manufacturer : Option (Option String) :=
        if body.manufacturer.supplied then some (trimOrNull body.manufacturer) else none
      let releaseYear : Option (Option Int) :=
        if body.releaseYear.supplied then some (yearValue body.releaseYear) else none
      let save (name : Option String) : Response × Store :=
        if body.releaseYear.supplied && body.releaseYear ≠ .null
            && yearOutside cfg body.releaseYear then
          (Response.fail 400 "Validation error" (yearMessage cfg), db)
        else
          match Platform.update cfg db platform name manufacturer releaseYear with
          | .ok (platform', db') =>
            (Response.withPlatform 200 "Platform updated successfully" platform', db')
          | .error e => (platformCatch "update" e, db)
      match body.name with
      | .undefined => save none
      | .null =>
        (Response.fail 400 "Validation error" "Name must be between 2 and 50 characters", db)
      | .val name =>
        if !truthyStr body.name || nameLengthOutside name then
          (Response.fail 400 "Validation error" "Name must be between 2 and 50 characters", db)
        else
          match Platform.findOneILike db name (some (parseKey id)) with
          | .error e => (platformCatch "update" e, db)
          | .ok existingPlatform =>
            if existingPlatform.isSome then
              (Response.fail 409 "Platform already exists"
                "Another platform with this name already exists", db)
            else save (some (jsTrim name))

/-- The handler of `DELETE /api/platforms/:id`. -/
def deletePlatform (cfg : Config) (session : Session) (id : String) :
    Store → Response × Store :=
  requireAuth session fun db =>
    match Platform.findByPk db (parseKey id) with
    | none =>
      (Response.fail 404 "Platform not found" ("Platform with ID " ++ id ++ " not found"), db)
    | some platform =>
      let gameCount := Game.countByPlatform db (parseKey id)
      if gameCount > 0 then
        (Response.blocked "Cannot delete platform"
          ("Cannot delete platform. " ++ toString gameCount ++ " game(s) are using this platform.")
          gameCount, db)
      else
        match Platform.destroy cfg db platform with
        | .ok db' =>
          (Response.withDeleted "Platform deleted successfully" platform.id platform.name, db')
        | .error _ => (Response.fail 500 "Internal server error" "Failed to delete platform", db)

/-! ## Spec-side notions used in the statements -/

/-- The number of games that refer to genre `k`. -/
def gamesOfGenre (db : Store) (k : Int) : Nat :=
  db.games.countP fun g => decide (g.genreId = k)

/-- The number of games that refer to platform `k`. -/
def gamesOfPlatform (db : Store) (k : Int) : Nat :=
  db.games.countP fun g => decide (g.platformId = k)

/-- The store after a run of authenticated `DELETE /api/games/:id` requests, one
per route parameter of `ids`. -/
def deleteGames (session : Session) (ids : List String) (db : Store) : Store :=
  ids.foldl (fun d id => (deleteGame session id d).2) db

/-- The answer of requireAuth to a request without a session user. -/
def unauthorized : Response := Response.fail 401 "Unauthorized" "Authentication required"

/-! ## Sample data (after `createSampleData` of `src/models/index.js`) -/

/-- A configuration: requests in 2025, no foreign-key enforcement in the store. -/
def sampleConfig : Config := ⟨2025, 2025, fun s => s.data.length > 7, fun d => d, false⟩

/-- The same configuration with foreign-key enforcement in the store. -/
def strictConfig : Config := ⟨2025, 2025, fun s => s.data.length > 7, fun d => d, true⟩

/-- An authenticated session. -/
def adminSession : Session := ⟨some ⟨1, "admin", "admin@games.com"⟩⟩

/-- The genre "Action". -/
def actionGenre : Genre := ⟨1, "Action", some "High-energy games with combat and challenges"⟩

/-- The platform "PC". -/
def pcPlatform : Platform := ⟨1, "PC", some "Various", none⟩

/-- A game of genre "Action" on platform "PC". -/
def doomGame : Game :=
  ⟨1, "Doom", none, some 8, some "2016-05-13", some "id Software", none, none, 1, 1⟩

/-- A store with two genres, two platforms and two games, both games of genre 1
on platform 1. -/
def sampleStore : Store :=
  ⟨[actionGenre, ⟨2, "RPG", none⟩],
   [pcPlatform, ⟨2, "Nintendo Switch", some "Nintendo", some 2017⟩],
   [doomGame, ⟨2, "Quake", none, none, none, none, none, none, 1, 1⟩],
   3, 3, 3⟩

/-- Referential integrity of a store: the genreId and the platformId of every
game refer to existing rows. -/
def referencesResolve (db : Store) : Bool :=
  db.games.all fun g =>
    (Genre.findByPk db (some g.genreId)).isSome && (Platform.findByPk db (some g.platformId)).isSome

/-- A game body with no field supplied. -/
def emptyGameFields : GameFields :=
  ⟨.undefined, .undefined, .undefined, .undefined, .undefined, .undefined, .undefined,
    .undefined, .undefined⟩

/-- The answer to a rating outside the interval from 0 to 10. -/
def ratingRejected : Response :=
  Response.fail 400 "Validation error" "Rating must be between 0 and 10"

/-! ## Query-string primitives -/

/-- The test `if (param)` on a query parameter: present and not the empty string. -/
def truthyParam : Option String → Bool
  | some s => !s.data.isEmpty
  | none => false

/-- A leading `0x` or `0X`: the radix, and the text after the prefix. -/
def splitRadix (cs : List Char) : Nat × List Char :=
  match cs with
  | a :: b :: t => if a = '0' ∧ (b = 'x' ∨ b = 'X') then (16, t) else (10, a :: b :: t)
  | other => (10, other)

/-- JavaScript `parseInt(text)` with no radix argument: leading white space is
skipped, then an optional sign, an optional `0x` and the longest run of digits;
the result is the double nearest to the integer written. `none` is a result that
is not a finite number: `NaN` when there is no digit, `Infinity` when the integer
is beyond the doubles. -/
def parseIntStr (s : String) : Option Int :=
  let signed := splitSign (s.data.dropWhile isJsSpace)
  let body := splitRadix signed.2
  let ds := leadingDigits body.1 body.2
  if ds.isEmpty then none
  else
    match roundNat (digitsNumber body.1 ds) with
    | none => none
    | some m => if signed.1 then some (-(Int.ofNat m)) else some (Int.ofNat m)

/-- The exponent part `e±digits` at the head of a text, 0 when there is none. -/
def exponentOf (cs : List Char) : Int :=
  match cs with
  | [] => 0
  | c :: t =>
    if c = 'e' ∨ c = 'E' then
      let signed := splitSign t
      let ds := leadingDigits 10 signed.2
      if ds.isEmpty then 0
      else if signed.1 then -(Int.ofNat (digitsNumber 10 ds))
      else Int.ofNat (digitsNumber 10 ds)
    else 0

/-- The longest prefix of a text that is a decimal literal, after leading white
space: an optional sign, digits, an optional point and digits, an optional
exponent. `none` when there is no digit. -/
def readDecimal (s : String) : Option Decimal :=
  let signed := splitSign (s.data.dropWhile isJsSpace)
  let whole := leadingDigits 10 signed.2
  let rest := signed.2.drop whole.length
  let frac := match rest with
    | [] => []
    | c :: t => if c = '.' then leadingDigits 10 t else []
  let tail := match rest with
    | [] => []
    | c :: t => if c = '.' then t.drop frac.length else c :: t
  if whole.isEmpty && frac.isEmpty then none
  else some ⟨signed.1, digitsNumber 10 whole, digitsNumber 10 frac, frac.length, exponentOf tail⟩

/-- JavaScript `parseFloat(text)`: the double nearest to the decimal literal at
the head of the text; `none` is a result that is not a finite number (`NaN`, the
literal `Infinity`, which starts with no digit, or a literal beyond the doubles
such as `1e400`). -/
def parseFloatStr (s : String) : Option ℚ :=
  (readDecimal s).bind fun d => roundRat d.value

/-- The letter that the upper-casing of JavaScript gives for a character, for the
characters whose upper case is an ASCII letter: the ASCII letters, the dotless i
(U+0131) and the long s (U+017F). Every other character is left as it is; its
upper case is never an ASCII letter. -/
def upperChar (c : Char) : Char :=
  if c.toNat = 383 then 'S' else if c.toNat = 305 then 'I' else c.toUpper

/-- JavaScript `text.toUpperCase()`, as far as comparisons with an ASCII word go. -/
def toUpperCase (s : String) : String := ⟨s.data.map upperChar⟩

/-- The expression `Math.ceil(count / limit)` for a divisor other than 0. -/
def ceilDiv (count limit : Int) : Int :=
  if 0 < limit then -((-count) / limit) else -(count / (-limit))

/-- The JSON value of `Math.ceil(count / limit)`: `null` when `count` or `limit`
is `NaN` or when `limit` is 0 (the quotient is then infinite or `NaN`). For a
count below 2^53 the ceiling of the rounded quotient is the ceiling of the exact
quotient: between two integers next to each other, the quotient is at least
`1 / limit` away from the lower one, more than half the gap of the doubles there. -/
def pageCount (count limit : Option Int) : Option Int :=
  match count, limit with
  | some c, some l => if l = 0 then none else some (ceilDiv c l)
  | _, _ => none

/-- The expression `(parseInt(page) - 1) * parseInt(limit)`: the difference and
then the product are rounded to the nearest double; `none` when an operand or a
result is not a finite number. -/
def offsetOf (page limit : Option Int) : Option Int :=
  match page, limit with
  | some p, some l => (roundInt (p - 1)).bind fun d => roundInt (d * l)
  | _, _ => none

/-- The value of `parseInt(param)` after the destructuring default: the default
number when the parameter is absent. -/
def parseParam (param : Option String) (default : Int) : Option Int :=
  match param with
  | none => some default
  | some s => parseIntStr s

/-- The template `%${search}%`. -/
def containsPattern (search : String) : String := ⟨'%' :: (search.data ++ ['%'])⟩

/-- The predicate `column LIKE pattern` (`Op.like`); a `NULL` column matches no
pattern. -/
def like (column : Option String) (pattern : String) : Bool :=
  match column with
  | none => false
  | some text => likeChars pattern.data text.data

/-! ## List queries (`findAndCountAll`) -/

/-- The order in which the store returns rows for `ORDER BY column direction`: a
function that permutes the rows it is given. -/
structure Sorter (α : Type) where
  sort : String → String → List α → List α
  perm : ∀ (column direction : String) (rows : List α), (sort column direction rows).Perm rows

/-- The row orders of the three tables. -/
structure ListEnv where
  games : Sorter Game
  genres : Sorter Genre
  platforms : Sorter Platform

/-- The rows kept by `LIMIT offset, limit` in SQLite: a negative offset counts as
0 and a negative limit is no limit. The statement is rejected when a value is not
a finite number (the text `NaN` or `Infinity` is no number of SQL) or is not a
64-bit integer (`datatype mismatch`). -/
def window {α : Type} (limit offset : Option Int) (rows : List α) : Except DbError (List α) :=
  match limit, offset with
  | some l, some o =>
    if isInt64 l && isInt64 o then
      let rest := rows.drop o.toNat
      .ok (if l < 0 then rest else rest.take l.toNat)
    else .error .other
  | _, _ => .error .other

/-- The `count` of `findAndCountAll`: a number, or with `group` one entry per
group (the key of the group and its count). -/
inductive Count where
  | number (n : Nat) : Count
  | groups (entries : List (Int × Nat)) : Count
deriving DecidableEq, Repr

/-- The number that JavaScript makes of `count` in `count / limit`: an empty
array is 0, any other array of objects is `NaN`. -/
def Count.toNumber : Count → Option Int
  | .number n => some (Int.ofNat n)
  | .groups [] => some 0
  | .groups (_ :: _) => none

/-- The arguments `limit`, `offset` and `order` of `findAndCountAll`. -/
structure ListPlan where
  page : Option Int
  limit : Option Int
  offset : Option Int
  column : String
  direction : String
deriving DecidableEq, Repr

/-- The expression `validSortFields.includes(sortBy) ? sortBy : "name"`, with
the default `sortBy = "name"`. -/
def sortColumn (validSortFields : List String) (sortBy : Option String) : String :=
  if validSortFields.contains (sortBy.getD "name") then sortBy.getD "name" else "name"

/-- The expression `sortOrder.toUpperCase() === "DESC" ? "DESC" : "ASC"`, with
the default `sortOrder = "ASC"`. -/
def sortDirection (sortOrder : Option String) : String :=
  if toUpperCase (sortOrder.getD "ASC") = "DESC" then "DESC" else "ASC"

/-- The paging and ordering arguments that a list handler computes from the
query. -/
def listPlan (validSortFields : List String) (defaultLimit : Int)
    (page limit sortBy sortOrder : Option String) : ListPlan :=
  ⟨parseParam page 1, parseParam limit defaultLimit,
    offsetOf (parseParam page 1) (parseParam limit defaultLimit),
    sortColumn validSortFields sortBy, sortDirection sortOrder⟩

/-- The object `pagination` of a list response. -/
structure Pagination where
  page : Option Int
  limit : Option Int
  total : Count
  pages : Option Int
deriving DecidableEq, Repr

/-- The object `pagination` built from a plan and a count. -/
def paginationOf (plan : ListPlan) (count : Count) : Pagination :=
  ⟨plan.page, plan.limit, count, pageCount count.toNumber plan.limit⟩

/-- The object `filters` of a list response (a key that a handler does not set
is `none`). -/
structure Filters where
  search : Option String
  genreId : Option String
  platformId : Option String
  minRating : Option String
  maxRating : Option String
  manufacturer : Option String
  includeGameCount : Option String
  sortBy : String
  sortOrder : String
deriving DecidableEq, Repr

/-- The response of a list handler. -/
structure ListResponse (α : Type) where
  status : Nat
  error : Option String
  message : Option String
  rows : List α
  pagination : Option Pagination
  filters : Option Filters
deriving DecidableEq, Repr

/-- The 500 answer of the `catch` block of a list handler. -/
def ListResponse.failed {α : Type} (message : String) : ListResponse α :=
  ⟨500, some "Internal server error", some message, [], none, none⟩

/-! ## List handler of `src/routes/games.js` -/

/-- The query string of `GET /api/games`. -/
structure GameQuery where
  page : Option String
  limit : Option String
  search : Option String
  genreId : Option String
  platformId : Option String
  minRating : Option String
  maxRating : Option String
  sortBy : Option String
  sortOrder : Option String
deriving DecidableEq, Repr

/-- The object `whereConditions` of `GET /api/games`: the pattern of the `Op.or`
group, the two key filters and the bounds on `rating` (`some none` is a bound that
is `NaN`). -/
structure GameWhere where
  search : Option String
  genreId : Option String
  platformId : Option String
  ratingGte : Option (Option ℚ)
  ratingLte : Option (Option ℚ)
deriving DecidableEq, Repr

/-- The construction of `whereConditions` in `GET /api/games`. -/
def gameWhere (q : GameQuery) : GameWhere :=
  ⟨if truthyParam q.search then q.search.map containsPattern else none,
    if truthyParam q.genreId then q.genreId else none,
    if truthyParam q.platformId then q.platformId else none,
    if truthyParam q.minRating then q.minRating.map parseFloatStr else none,
    if truthyParam q.maxRating then q.maxRating.map parseFloatStr else none⟩

/-- The `Op.or` group of the games search. -/
def gameSearchHolds (pattern : String) (g : Game) : Bool :=
  like (some g.name) pattern || like g.description pattern
    || like g.developer pattern || like g.publisher pattern

/-- A comparison of the column `rating` with a bound; a `NULL` rating satisfies no
comparison. -/
def ratingHolds (ok : ℚ → ℚ → Bool) (bound : Option (Option ℚ)) (rating : Option ℚ) : Bool :=
  match bound with
  | none => true
  | some none => false
  | some (some b) =>
    match rating with
    | none => false
    | some r => ok r b

/-- The comparison of an integer key column with the text of a query parameter. -/
def keyHolds (param : Option String) (key : Int) : Bool :=
  match param with
  | none => true
  | some s => decide (parseKey s = some key)

/-- Whether a game satisfies `whereConditions`. -/
def GameWhere.holds (w : GameWhere) (g : Game) : Bool :=
  (match w.search with
    | none => true
    | some pattern => gameSearchHolds pattern g)
  && keyHolds w.genreId g.genreId
  && keyHolds w.platformId g.platformId
  && ratingHolds (fun r b => decide (b ≤ r)) w.ratingGte g.rating
  && ratingHolds (fun r b => decide (r ≤ b)) w.ratingLte g.rating

/-- Whether the statement built from `whereConditions` is valid: no bound is
`NaN`. -/
def GameWhere.valid (w : GameWhere) : Bool :=
  decide (w.ratingGte ≠ some none) && decide (w.ratingLte ≠ some none)

/-- The method `Game.findAndCountAll` with genre and platform included. The
count is that of the matching rows (`COUNT(DISTINCT id)` over rows whose keys are
distinct); `rows` is empty when the count is 0. -/
def Game.findAndCountAll (env : ListEnv) (db : Store) (w : GameWhere) (plan : ListPlan) :
    Except DbError (Count × List GameView) :=
  if !w.valid then .error .other
  else
    let matching := db.games.filter w.holds
    match window plan.limit plan.offset (env.games.sort plan.column plan.direction matching) with
    | .error e => .error e
    | .ok rows =>
      .ok (.number matching.length,
        if matching.length = 0 then []
        else rows.map fun g =>
          ⟨g, Genre.findByPk db (some g.genreId), Platform.findByPk db (some g.platformId)⟩)

/-- The array `validSortFields` of `GET /api/games`. -/
def gameSortFields : List String := ["name", "rating", "releaseDate", "createdAt"]

/-- The answer of `GET /api/games` once `limit`, `offset` and `order` are
computed: the call of `Game.findAndCountAll` and the response made of its result. -/
def gamesResponse (env : ListEnv) (q : GameQuery) (db : Store) (plan : ListPlan) :
    ListResponse GameView :=
  match Game.findAndCountAll env db (gameWhere q) plan with
  | .ok (count, rows) =>
    ⟨200, none, none, rows, some (paginationOf plan count),
      some ⟨q.search, q.genreId, q.platformId, q.minRating, q.maxRating, none, none,
        plan.column, plan.direction⟩⟩
  | .error _ => ListResponse.failed "Failed to fetch games"

/-- The handler of `GET /api/games`. -/
def listGames (env : ListEnv) (q : GameQuery) (db : Store) : ListResponse GameView :=
  gamesResponse env q db (listPlan gameSortFields 10 q.page q.limit q.sortBy q.sortOrder)

/-! ## List handler of `src/routes/genres.js` -/

/-- The query string of `GET /api/genres`. -/
structure GenreQuery where
  page : Option String
  limit : Option String
  search : Option String
  includeGameCount : Option String
  sortBy : Option String
  sortOrder : Option String
deriving DecidableEq, Repr

/-- A genre of a list response; `gameCount` is set when the count of games is
included. -/
structure GenreRow where
  genre : Genre
  gameCount : Option Nat
deriving DecidableEq, Repr

/-- The pattern of the `Op.or` group: `%${search}%` when `search` is truthy. -/
def searchPattern (search : Option String) : Option String :=
  if truthyParam search then search.map containsPattern else none

/-- Whether a genre satisfies `whereConditions` of `GET /api/genres`. -/
def genreHolds (pattern : Option String) (g : Genre) : Bool :=
  match pattern with
  | none => true
  | some p => like (some g.name) p || like g.description p

/-- The method `Genre.findAndCountAll`. With `group` (the count of games is
included) the count is the list of the groups, one per matching genre, each
counting the distinct key of its group, and the rows carry `COUNT(games.id)`. -/
def Genre.findAndCountAll (env : ListEnv) (db : Store) (pattern : Option String)
    (grouped : Bool) (plan : ListPlan) : Except DbError (Count × List GenreRow) :=
  let matching := db.genres.filter (genreHolds pattern)
  match window plan.limit plan.offset (env.genres.sort plan.column plan.direction matching) with
  | .error e => .error e
  | .ok rows =>
    if grouped then
      .ok (.groups (matching.map fun g => (g.id, 1)),
        rows.map fun g => ⟨g, some (db.games.countP fun x => decide (x.genreId = g.id))⟩)
    else
      .ok (.number matching.length,
        if matching.length = 0 then [] else rows.map fun g => ⟨g, none⟩)

/-- The array `validSortFields` of `GET /api/genres`. -/
def genreSortFields : List String := ["name", "createdAt"]

/-- The answer of `GET /api/genres` once `limit`, `offset` and `order` are
computed: the call of `Genre.findAndCountAll` and the response made of its result. -/
def genresResponse (env : ListEnv) (q : GenreQuery) (db : Store) (plan : ListPlan) :
    ListResponse GenreRow :=
  match Genre.findAndCountAll env db (searchPattern q.search)
      (decide (q.includeGameCount = some "true")) plan with
  | .ok (count, rows) =>
    ⟨200, none, none, rows, some (paginationOf plan count),
      some ⟨q.search, none, none, none, none, none, q.includeGameCount,
        plan.column, plan.direction⟩⟩
  | .error _ => ListResponse.failed "Failed to fetch genres"

/-- The handler of `GET /api/genres`. -/
def listGenres (env : ListEnv) (q : GenreQuery) (db : Store) : ListResponse GenreRow :=
  genresResponse env q db (listPlan genreSortFields 50 q.page q.limit q.sortBy q.sortOrder)

/-! ## List handler of `src/routes/platforms.js` -/

/-- The query string of `GET /api/platforms`. -/
structure PlatformQuery where
  page : Option String
  limit : Option String
  search : Option String
  manufacturer : Option String
  includeGameCount : Option String
  sortBy : Option String
  sortOrder : Option String
deriving DecidableEq, Repr

/-- A platform of a list response; `gameCount` is set when the count of games is
included. -/
structure PlatformRow where
  platform : Platform
  gameCount : Option Nat
deriving DecidableEq, Repr

/-- Whether a platform satisfies `whereConditions` of `GET /api/platforms`: the
`Op.or` group of the search and the filter on `manufacturer`. -/
def platformHolds (pattern manufacturer : Option String) (p : Platform) : Bool :=
  (match pattern with
    | none => true
    | some s => like (some p.name) s || like p.manufacturer s)
  && (match manufacturer with
    | none => true
    | some m => like p.manufacturer m)

/-- The method `Platform.findAndCountAll`; with `group` as for genres. -/
def Platform.findAndCountAll (env : ListEnv) (db : Store) (pattern manufacturer : Option String)
    (grouped : Bool) (plan : ListPlan) : Except DbError (Count × List PlatformRow) :=
  let matching := db.platforms.filter (platformHolds pattern manufacturer)
  match window plan.limit plan.offset
      (env.platforms.sort plan.column plan.direction matching) with
  | .error e => .error e
  | .ok rows =>
    if grouped then
      .ok (.groups (matching.map fun p => (p.id, 1)),
        rows.map fun p => ⟨p, some (db.games.countP fun x => decide (x.platformId = p.id))⟩)
    else
      .ok (.number matching.length,
        if matching.length = 0 then [] else rows.map fun p => ⟨p, none⟩)

/-- The array `validSortFields` of `GET /api/platforms`. -/
def platformSortFields : List String := ["name", "manufacturer", "releaseYear", "createdAt"]

/-- The answer of `GET /api/platforms` once `limit`, `offset` and `order` are
computed: the call of `Platform.findAndCountAll` and the response made of its
result. -/
def platformsResponse (env : ListEnv) (q : PlatformQuery) (db : Store) (plan : ListPlan) :
    ListResponse PlatformRow :=
  match Platform.findAndCountAll env db (searchPattern q.search)
      (searchPattern q.manufacturer) (decide (q.includeGameCount = some "true")) plan with
  | .ok (count, rows) =>
    ⟨200, none, none, rows, some (paginationOf plan count),
      some ⟨q.search, none, none, none, none, q.manufacturer, q.includeGameCount,
        plan.column, plan.direction⟩⟩
  | .error _ => ListResponse.failed "Failed to fetch platforms"

/-- The handler of `GET /api/platforms`. -/
def listPlatforms (env : ListEnv) (q : PlatformQuery) (db : Store) : ListResponse PlatformRow :=
  platformsResponse env q db
    (listPlan platformSortFields 50 q.page q.limit q.sortBy q.sortOrder)

/-! ## Sample queries -/

/-- A row order for the samples: by name when the column is `name`, by key
otherwise, reversed for `DESC`. -/
def sampleSort {α : Type} (name : α → String) (key : α → Int) (column direction : String)
    (rows : List α) : List α :=
  let sorted :=
    if column = "name" then rows.insertionSort fun a b => (name a).data ≤ (name b).data
    else rows.insertionSort fun a b => key a ≤ key b
  if direction = "DESC" then sorted.reverse else sorted

/-- The row orders of the samples. -/
def sampleEnv : ListEnv :=
  ⟨⟨sampleSort Game.name Game.id, fun column direction rows => by
      unfold sampleSort
      split <;> split <;>
        first
          | exact (List.reverse_perm _).trans (List.perm_insertionSort _ _)
          | exact List.perm_insertionSort _ _⟩,
    ⟨sampleSort Genre.name Genre.id, fun column direction rows => by
      unfold sampleSort
      split <;> split <;>
        first
          | exact (List.reverse_perm _).trans (List.perm_insertionSort _ _)
          | exact List.perm_insertionSort _ _⟩,
    ⟨sampleSort Platform.name Platform.id, fun column direction rows => by
      unfold sampleSort
      split <;> split <;>
        first
          | exact (List.reverse_perm _).trans (List.perm_insertionSort _ _)
          | exact List.perm_insertionSort _ _⟩⟩

/-- A games query with no parameter. -/
def emptyGameQuery : GameQuery := ⟨none, none, none, none, none, none, none, none, none⟩

/-- A genres query with no parameter. -/
def emptyGenreQuery : GenreQuery := ⟨none, none, none, none, none, none⟩

/-- A platforms query with no parameter. -/
def emptyPlatformQuery : PlatformQuery := ⟨none, none, none, none, none, none, none⟩

/-! ## Spec-side notions of the list and length statements -/

/-- The magnitude 2^53, up to which every integer is a double. -/
def maxExact : Int := 9007199254740992

/-- An integer of magnitude at most 2^53: the arithmetic of the handlers is exact
on such numbers. -/
def withinExact (n : Int) : Prop := -maxExact ≤ n ∧ n ≤ maxExact

/-- A name has between 2 and 50 characters, whether a character outside the basic
plane is counted once (as the model validator does) or twice (as `length` does). -/
def nameWithinBounds (s : String) : Prop :=
  2 ≤ s.data.length ∧ jsLength s ≤ 50

/-- A text column contains the text `s` as a literal substring, ignoring the case
of letters; a `NULL` column contains nothing. -/
def containsIgnoringCase (column : Option String) (s : String) : Prop :=
  ∃ text, column = some text ∧ foldCase s.data <:+: foldCase text.data

/-- The constraint of a query parameter: none when the parameter is absent or
empty, else the test of its text. -/
def paramHolds (param : Option String) (test : String → Bool) : Bool :=
  match param with
  | none => true
  | some s => s.data.isEmpty || test s

/-- The column `rating` compared with the number that the text of a parameter
denotes. -/
def ratingCompare (ok : ℚ → ℚ → Bool) (s : String) (rating : Option ℚ) : Bool :=
  match parseFloatStr s, rating with
  | some b, some r => ok r b
  | _, _ => false

/-- The games that the spec selects for a query: the conjunction of the search
predicate with one conjunct for each of `genreId`, `platformId`, `minRating`
and `maxRating` that is present. -/
def gameSelected (q : GameQuery) (g : Game) : Bool :=
  paramHolds q.search (fun s => gameSearchHolds (containsPattern s) g)
  && paramHolds q.genreId (fun s => decide (parseKey s = some g.genreId))
  && paramHolds q.platformId (fun s => decide (parseKey s = some g.platformId))
  && paramHolds q.minRating (fun s => ratingCompare (fun r b => decide (b ≤ r)) s g.rating)
  && paramHolds q.maxRating (fun s => ratingCompare (fun r b => decide (r ≤ b)) s g.rating)

/-! ## Users (`src/models/User.js`) -/

/-- A row of table `users`; `password` holds the hash. -/
structure User where
  id : Int
  username : String
  email : String
  password : String
  createdAt : Nat
  updatedAt : Nat
deriving DecidableEq, Repr

/-- The table `users` and its auto-increment counter. -/
structure UserTable where
  users : List User
  nextUserId : Int
deriving DecidableEq, Repr

/-- What the auth routes take from outside the repository: `hash` is
`bcrypt.hash(password, 10)`, `compare` is `bcrypt.compare(password, hash)`,
`isEmail` the e-mail validator, `now` the clock, and `destroyFails` tells whether
the session store fails to destroy a session. -/
structure AuthEnv where
  hash : String → String
  compare : String → String → Bool
  isEmail : String → Bool
  now : Nat
  destroyFails : Bool

/-- Validators of the `User` model, in the order of its attributes. -/
def userErrors (env : AuthEnv) (username email password : String) : List String :=
  check (lenOk 3 30 username) "Validation len on username failed"
  ++ check (notEmptyOk username) "Validation notEmpty on username failed"
  ++ check (env.isEmail email) "Validation isEmail on email failed"
  ++ check (notEmptyOk email) "Validation notEmpty on email failed"
  ++ check (lenOk 6 255 password) "Validation len on password failed"
  ++ check (notEmptyOk password) "Validation notEmpty on password failed"

/-- The method `User.create`: model validation of the values as given, the unique
indexes on `username` and `email`, the hook `beforeCreate` that replaces the
password by its hash, then the insert. -/
def User.create (env : AuthEnv) (table : UserTable) (username email password : String) :
    Except DbError (User × UserTable) :=
  let errors := userErrors env username email password
  if !errors.isEmpty then .error (.validation errors)
  else if table.users.any fun u => decide (u.username = username) || decide (u.email = email)
    then .error .uniqueConstraint
  else
    let row : User := ⟨table.nextUserId, username, email, env.hash password, env.now, env.now⟩
    .ok (row, ⟨table.users ++ [row], table.nextUserId + 1⟩)

/-- The query `User.findOne` with `username = username OR email = email`. -/
def User.findOneByUsernameOrEmail (table : UserTable) (username email : String) : Option User :=
  table.users.find? fun u => decide (u.username = username) || decide (u.email = email)

/-- The method `User.findByLogin`. -/
def User.findByLogin (table : UserTable) (login : String) : Option User :=
  User.findOneByUsernameOrEmail table login login

/-- The method `user.validatePassword`. -/
def User.validatePassword (env : AuthEnv) (user : User) (password : String) : Bool :=
  env.compare password user.password

/-- The method `User.findByPk`. -/
def User.findByPk (table : UserTable) (id : Int) : Option User :=
  table.users.find? fun u => decide (u.id = id)

/-! ## Handlers of `src/routes/auth.js` -/

/-- A value of a JSON object of the auth responses: a number, a string or a
timestamp. -/
inductive Scalar where
  | num (n : Int) : Scalar
  | str (s : String) : Scalar
  | time (t : Nat) : Scalar
deriving DecidableEq, Repr

/-- A JSON object as the list of its keys and values. -/
abbrev JsonObject := List (String × Scalar)

/-- A response of the auth routes: the status and the fields of the body (`user`
may be absent, `null` or an object). -/
structure AuthResponse where
  status : Nat
  error : Option String
  message : Option String
  user : Field JsonObject
  isAuthenticated : Option Bool
deriving DecidableEq, Repr

/-- An error body `{error, message}`. -/
def AuthResponse.fail (status : Nat) (error message : String) : AuthResponse :=
  ⟨status, some error, some message, .undefined, none⟩

/-- The object `{id, username, email}` written into the session and into the
login response. -/
def SessionUser.toObject (u : SessionUser) : JsonObject :=
  [("id", .num u.id), ("username", .str u.username), ("email", .str u.email)]

/-- The middleware `requireAuth` of the auth router. -/
def AuthRoutes.requireAuth {σ : Type} (session : Session) (next : σ → AuthResponse × σ)
    (state : σ) : AuthResponse × σ :=
  if session.user.isNone then
    (AuthResponse.fail 401 "Unauthorized" "Authentication required", state)
  else next state

/-- The middleware `requireGuest`: with a session user the request is answered 400
and the handler `next` is not run. -/
def AuthRoutes.requireGuest {σ : Type} (session : Session) (next : σ → AuthResponse × σ)
    (state : σ) : AuthResponse × σ :=
  if session.user.isSome then
    (AuthResponse.fail 400 "Already authenticated" "User already logged in", state)
  else next state

/-- The body of `POST /api/auth/register`. -/
structure RegisterFields where
  username : Field String
  email : Field String
  password : Field String
  confirmPassword : Field String
deriving DecidableEq, Repr

/-- The `catch` block of `register`. -/
def AuthRoutes.registerCatch (e : DbError) : AuthResponse :=
  match e with
  | .validation messages => AuthResponse.fail 400 "Validation error" (joinMessages messages)
  | _ => AuthResponse.fail 500 "Internal server error" "Failed to register user"

/-- The handler of `POST /api/auth/register`. -/
def AuthRoutes.register (env : AuthEnv) (session : Session) (body : RegisterFields) :
    UserTable → AuthResponse × UserTable :=
  AuthRoutes.requireGuest session fun table =>
    match body.username, body.email, body.password with
    | .val username, .val email, .val password =>
      if !truthyStr body.username || !truthyStr body.email || !truthyStr body.password then
        (AuthResponse.fail 400 "Validation error"
          "Username, email, and password are required", table)
      else if body.password ≠ body.confirmPassword then
        (AuthResponse.fail 400 "Validation error" "Passwords do not match", table)
      else if jsLength password < 6 then
        (AuthResponse.fail 400 "Validation error"
          "Password must be at least 6 characters long", table)
      else if (User.findOneByUsernameOrEmail table username email).isSome then
        (AuthResponse.fail 409 "User already exists" "Username or email already taken", table)
      else
        match User.create env table username email password with
        | .ok (user, table') =>
          (⟨201, none, some "User registered successfully",
            .val [("id", .num user.id), ("username", .str user.username),
              ("email", .str user.email), ("createdAt", .time user.createdAt)], none⟩, table')
        | .error e => (AuthRoutes.registerCatch e, table)
    | _, _, _ =>
      (AuthResponse.fail 400 "Validation error"
        "Username, email, and password are required", table)

/-- The body of `POST /api/auth/login`. -/
structure LoginFields where
  username : Field String
  password : Field String
deriving DecidableEq, Repr

/-- The handler of `POST /api/auth/login`; the state it may change is the
session. -/
def AuthRoutes.login (env : AuthEnv) (body : LoginFields) (table : UserTable) :
    Session → AuthResponse × Session :=
  fun session =>
    AuthRoutes.requireGuest session (fun session =>
      match body.username, body.password with
      | .val username, .val password =>
        if !truthyStr body.username || !truthyStr body.password then
          (AuthResponse.fail 400 "Validation error" "Username and password are required",
            session)
        else
          match User.findByLogin table username with
          | none =>
            (AuthResponse.fail 401 "Authentication failed" "Invalid username or password",
              session)
          | some user =>
            if !User.validatePassword env user password then
              (AuthResponse.fail 401 "Authentication failed" "Invalid username or password",
                session)
            else
              (⟨200, none, some "Login successful",
                .val (SessionUser.toObject ⟨user.id, user.username, user.email⟩), none⟩,
                ⟨some ⟨user.id, user.username, user.email⟩⟩)
      | _, _ =>
        (AuthResponse.fail 400 "Validation error" "Username and password are required",
          session)) session

/-- The handler of `POST /api/auth/logout`. -/
def AuthRoutes.logout (env : AuthEnv) : Session → AuthResponse × Session :=
  fun session =>
    AuthRoutes.requireAuth session (fun session =>
      if env.destroyFails then
        (AuthResponse.fail 500 "Internal server error" "Failed to logout", session)
      else (⟨200, none, some "Logout successful", .undefined, none⟩, ⟨none⟩)) session

/-- The handler of `GET /api/auth/me`. -/
def AuthRoutes.me (session : Session) (table : UserTable) : AuthResponse :=
  (AuthRoutes.requireAuth session (fun (_ : Unit) =>
    match session.user with
    | none => (AuthResponse.fail 401 "Unauthorized" "Authentication required", ())
    | some sessionUser =>
      match User.findByPk table sessionUser.id with
      | none => (AuthResponse.fail 404 "User not found" "User session is invalid", ())
      | some user =>
        (⟨200, none, none,
          .val [("id", .num user.id), ("username", .str user.username),
            ("email", .str user.email), ("createdAt", .time user.createdAt),
            ("updatedAt", .time user.updatedAt)], none⟩, ())) ()).1

/-- The handler of `GET /api/auth/status`. -/
def AuthRoutes.status (session : Session) : AuthResponse :=
  ⟨200, none, none,
    (match session.user with
      | some u => .val u.toObject
      | none => .null),
    some session.user.isSome⟩

/-! ## Handlers of `GET /:id` -/

/-- A response of a `GET /:id` handler: an error body, or the row under the key
of its resource (`item`). -/
structure ItemResponse (α : Type) where
  status : Nat
  error : Option String
  message : Option String
  item : Option α
deriving DecidableEq, Repr

/-- An error body `{error, message}`. -/
def ItemResponse.fail {α : Type} (status : Nat) (error message : String) : ItemResponse α :=
  ⟨status, some error, some message, none⟩

/-- The handler of `GET /api/games/:id`. -/
def getGame (id : String) (db : Store) : ItemResponse GameView :=
  match Game.findView db (parseKey id) with
  | none => ItemResponse.fail 404 "Game not found" ("Game with ID " ++ id ++ " not found")
  | some game => ⟨200, none, none, some game⟩

/-- The attributes `id, name, rating, releaseDate, developer, publisher` of a game
included in a genre or a platform. -/
structure GameSummary where
  id : Int
  name : String
  rating : Option ℚ
  releaseDate : Option String
  developer : Option String
  publisher : Option String
deriving DecidableEq, Repr

/-- The included attributes of a game row. -/
def Game.summary (g : Game) : GameSummary :=
  ⟨g.id, g.name, g.rating, g.releaseDate, g.developer, g.publisher⟩

/-- The attributes `id, name, manufacturer` of the platform of an included game. -/
structure PlatformSummary where
  id : Int
  name : String
  manufacturer : Option String
deriving DecidableEq, Repr

/-- A genre as returned by `Genre.findByPk(id, {include})`: `games` is present when
the games were included, each with its platform. -/
structure GenreDetail where
  genre : Genre
  games : Option (List (GameSummary × Option PlatformSummary))
deriving DecidableEq, Repr

/-- A platform as returned by `Platform.findByPk(id, {include})`: `games` is
present when the games were included, each with its genre. -/
structure PlatformDetail where
  platform : Platform
  games : Option (List (GameSummary × Option Genre))
deriving DecidableEq, Repr

/-- The handler of `GET /api/genres/:id`. -/
def getGenre (id : String) (includeGames : Option String) (db : Store) :
    ItemResponse GenreDetail :=
  match Genre.findByPk db (parseKey id) with
  | none => ItemResponse.fail 404 "Genre not found" ("Genre with ID " ++ id ++ " not found")
  | some genre =>
    ⟨200, none, none, some ⟨genre,
      if includeGames = some "true" then
        some ((db.games.filter fun g => decide (g.genreId = genre.id)).map fun g =>
          (g.summary, (Platform.findByPk db (some g.platformId)).map fun p =>
            ⟨p.id, p.name, p.manufacturer⟩))
      else none⟩⟩

/-- The handler of `GET /api/platforms/:id`. -/
def getPlatform (id : String) (includeGames : Option String) (db : Store) :
    ItemResponse PlatformDetail :=
  match Platform.findByPk db (parseKey id) with
  | none =>
    ItemResponse.fail 404 "Platform not found" ("Platform with ID " ++ id ++ " not found")
  | some platform =>
    ⟨200, none, none, some ⟨platform,
      if includeGames = some "true" then
        some ((db.games.filter fun g => decide (g.platformId = platform.id)).map fun g =>
          (g.summary, Genre.findByPk db (some g.genreId)))
      else none⟩⟩

/-! ## The closing middlewares of `src/app.js` -/

/-- A response of the closing middlewares. -/
structure AppResponse where
  status : Nat
  error : Option String
  message : Option String
  availableEndpoints : Option (List String)
deriving DecidableEq, Repr

/-- The catch-all middleware, reached by a request that no route answered. -/
def notFoundHandler (method path : String) : AppResponse :=
  ⟨404, some "Endpoint not found", some ("Cannot " ++ method ++ " " ++ path),
    some ["/api/auth", "/api/games", "/api/genres", "/api/platforms", "/api/health"]⟩

/-- The error-handling middleware: `nodeEnv` is `process.env.NODE_ENV` (`none` when
the variable is unset) and `errorMessage` the `message` of the `Error` passed on. -/
def errorHandler (nodeEnv : Option String) (errorMessage : String) : AppResponse :=
  ⟨500, some "Internal Server Error",
    some (if nodeEnv = some "development" then errorMessage else "Something went wrong"), none⟩

/-! ## Sample users and spec-side notions of the auth statements -/

/-- A stand-in for the password hash: the hash of `p` is `p` behind a tag, and a
password verifies against the hash made from it. -/
def sampleAuthEnv : AuthEnv :=
  ⟨fun p => "$2a$10$" ++ p, fun p h => decide (h = "$2a$10$" ++ p),
    fun s => s.data.contains '@', 1700000000, false⟩

/-- The user created by `createSampleData`. -/
def adminUser : User :=
  ⟨1, "admin", "admin@games.com", "$2a$10$admin123", 1700000000, 1700000000⟩

/-- The users table after `createSampleData`. -/
def sampleUsers : UserTable := ⟨[adminUser], 2⟩

/-- A request without a logged-in user. -/
def guestSession : Session := ⟨none⟩

/-- The keys of a JSON object. -/
def JsonObject.keys (o : JsonObject) : List String := o.map Prod.fst

/-- The fields a user object may show. -/
def publicUserKeys : List String := ["id", "username", "email", "createdAt", "updatedAt"]

/-- The keys of the user object of a response (none when the body has no user
object). -/
def AuthResponse.userKeys (r : AuthResponse) : List String :=
  match r.user with
  | .val o => JsonObject.keys o
  | _ => []

/-- The keys of the record that a session keeps of its user. -/
def Session.userKeys (s : Session) : List String :=
  match s.user with
  | some u => JsonObject.keys u.toObject
  | none => []

/-- The field checks of `register` as the specification words them: a required
field is missing or empty, the confirmation differs from the password, or the
password has fewer than 6 characters (UTF-16 units). -/
def registerFieldsRejected (body : RegisterFields) : Bool :=
  !truthyStr body.username || !truthyStr body.email || !truthyStr body.password
    || decide (body.password ≠ body.confirmPassword)
    || match body.password with
      | .val p => decide (jsLength p < 6)
      | _ => false

/-- Some stored user has the username or the e-mail address of the request
(exact comparison of the stored value). -/
def credentialsTaken (table : UserTable) (body : RegisterFields) : Prop :=
  ∃ u ∈ table.users, body.username = .val u.username ∨ body.email = .val u.email

/-- A registration whose username has the form of an e-mail address. -/
def aliceFields : RegisterFields :=
  ⟨.val "bob@games.com", .val "alice@games.com", .val "alicepass", .val "alicepass"⟩

/-- A registration whose e-mail address is the username of `aliceFields`. -/
def bobFields : RegisterFields :=
  ⟨.val "bob", .val "bob@games.com", .val "bobpass", .val "bobpass"⟩

/-- The users table after the two registrations, in this order. -/
def twoUsers : UserTable :=
  (AuthRoutes.register sampleAuthEnv guestSession bobFields
    (AuthRoutes.register sampleAuthEnv guestSession aliceFields sampleUsers).2).2

/-- The row that the registration `bobFields` creates. -/
def bobUser : User := ⟨3, "bob", "bob@games.com", "$2a$10$bobpass", 1700000000, 1700000000⟩

/-- The shape of an error response: a status of 400 or more comes with an `error`
field and a `message` field, each holding a string. -/
def errorBody (status : Nat) (error message : Option String) : Prop :=
  400 ≤ status → error.isSome = true ∧ message.isSome = true

/-! ## Authentication gate -/

/-- C1: a request to a mutating route of Games, Genres or Platforms (POST, PUT,
DELETE) whose session has no user is answered 401 "Unauthorized" and leaves the
store as it was, whatever the body, the route parameter and the store are. -/
theorem unauthenticated_mutation_rejected (cfg : Config) (id : String) (gb : GameFields)
    (nb : GenreFields) (pb : PlatformFields) (db : Store) :
    createGame cfg ⟨none⟩ gb db = (unauthorized, db)
    ∧ updateGame cfg ⟨none⟩ id gb db = (unauthorized, db)
    ∧ deleteGame ⟨none⟩ id db = (unauthorized, db)
    ∧ createGenre ⟨none⟩ nb db = (unauthorized, db)
    ∧ updateGenre ⟨none⟩ id nb db = (unauthorized, db)
    ∧ deleteGenre cfg ⟨none⟩ id db = (unauthorized, db)
    ∧ createPlatform cfg ⟨none⟩ pb db = (unauthorized, db)
    ∧ updatePlatform cfg ⟨none⟩ id pb db = (unauthorized, db)
    ∧ deletePlatform cfg ⟨none⟩ id db = (unauthorized, db)
    ∧ unauthorized.status = 401 ∧ unauthorized.error = some "Unauthorized" := by
  refine ⟨rfl, rfl, rfl, rfl, rfl, rfl, rfl, rfl, rfl, rfl, rfl⟩

/-! ## Lookup lemmas -/

theorem requireAuth_user (session : Session) (next : Store → Response × Store) (db : Store)
    (h : session.user.isSome = true) : requireAuth session next db = next db := by
  unfold requireAuth
  cases hu : session.user with
  | none => simp [hu] at h
  | some u => simp

theorem genre_findByPk_key {db : Store} {key : Option Int} {g : Genre}
    (h : Genre.findByPk db key = some g) : key = some g.id ∧ g ∈ db.genres := by
  cases key with
  | none => simp [Genre.findByPk] at h
  | some k =>
    simp only [Genre.findByPk] at h
    have h1 := List.find?_some h
    have h2 := List.mem_of_find?_eq_some h
    simp at h1
    exact ⟨by rw [h1], h2⟩

theorem platform_findByPk_key {db : Store} {key : Option Int} {p : Platform}
    (h : Platform.findByPk db key = some p) : key = some p.id ∧ p ∈ db.platforms := by
  cases key with
  | none => simp [Platform.findByPk] at h
  | some k =>
    simp only [Platform.findByPk] at h
    have h1 := List.find?_some h
    have h2 := List.mem_of_find?_eq_some h
    simp at h1
    exact ⟨by rw [h1], h2⟩

theorem game_findByPk_key {db : Store} {key : Option Int} {g : Game}
    (h : Game.findByPk db key = some g) : key = some g.id ∧ g ∈ db.games := by
  cases key with
  | none => simp [Game.findByPk] at h
  | some k =>
    simp only [Game.findByPk] at h
    have h1 := List.find?_some h
    have h2 := List.mem_of_find?_eq_some h
    simp at h1
    exact ⟨by rw [h1], h2⟩

theorem game_findByPk_none {db : Store} {k : Int} (h : Game.findByPk db (some k) = none) :
    ∀ x ∈ db.games, x.id ≠ k := by
  simp only [Game.findByPk, List.find?_eq_none] at h
  intro x hx
  simpa using h x hx

/-! ## Delete guard -/

theorem deleteGenre_found (cfg : Config) (session : Session) (id : String) (db : Store)
    (g : Genre) (hauth : session.user.isSome = true)
    (hg : Genre.findByPk db (parseKey id) = some g) :
    deleteGenre cfg session id db =
      if gamesOfGenre db g.id = 0 then
        (Response.withDeleted "Genre deleted successfully" g.id g.name,
          { db with genres := db.genres.filter fun x => decide (x.id ≠ g.id) })
      else
        (Response.blocked "Cannot delete genre"
          ("Cannot delete genre. " ++ toString (gamesOfGenre db g.id)
            ++ " game(s) are using this genre.") (gamesOfGenre db g.id), db) := by
  have hk := (genre_findByPk_key hg).1
  rw [hk] at hg
  unfold deleteGenre
  rw [requireAuth_user _ _ _ hauth]
  simp only [hk, hg, Game.countByGenre]
  by_cases hN : gamesOfGenre db g.id = 0
  · have hN' : List.countP (fun x : Game => decide (x.genreId = g.id)) db.games = 0 := hN
    have hany : (db.games.any fun x => decide (x.genreId = g.id)) = false := by
      rw [List.countP_eq_zero] at hN'
      rw [List.any_eq_false]
      exact hN'
    simp [hN, hN', Genre.destroy, hany]
  · have hN' : ¬ List.countP (fun x : Game => decide (x.genreId = g.id)) db.games = 0 := hN
    have hpos : List.countP (fun x : Game => decide (x.genreId = g.id)) db.games > 0 :=
      Nat.pos_of_ne_zero hN'
    simp only [gamesOfGenre, hN', hpos, if_true, if_false]

theorem deletePlatform_found (cfg : Config) (session : Session) (id : String) (db : Store)
    (p : Platform) (hauth : session.user.isSome = true)
    (hp : Platform.findByPk db (parseKey id) = some p) :
    deletePlatform cfg session id db =
      if gamesOfPlatform db p.id = 0 then
        (Response.withDeleted "Platform deleted successfully" p.id p.name,
          { db with platforms := db.platforms.filter fun x => decide (x.id ≠ p.id) })
      else
        (Response.blocked "Cannot delete platform"
          ("Cannot delete platform. " ++ toString (gamesOfPlatform db p.id)
            ++ " game(s) are using this platform.") (gamesOfPlatform db p.id), db) := by
  have hk := (platform_findByPk_key hp).1
  rw [hk] at hp
  unfold deletePlatform
  rw [requireAuth_user _ _ _ hauth]
  simp only [hk, hp, Game.countByPlatform]
  by_cases hN : gamesOfPlatform db p.id = 0
  · have hN' : List.countP (fun x : Game => decide (x.platformId = p.id)) db.games = 0 := hN
    have hany : (db.games.any fun x => decide (x.platformId = p.id)) = false := by
      rw [List.countP_eq_zero] at hN'
      rw [List.any_eq_false]
      exact hN'
    simp [hN, hN', Platform.destroy, hany]
  · have hN' : ¬ List.countP (fun x : Game => decide (x.platformId = p.id)) db.games = 0 := hN
    have hpos : List.countP (fun x : Game => decide (x.platformId = p.id)) db.games > 0 :=
      Nat.pos_of_ne_zero hN'
    simp only [gamesOfPlatform, hN', hpos, if_true, if_false]

theorem deleteGame_effect (session : Session) (id : String) (db : Store) :
    (deleteGame session id db).2.genres = db.genres
    ∧ (deleteGame session id db).2.platforms = db.platforms
    ∧ (∀ x ∈ (deleteGame session id db).2.games, x ∈ db.games)
    ∧ (session.user.isSome = true → ∀ k, parseKey id = some k →
        ∀ x ∈ (deleteGame session id db).2.games, x.id ≠ k) := by
  unfold deleteGame requireAuth
  cases hu : session.user with
  | none => simp
  | some u =>
    simp only [Option.isNone_some, Bool.false_eq_true, if_false]
    cases hf : Game.findByPk db (parseKey id) with
    | none =>
      refine ⟨rfl, rfl, fun x hx => hx, ?_⟩
      intro _ k hk x hx
      rw [hk] at hf
      exact game_findByPk_none hf x hx
    | some g =>
      have hk := (game_findByPk_key hf).1
      refine ⟨rfl, rfl, ?_, ?_⟩
      · intro x hx
        simp only [Game.destroy, List.mem_filter] at hx
        exact hx.1
      · intro _ k hk' x hx
        simp only [Game.destroy, List.mem_filter] at hx
        rw [hk] at hk'
        have : g.id = k := by simpa using hk'
        rw [← this]
        simpa using hx.2

theorem deleteGames_effect (session : Session) (ids : List String) :
    ∀ db : Store,
      (deleteGames session ids db).genres = db.genres
      ∧ (deleteGames session ids db).platforms = db.platforms
      ∧ (∀ x ∈ (deleteGames session ids db).games, x ∈ db.games)
      ∧ (session.user.isSome = true → ∀ id ∈ ids, ∀ k, parseKey id = some k →
          ∀ x ∈ (deleteGames session ids db).games, x.id ≠ k) := by
  induction ids with
  | nil =>
    intro db
    simp [deleteGames]
  | cons a rest ih =>
    intro db
    have h1 := deleteGame_effect session a db
    have h2 := ih (deleteGame session a db).2
    have hstep : deleteGames session (a :: rest) db
        = deleteGames session rest (deleteGame session a db).2 := rfl
    rw [hstep]
    refine ⟨h2.1.trans h1.1, h2.2.1.trans h1.2.1, fun x hx => h1.2.2.1 x (h2.2.2.1 x hx), ?_⟩
    intro hauth id hid k hk x hx
    rcases List.mem_cons.mp hid with rfl | hmem
    · exact h1.2.2.2 hauth k hk x (h2.2.2.1 x hx)
    · exact h2.2.2.2 hauth id hmem k hk x hx

theorem genre_removed (db : Store) (k : Int) :
    Genre.findByPk { db with genres := db.genres.filter fun x => decide (x.id ≠ k) } (some k)
      = none := by
  simp [Genre.findByPk, List.find?_eq_none, List.mem_filter]

theorem platform_removed (db : Store) (k : Int) :
    Platform.findByPk { db with platforms := db.platforms.filter fun x => decide (x.id ≠ k) }
      (some k) = none := by
  simp [Platform.findByPk, List.find?_eq_none, List.mem_filter]

theorem deleteGenre_contract (cfg : Config) (session : Session) (id : String) (db : Store)
    (g : Genre) (hauth : session.user.isSome = true)
    (hg : Genre.findByPk db (parseKey id) = some g) :
    ((deleteGenre cfg session id db).1.status = 200 ↔ gamesOfGenre db g.id = 0)
    ∧ (gamesOfGenre db g.id = 0 →
        (deleteGenre cfg session id db).1.deleted = some ⟨g.id, g.name⟩
        ∧ Genre.findByPk (deleteGenre cfg session id db).2 (parseKey id) = none
        ∧ (deleteGenre cfg session id db).2.genres
            = db.genres.filter (fun x => decide (x.id ≠ g.id))
        ∧ (deleteGenre cfg session id db).2.platforms = db.platforms
        ∧ (deleteGenre cfg session id db).2.games = db.games)
    ∧ (1 ≤ gamesOfGenre db g.id →
        (deleteGenre cfg session id db).1.status = 400
        ∧ (deleteGenre cfg session id db).1.gamesCount = some (gamesOfGenre db g.id)
        ∧ (deleteGenre cfg session id db).2 = db) := by
  have hk := (genre_findByPk_key hg).1
  rw [deleteGenre_found cfg session id db g hauth hg]
  by_cases hN : gamesOfGenre db g.id = 0
  · rw [if_pos hN]
    refine ⟨⟨fun _ => hN, fun _ => rfl⟩, fun _ => ⟨rfl, ?_, rfl, rfl, rfl⟩, fun h => ?_⟩
    · rw [hk]
      exact genre_removed db g.id
    · omega
  · rw [if_neg hN]
    refine ⟨⟨fun h => ?_, fun h => absurd h hN⟩, fun h => absurd h hN, fun _ => ⟨rfl, rfl, rfl⟩⟩
    simp [Response.blocked] at h

theorem deletePlatform_contract (cfg : Config) (session : Session) (id : String) (db : Store)
    (p : Platform) (hauth : session.user.isSome = true)
    (hp : Platform.findByPk db (parseKey id) = some p) :
    ((deletePlatform cfg session id db).1.status = 200 ↔ gamesOfPlatform db p.id = 0)
    ∧ (gamesOfPlatform db p.id = 0 →
        (deletePlatform cfg session id db).1.deleted = some ⟨p.id, p.name⟩
        ∧ Platform.findByPk (deletePlatform cfg session id db).2 (parseKey id) = none
        ∧ (deletePlatform cfg session id db).2.platforms
            = db.platforms.filter (fun x => decide (x.id ≠ p.id))
        ∧ (deletePlatform cfg session id db).2.genres = db.genres
        ∧ (deletePlatform cfg session id db).2.games = db.games)
    ∧ (1 ≤ gamesOfPlatform db p.id →
        (deletePlatform cfg session id db).1.status = 400
        ∧ (deletePlatform cfg session id db).1.gamesCount = some (gamesOfPlatform db p.id)
        ∧ (deletePlatform cfg session id db).2 = db) := by
  have hk := (platform_findByPk_key hp).1
  rw [deletePlatform_found cfg session id db p hauth hp]
  by_cases hN : gamesOfPlatform db p.id = 0
  · rw [if_pos hN]
    refine ⟨⟨fun _ => hN, fun _ => rfl⟩, fun _ => ⟨rfl, ?_, rfl, rfl, rfl⟩, fun h => ?_⟩
    · rw [hk]
      exact platform_removed db p.id
    · omega
  · rw [if_neg hN]
    refine ⟨⟨fun h => ?_, fun h => absurd h hN⟩, fun h => absurd h hN, fun _ => ⟨rfl, rfl, rfl⟩⟩
    simp [Response.blocked] at h

theorem no_dependents_after_deletes (session : Session) (ids : List String) (db : Store)
    (key : Game → Int) (k : Int) (hauth : session.user.isSome = true)
    (hall : ∀ x ∈ db.games, key x = k → ∃ p ∈ ids, parseKey p = some x.id) :
    (deleteGames session ids db).games.countP (fun x => decide (key x = k)) = 0 := by
  have h := deleteGames_effect session ids db
  rw [List.countP_eq_zero]
  intro x hx
  simp only [decide_eq_true_eq]
  intro hkx
  obtain ⟨p, hp, hpk⟩ := hall x (h.2.2.1 x hx) hkx
  exact h.2.2.2 hauth p hp x.id hpk x hx rfl

theorem genre_findByPk_congr {db db' : Store} (h : db'.genres = db.genres) (key : Option Int) :
    Genre.findByPk db' key = Genre.findByPk db key := by
  unfold Genre.findByPk
  rw [h]

theorem platform_findByPk_congr {db db' : Store} (h : db'.platforms = db.platforms)
    (key : Option Int) : Platform.findByPk db' key = Platform.findByPk db key := by
  unfold Platform.findByPk
  rw [h]

/-- C2: for an existing Genre (resp. Platform) to which exactly N games refer, an
authenticated DELETE answers 200 and removes the row if and only if N = 0; when
N ≥ 1 it answers 400 with gamesCount = N and leaves the whole store unchanged;
and once every dependent game has been deleted through DELETE /api/games/:id the
delete answers 200 and the row is gone. -/
theorem delete_guard_counts_dependents (cfg : Config) (session : Session) (id : String)
    (db : Store) (hauth : session.user.isSome = true) :
    (∀ g, Genre.findByPk db (parseKey id) = some g →
      ((deleteGenre cfg session id db).1.status = 200 ↔ gamesOfGenre db g.id = 0)
      ∧ (gamesOfGenre db g.id = 0 →
          (deleteGenre cfg session id db).1.deleted = some ⟨g.id, g.name⟩
          ∧ Genre.findByPk (deleteGenre cfg session id db).2 (parseKey id) = none
          ∧ (deleteGenre cfg session id db).2.genres
              = db.genres.filter (fun x => decide (x.id ≠ g.id))
          ∧ (deleteGenre cfg session id db).2.platforms = db.platforms
          ∧ (deleteGenre cfg session id db).2.games = db.games)
      ∧ (1 ≤ gamesOfGenre db g.id →
          (deleteGenre cfg session id db).1.status = 400
          ∧ (deleteGenre cfg session id db).1.gamesCount = some (gamesOfGenre db g.id)
          ∧ (deleteGenre cfg session id db).2 = db)
      ∧ (∀ ids : List String,
          (∀ x ∈ db.games, x.genreId = g.id → ∃ p ∈ ids, parseKey p = some x.id) →
          (deleteGenre cfg session id (deleteGames session ids db)).1.status = 200
          ∧ Genre.findByPk (deleteGenre cfg session id (deleteGames session ids db)).2
              (parseKey id) = none))
    ∧ (∀ p, Platform.findByPk db (parseKey id) = some p →
      ((deletePlatform cfg session id db).1.status = 200 ↔ gamesOfPlatform db p.id = 0)
      ∧ (gamesOfPlatform db p.id = 0 →
          (deletePlatform cfg session id db).1.deleted = some ⟨p.id, p.name⟩
          ∧ Platform.findByPk (deletePlatform cfg session id db).2 (parseKey id) = none
          ∧ (deletePlatform cfg session id db).2.platforms
              = db.platforms.filter (fun x => decide (x.id ≠ p.id))
          ∧ (deletePlatform cfg session id db).2.genres = db.genres
          ∧ (deletePlatform cfg session id db).2.games = db.games)
      ∧ (1 ≤ gamesOfPlatform db p.id →
          (deletePlatform cfg session id db).1.status = 400
          ∧ (deletePlatform cfg session id db).1.gamesCount = some (gamesOfPlatform db p.id)
          ∧ (deletePlatform cfg session id db).2 = db)
      ∧ (∀ ids : List String,
          (∀ x ∈ db.games, x.platformId = p.id → ∃ q ∈ ids, parseKey q = some x.id) →
          (deletePlatform cfg session id (deleteGames session ids db)).1.status = 200
          ∧ Platform.findByPk (deletePlatform cfg session id (deleteGames session ids db)).2
              (parseKey id) = none)) := by
  constructor
  · intro g hg
    obtain ⟨h1, h2, h3⟩ := deleteGenre_contract cfg session id db g hauth hg
    refine ⟨h1, h2, h3, ?_⟩
    intro ids hall
    have heff := deleteGames_effect session ids db
    have hg' : Genre.findByPk (deleteGames session ids db) (parseKey id) = some g := by
      rw [genre_findByPk_congr heff.1]
      exact hg
    have hzero : gamesOfGenre (deleteGames session ids db) g.id = 0 :=
      no_dependents_after_deletes session ids db (fun x => x.genreId) g.id hauth hall
    obtain ⟨k1, k2, _⟩ :=
      deleteGenre_contract cfg session id (deleteGames session ids db) g hauth hg'
    exact ⟨k1.mpr hzero, (k2 hzero).2.1⟩
  · intro p hp
    obtain ⟨h1, h2, h3⟩ := deletePlatform_contract cfg session id db p hauth hp
    refine ⟨h1, h2, h3, ?_⟩
    intro ids hall
    have heff := deleteGames_effect session ids db
    have hp' : Platform.findByPk (deleteGames session ids db) (parseKey id) = some p := by
      rw [platform_findByPk_congr heff.2.1]
      exact hp
    have hzero : gamesOfPlatform (deleteGames session ids db) p.id = 0 :=
      no_dependents_after_deletes session ids db (fun x => x.platformId) p.id hauth hall
    obtain ⟨k1, k2, _⟩ :=
      deletePlatform_contract cfg session id (deleteGames session ids db) p hauth hp'
    exact ⟨k1.mpr hzero, (k2 hzero).2.1⟩

/-- Witness of C2 on the sample store: genre 1 and platform 1 have two dependent
games, so the deletes answer 400 with gamesCount 2, and answer 200 after the games
"1" and "2" have been deleted. -/
theorem delete_guard_counts_dependents_witness :
    (deleteGenre sampleConfig adminSession "1" sampleStore).1.status = 400
    ∧ (deleteGenre sampleConfig adminSession "1" sampleStore).1.gamesCount = some 2
    ∧ (deleteGenre sampleConfig adminSession "1"
        (deleteGames adminSession ["1", "2"] sampleStore)).1.status = 200
    ∧ (deletePlatform sampleConfig adminSession "1" sampleStore).1.gamesCount = some 2
    ∧ (deletePlatform sampleConfig adminSession "1"
        (deleteGames adminSession ["1", "2"] sampleStore)).1.status = 200 :=
  have h := delete_guard_counts_dependents sampleConfig adminSession "1" sampleStore (by decide)
  have hg := h.1 actionGenre (by decide)
  have hp := h.2 pcPlatform (by decide)
  ⟨(hg.2.2.1 (by decide)).1, (hg.2.2.1 (by decide)).2.1,
    (hg.2.2.2 ["1", "2"] (by decide)).1,
    (hp.2.2.1 (by decide)).2.1, (hp.2.2.2 ["1", "2"] (by decide)).1⟩

/-! ## Referential integrity -/

/-- C3 (behaviour at the failing input): with no foreign-key enforcement in the
store, an authenticated PUT /api/games/1 with body {genreId: 0} on the sample
store, whose references all resolve, answers 200 and stores genreId 0, which is
the id of no genre; with body {platformId: 0} it stores platformId 0 likewise. -/
theorem update_falsy_reference_breaks_integrity :
    referencesResolve sampleStore = true
    ∧ (updateGame sampleConfig adminSession "1"
        { emptyGameFields with genreId := .val 0 } sampleStore).1.status = 200
    ∧ (Game.findByPk (updateGame sampleConfig adminSession "1"
        { emptyGameFields with genreId := .val 0 } sampleStore).2 (some 1)).map Game.genreId
        = some 0
    ∧ referencesResolve (updateGame sampleConfig adminSession "1"
        { emptyGameFields with genreId := .val 0 } sampleStore).2 = false
    ∧ (updateGame sampleConfig adminSession "1"
        { emptyGameFields with platformId := .val 0 } sampleStore).1.status = 200
    ∧ referencesResolve (updateGame sampleConfig adminSession "1"
        { emptyGameFields with platformId := .val 0 } sampleStore).2 = false := by
  decide

/-! ## Case-insensitive uniqueness of names -/

theorem jsLength_pos_data (m : String) (h : 2 ≤ jsLength m) : m.data.isEmpty = false := by
  cases hd : m.data with
  | nil => simp [jsLength, hd] at h
  | cons c t => rfl

theorem nameLength_inside {name : String} (hlo : 2 ≤ jsLength name) (hhi : jsLength name ≤ 50) :
    nameLengthOutside name = false := by
  simp only [nameLengthOutside, Bool.or_eq_false_iff, decide_eq_false_iff_not]
  omega

/-- A create of a genre whose name passes the handler's checks reaches the lookup
by `Op.iLike`, which the store rejects: the answer is 500 and the store is as it
was. -/
theorem createGenre_fails_in_lookup (session : Session) (db : Store) (name : String)
    (description : Field String) (hauth : session.user.isSome = true)
    (hlo : 2 ≤ jsLength name) (hhi : jsLength name ≤ 50) :
    createGenre session ⟨.val name, description⟩ db
      = (Response.fail 500 "Internal server error" "Failed to create genre", db) := by
  unfold createGenre
  rw [requireAuth_user _ _ _ hauth]
  simp [truthyStr, jsLength_pos_data name hlo, nameLength_inside hlo hhi, Genre.findOneILike,
    genreCatch]

/-- A create of a platform whose name and release year pass the handler's checks
reaches the lookup by `Op.iLike`, which the store rejects. -/
theorem createPlatform_fails_in_lookup (cfg : Config) (session : Session) (db : Store)
    (name : String) (manufacturer : Field String) (releaseYear : Field ℚ)
    (hauth : session.user.isSome = true) (hlo : 2 ≤ jsLength name) (hhi : jsLength name ≤ 50)
    (hyear : (truthyNum releaseYear && yearOutside cfg releaseYear) = false) :
    createPlatform cfg session ⟨.val name, manufacturer, releaseYear⟩ db
      = (Response.fail 500 "Internal server error" "Failed to create platform", db) := by
  unfold createPlatform
  rw [requireAuth_user _ _ _ hauth]
  simp [truthyStr, jsLength_pos_data name hlo, nameLength_inside hlo hhi, hyear,
    Platform.findOneILike, platformCatch]

theorem createGenre_store (session : Session) (body : GenreFields) (db : Store) :
    (createGenre session body db).2 = db := by
  unfold createGenre requireAuth Genre.findOneILike
  dsimp only
  repeat' split
  all_goals rfl

theorem createPlatform_store (cfg : Config) (session : Session) (body : PlatformFields)
    (db : Store) : (createPlatform cfg session body db).2 = db := by
  unfold createPlatform requireAuth Platform.findOneILike
  dsimp only
  repeat' split
  all_goals rfl

theorem genre_update_names {db db' : Store} {row row' : Genre}
    {description : Option (Option String)}
    (h : Genre.update db row none description = .ok (row', db')) :
    db'.genres.map Genre.name = db.genres.map Genre.name := by
  simp only [Genre.update, List.isEmpty_nil, Bool.not_true, Bool.false_eq_true, if_false,
    Except.ok.injEq, Prod.mk.injEq] at h
  rw [← h.2]
  simp only [List.map_map]
  apply List.map_congr_left
  intro g _
  simp only [Function.comp]
  split <;> rfl

theorem platform_update_names {cfg : Config} {db db' : Store} {row row' : Platform}
    {manufacturer : Option (Option String)} {releaseYear : Option (Option Int)}
    (h : Platform.update cfg db row none manufacturer releaseYear = .ok (row', db')) :
    db'.platforms.map Platform.name = db.platforms.map Platform.name := by
  unfold Platform.update at h
  simp only at h
  split at h
  · cases h
  · simp only [Bool.false_eq_true, if_false, Except.ok.injEq, Prod.mk.injEq] at h
    rw [← h.2]
    simp only [List.map_map]
    apply List.map_congr_left
    intro g _
    simp only [Function.comp]
    split <;> rfl

/-- An update of a genre leaves the names of the table as they were: with a name
in the body the handler ends in the lookup by `Op.iLike` or before it, and without
one the statement does not write the column. -/
theorem updateGenre_names (session : Session) (id : String) (body : GenreFields) (db : Store) :
    (updateGenre session id body db).2.genres.map Genre.name = db.genres.map Genre.name := by
  unfold updateGenre requireAuth
  dsimp only
  split
  · rfl
  · split
    · rfl
    · split
      · cases hu : Genre.update db _ none
            (if body.description.supplied = true then some (trimOrNull body.description)
              else none) with
        | error e => rfl
        | ok res => exact genre_update_names hu
      · rfl
      · split
        · rfl
        · simp [Genre.findOneILike]

/-- An update of a platform leaves the names of the table as they were. -/
theorem updatePlatform_names (cfg : Config) (session : Session) (id : String)
    (body : PlatformFields) (db : Store) :
    (updatePlatform cfg session id body db).2.platforms.map Platform.name
      = db.platforms.map Platform.name := by
  unfold updatePlatform requireAuth
  dsimp only
  split
  · rfl
  · split
    · rfl
    · split
      · split
        · rfl
        · cases hu : Platform.update cfg db _ none
              (if body.manufacturer.supplied = true then some (trimOrNull body.manufacturer)
                else none)
              (if body.releaseYear.supplied = true then some (yearValue body.releaseYear)
                else none) with
          | error e => rfl
          | ok res => exact platform_update_names hu
      · rfl
      · split
        · rfl
        · simp [Platform.findOneILike]

/-- C4: case-insensitive uniqueness of names is an invariant. For every relation
`same` between names (equality ignoring case, however letters are folded): if
no two genres and no two platforms of the store have names that are `same`, this
still holds after any create or update of a genre or a platform, whatever the
body (a name with white space at its ends included) and whatever the outcome. The
names of the two tables are the same list before and after: a request with a
name ends in the lookup by `Op.iLike` or before it, and the only request that
writes is an update without a name. -/
theorem name_uniqueness_is_preserved (cfg : Config) (session : Session) (id : String)
    (db : Store) (same : String → String → Prop)
    (hgenres : (db.genres.map Genre.name).Pairwise fun a b => ¬ same a b)
    (hplatforms : (db.platforms.map Platform.name).Pairwise fun a b => ¬ same a b) :
    (∀ body : GenreFields,
      ((createGenre session body db).2.genres.map Genre.name).Pairwise (fun a b => ¬ same a b)
      ∧ ((updateGenre session id body db).2.genres.map Genre.name).Pairwise
          (fun a b => ¬ same a b))
    ∧ (∀ body : PlatformFields,
      ((createPlatform cfg session body db).2.platforms.map Platform.name).Pairwise
          (fun a b => ¬ same a b)
      ∧ ((updatePlatform cfg session id body db).2.platforms.map Platform.name).Pairwise
          (fun a b => ¬ same a b)) := by
  constructor
  · intro body
    rw [createGenre_store, updateGenre_names]
    exact ⟨hgenres, hgenres⟩
  · intro body
    rw [createPlatform_store, updatePlatform_names]
    exact ⟨hplatforms, hplatforms⟩

/-- Witness of C4 on the sample store, with equality ignoring the case of the
ASCII letters: after the update of the description of genre 1, answered 200, and
after the create of " action", no two genres have the same name. -/
theorem name_uniqueness_is_preserved_witness :
    (updateGenre adminSession "1" ⟨.undefined, .val "Fast games"⟩ sampleStore).1.status = 200
    ∧ ((createGenre adminSession ⟨.val " action", .undefined⟩ sampleStore).2.genres.map
        Genre.name).Pairwise (fun a b => ¬ eqIgnoreCase a b = true)
    ∧ ((updateGenre adminSession "1" ⟨.undefined, .val "Fast games"⟩
        sampleStore).2.genres.map Genre.name).Pairwise (fun a b => ¬ eqIgnoreCase a b = true) :=
  ⟨by decide,
    ((name_uniqueness_is_preserved sampleConfig adminSession "1" sampleStore
      (fun a b => eqIgnoreCase a b = true) (by decide) (by decide)).1
        ⟨.val " action", .undefined⟩).1,
    ((name_uniqueness_is_preserved sampleConfig adminSession "1" sampleStore
      (fun a b => eqIgnoreCase a b = true) (by decide) (by decide)).1
        ⟨.undefined, .val "Fast games"⟩).2⟩

/-- C5 (behaviour at the failing input): the sample store holds the genre "Action"
and the platform "PC". An authenticated create of the genre "ACTION" or "action",
and of the platform "pc", is answered 500, not 409: the lookup that should find
the clash uses `Op.iLike`, which the store rejects, and the `catch` block answers.
The same holds for the very name "Action". -/
theorem create_with_clashing_name_answers_500 :
    actionGenre ∈ sampleStore.genres ∧ eqIgnoreCase "ACTION" actionGenre.name = true
    ∧ createGenre adminSession ⟨.val "ACTION", .undefined⟩ sampleStore
        = (Response.fail 500 "Internal server error" "Failed to create genre", sampleStore)
    ∧ createGenre adminSession ⟨.val "action", .undefined⟩ sampleStore
        = (Response.fail 500 "Internal server error" "Failed to create genre", sampleStore)
    ∧ createGenre adminSession ⟨.val "Action", .undefined⟩ sampleStore
        = (Response.fail 500 "Internal server error" "Failed to create genre", sampleStore)
    ∧ createPlatform sampleConfig adminSession ⟨.val "pc", .undefined, .undefined⟩ sampleStore
        = (Response.fail 500 "Internal server error" "Failed to create platform",
            sampleStore) := by
  decide

/-! ## Validation of Game writes -/

/-- C6: an authenticated Game create whose genreId or platformId refers to no
existing row is answered 400 "Validation error" and leaves the store unchanged;
when name, genreId and platformId are all present (truthy) the message names the
unknown reference. -/
theorem create_game_unknown_reference_rejected (cfg : Config) (session : Session)
    (body : GameFields) (db : Store) (hauth : session.user.isSome = true)
    (hmissing : Genre.findByPk db (fieldKey body.genreId) = none
      ∨ Platform.findByPk db (fieldKey body.platformId) = none) :
    (createGame cfg session body db).1.status = 400
    ∧ (createGame cfg session body db).1.error = some "Validation error"
    ∧ (createGame cfg session body db).2 = db
    ∧ (truthyStr body.name = true → truthyNum body.genreId = true →
        truthyNum body.platformId = true →
        (createGame cfg session body db).1.message
          = some (if (Genre.findByPk db (fieldKey body.genreId)).isNone then "Invalid genre ID"
              else "Invalid platform ID")) := by
  unfold createGame
  rw [requireAuth_user _ _ _ hauth]
  by_cases hreq : (!truthyStr body.name || !truthyNum body.genreId
      || !truthyNum body.platformId) = true
  · rw [if_pos hreq]
    refine ⟨rfl, rfl, rfl, ?_⟩
    intro h1 h2 h3
    simp [h1, h2, h3] at hreq
  · rw [if_neg hreq]
    cases hg : Genre.findByPk db (fieldKey body.genreId) with
    | none => simp [Response.fail]
    | some g =>
      have hp : Platform.findByPk db (fieldKey body.platformId) = none := by
        rcases hmissing with h | h
        · rw [hg] at h
          cases h
        · exact h
      simp [hp, Response.fail]

/-- Witness of C6 on the sample store: genreId 9999 refers to no genre. -/
theorem create_game_unknown_reference_rejected_witness :
    (createGame sampleConfig adminSession
      { emptyGameFields with name := .val "X", genreId := .val 9999, platformId := .val 1 }
      sampleStore).1.status = 400 :=
  (create_game_unknown_reference_rejected sampleConfig adminSession
    { emptyGameFields with name := .val "X", genreId := .val 9999, platformId := .val 1 }
    sampleStore (by decide) (Or.inl (by decide))).1

/-- C9: an authenticated Game create or update that supplies a numeric rating r
with r < 0 or r > 10, the other fields passing the checks made before, is
answered 400 with message "Rating must be between 0 and 10" and leaves the store
unchanged. -/
theorem rating_outside_range_rejected (cfg : Config) (session : Session) (id : String)
    (body : GameFields) (db : Store) (r : ℚ) (hauth : session.user.isSome = true)
    (hrating : body.rating = .val r) (hr : r < 0 ∨ 10 < r) :
    (truthyStr body.name = true → truthyNum body.genreId = true →
      truthyNum body.platformId = true →
      (Genre.findByPk db (fieldKey body.genreId)).isSome = true →
      (Platform.findByPk db (fieldKey body.platformId)).isSome = true →
      createGame cfg session body db = (ratingRejected, db))
    ∧ ((Game.findByPk db (parseKey id)).isSome = true →
      (truthyNum body.genreId = true →
        (Genre.findByPk db (fieldKey body.genreId)).isSome = true) →
      (truthyNum body.platformId = true →
        (Platform.findByPk db (fieldKey body.platformId)).isSome = true) →
      updateGame cfg session id body db = (ratingRejected, db))
    ∧ ratingRejected.status = 400
    ∧ ratingRejected.message = some "Rating must be between 0 and 10" := by
  have hne : r ≠ 0 := by
    rcases hr with h | h
    · exact ne_of_lt h
    · intro h0
      rw [h0] at h
      norm_num at h
  have htruthy : truthyNum body.rating = true := by
    rw [hrating]
    simp [truthyNum, hne]
  have hout : ratingOutside body.rating = true := by
    rw [hrating]
    simp only [ratingOutside, Bool.or_eq_true, decide_eq_true_eq]
    exact hr
  refine ⟨?_, ?_, rfl, rfl⟩
  · intro h1 h2 h3 h4 h5
    unfold createGame
    rw [requireAuth_user _ _ _ hauth]
    have h4' : (Genre.findByPk db (fieldKey body.genreId)).isNone = false := by
      cases h : Genre.findByPk db (fieldKey body.genreId) with
      | none => rw [h] at h4; cases h4
      | some _ => rfl
    have h5' : (Platform.findByPk db (fieldKey body.platformId)).isNone = false := by
      cases h : Platform.findByPk db (fieldKey body.platformId) with
      | none => rw [h] at h5; cases h5
      | some _ => rfl
    simp [h1, h2, h3, h4', h5', htruthy, hout, ratingRejected]
  · intro hgame hgenre hplatform
    unfold updateGame
    rw [requireAuth_user _ _ _ hauth]
    cases hf : Game.findByPk db (parseKey id) with
    | none => rw [hf] at hgame; cases hgame
    | some g =>
      have c1 : (truthyNum body.genreId
          && (Genre.findByPk db (fieldKey body.genreId)).isNone) = false := by
        cases ht : truthyNum body.genreId with
        | false => rfl
        | true =>
          have := hgenre ht
          cases h : Genre.findByPk db (fieldKey body.genreId) with
          | none => rw [h] at this; cases this
          | some _ => rfl
      have c2 : (truthyNum body.platformId
          && (Platform.findByPk db (fieldKey body.platformId)).isNone) = false := by
        cases ht : truthyNum body.platformId with
        | false => rfl
        | true =>
          have := hplatform ht
          cases h : Platform.findByPk db (fieldKey body.platformId) with
          | none => rw [h] at this; cases this
          | some _ => rfl
      simp [c1, c2, htruthy, hout, ratingRejected]

/-- Witness of C9 on the sample store: rating 11 on create and rating -1 on an
update of game 1. -/
theorem rating_outside_range_rejected_witness :
    createGame sampleConfig adminSession
      { emptyGameFields with
        name := .val "X", rating := .val 11, genreId := .val 1, platformId := .val 1 }
      sampleStore = (ratingRejected, sampleStore)
    ∧ updateGame sampleConfig adminSession "1" { emptyGameFields with rating := .val (-1) }
      sampleStore = (ratingRejected, sampleStore) :=
  ⟨(rating_outside_range_rejected sampleConfig adminSession "1"
      { emptyGameFields with
        name := .val "X", rating := .val 11, genreId := .val 1, platformId := .val 1 }
      sampleStore 11 (by decide) rfl (Or.inr (by norm_num))).1
      (by decide) (by decide) (by decide) (by decide) (by decide),
    (rating_outside_range_rejected sampleConfig adminSession "1"
      { emptyGameFields with rating := .val (-1) }
      sampleStore (-1) (by decide) rfl (Or.inl (by norm_num))).2.1
      (by decide) (by decide) (by decide)⟩

/-! ## Update of a game -/

theorem game_update_ok {cfg : Config} {db db' : Store} {row row' : Game} {v : GameFields}
    (h : Game.update cfg db row v = .ok (row', db')) :
    db' = { db with games := db.games.map fun x => if x.id = row.id then row' else x }
    ∧ row'.id = row.id
    ∧ (v.name = .undefined → row'.name = row.name)
    ∧ (v.description = .undefined → row'.description = row.description)
    ∧ (v.rating = .undefined → row'.rating = row.rating)
    ∧ (v.releaseDate = .undefined → row'.releaseDate = row.releaseDate)
    ∧ (v.developer = .undefined → row'.developer = row.developer)
    ∧ (v.publisher = .undefined → row'.publisher = row.publisher)
    ∧ (v.imageUrl = .undefined → row'.imageUrl = row.imageUrl)
    ∧ (v.genreId = .undefined → row'.genreId = row.genreId)
    ∧ (v.platformId = .undefined → row'.platformId = row.platformId) := by
  unfold Game.update at h
  simp only at h
  split at h
  · cases h
  · split at h
    · rename_i gk pk hgk hpk
      split at h
      · cases h
      · simp only [Except.ok.injEq, Prod.mk.injEq] at h
        obtain ⟨hrow, hdb⟩ := h
        subst hrow
        refine ⟨hdb.symm, rfl, ?_, ?_, ?_, ?_, ?_, ?_, ?_, ?_, ?_⟩
        · intro hu; simp [Game.write, hu]
        · intro hu; simp [Game.write, hu, Field.over]
        · intro hu; simp [Game.write, hu, Field.over]
        · intro hu; simp [Game.write, hu]
        · intro hu; simp [Game.write, hu, Field.over]
        · intro hu; simp [Game.write, hu, Field.over]
        · intro hu; simp [Game.write, hu, Field.over]
        · intro hu
          rw [hu] at hgk
          simp only [keyOver, Option.some.injEq] at hgk
          simp [Game.write, hgk]
        · intro hu
          rw [hu] at hpk
          simp only [keyOver, Option.some.injEq] at hpk
          simp [Game.write, hpk]
    · cases h

/-- C7: Game update is a partial update. When an authenticated update of an
existing game is accepted (status 200), the store differs from the previous one
only in the row of that game, and each of the nine fields that is absent from the
body keeps its previous value there; every other row is unchanged. In particular
a body holding only a rating r between 0 and 10 is accepted and changes nothing
but the rating of that game (a rating of 0 is stored as NULL). -/
theorem game_update_keeps_absent_fields (cfg : Config) (session : Session) (id : String)
    (body : GameFields) (db : Store) (g : Game) (hauth : session.user.isSome = true)
    (hg : Game.findByPk db (parseKey id) = some g) :
    ((updateGame cfg session id body db).1.status = 200 →
      ∃ g' : Game,
        (updateGame cfg session id body db).2
          = { db with games := db.games.map fun x => if x.id = g.id then g' else x }
        ∧ g'.id = g.id
        ∧ (body.name = .undefined → g'.name = g.name)
        ∧ (body.description = .undefined → g'.description = g.description)
        ∧ (body.rating = .undefined → g'.rating = g.rating)
        ∧ (body.releaseDate = .undefined → g'.releaseDate = g.releaseDate)
        ∧ (body.developer = .undefined → g'.developer = g.developer)
        ∧ (body.publisher = .undefined → g'.publisher = g.publisher)
        ∧ (body.imageUrl = .undefined → g'.imageUrl = g.imageUrl)
        ∧ (body.genreId = .undefined → g'.genreId = g.genreId)
        ∧ (body.platformId = .undefined → g'.platformId = g.platformId))
    ∧ (∀ r : ℚ, 0 ≤ r → r ≤ 10 →
        (updateGame cfg session id { emptyGameFields with rating := .val r } db).1.status = 200
        ∧ (updateGame cfg session id { emptyGameFields with rating := .val r } db).2
          = { db with games := db.games.map fun x =>
                if x.id = g.id then { g with rating := if r = 0 then none else some r } else x }) := by
  constructor
  · intro hok
    unfold updateGame at hok ⊢
    rw [requireAuth_user _ _ _ hauth] at hok ⊢
    simp only [hg] at hok ⊢
    split at hok
    · simp [Response.fail] at hok
    · split at hok
      · simp [Response.fail] at hok
      · split at hok
        · simp [Response.fail] at hok
        · rename_i h1 h2 h3
          rw [if_neg h1, if_neg h2, if_neg h3]
          cases hu : Game.update cfg db g (gameUpdateData body) with
          | error e =>
            rw [hu] at hok
            cases e <;> simp [Response.fail] at hok
          | ok res =>
            obtain ⟨row', db'⟩ := res
            obtain ⟨e0, e1, e2, e3, e4, e5, e6, e7, e8, e9, e10⟩ := game_update_ok hu
            refine ⟨row', e0, e1, e2, e3, ?_, e5, e6, e7, e8, e9, e10⟩
            intro hr
            apply e4
            simp [gameUpdateData, hr, Field.supplied]
  · intro r h0 h10
    unfold updateGame
    rw [requireAuth_user _ _ _ hauth]
    simp only [hg]
    have hout : ratingOutside (Field.val r) = false := by
      simp only [ratingOutside, Bool.or_eq_false_iff, decide_eq_false_iff_not, not_lt]
      exact ⟨h0, h10⟩
    by_cases hz : r = 0
    · subst hz
      simp [emptyGameFields, truthyNum, Game.update, gameUpdateData, ratingValue,
        Field.supplied, gameErrors, requiredErrors, textErrors, keyOver, referencesOk,
        Game.write, Field.over, Response.withGame]
    · simp [emptyGameFields, truthyNum, hz, hout, Game.update, gameUpdateData, ratingValue,
        Field.supplied, gameErrors, requiredErrors, textErrors, keyOver, referencesOk,
        Game.write, Field.over, Response.withGame, check, h0, h10]

/-- Witness of C7 on the sample store: an update of game 1 with only rating 9
answers 200 and keeps the name, the genre and the platform of the game. -/
theorem game_update_keeps_absent_fields_witness :
    (updateGame sampleConfig adminSession "1" { emptyGameFields with rating := .val 9 }
      sampleStore).1.status = 200
    ∧ (updateGame sampleConfig adminSession "1" { emptyGameFields with rating := .val 9 }
      sampleStore).2.games
        = [{ doomGame with rating := some 9 },
            ⟨2, "Quake", none, none, none, none, none, none, 1, 1⟩]
    ∧ ∃ g' : Game,
        (updateGame sampleConfig adminSession "1" { emptyGameFields with rating := .val 9 }
          sampleStore).2.games
          = sampleStore.games.map (fun x => if x.id = doomGame.id then g' else x)
        ∧ g'.name = "Doom" ∧ g'.genreId = 1 ∧ g'.platformId = 1 :=
  have h := game_update_keeps_absent_fields sampleConfig adminSession "1"
    { emptyGameFields with rating := .val 9 } sampleStore doomGame (by decide) (by decide)
  have h2 := h.2 9 (by norm_num) (by norm_num)
  have ⟨g', e0, _, e2, _, _, _, _, _, _, e9, e10⟩ := h.1 h2.1
  ⟨h2.1, by rw [h2.2]; decide, g', by rw [e0], e2 rfl, e9 rfl, e10 rfl⟩

/-- C8 (behaviour at the failing input): an authenticated PUT /api/games/1 with
body {genreId: 0} on the sample store, where no genre has id 0. The handler skips
its own check: without foreign-key enforcement it answers 200 and stores
genreId 0; with enforcement it answers 500 from the rejected write. A create
with the same genreId is answered 400 "Validation error". -/
theorem update_skips_check_of_falsy_reference :
    Genre.findByPk sampleStore (some 0) = none
    ∧ (updateGame sampleConfig adminSession "1"
        { emptyGameFields with genreId := .val 0 } sampleStore).1.status = 200
    ∧ (updateGame sampleConfig adminSession "1"
        { emptyGameFields with genreId := .val 0 } sampleStore).2.games.map Game.genreId = [0, 1]
    ∧ (updateGame strictConfig adminSession "1"
        { emptyGameFields with genreId := .val 0 } sampleStore).1.status = 500
    ∧ (updateGame strictConfig adminSession "1"
        { emptyGameFields with genreId := .val 0 } sampleStore).1.error
        = some "Internal server error"
    ∧ (updateGame sampleConfig adminSession "1"
        { emptyGameFields with platformId := .val 0 } sampleStore).2.games.map Game.platformId
        = [0, 1]
    ∧ (createGame sampleConfig adminSession
        { emptyGameFields with name := .val "X", genreId := .val 0, platformId := .val 1 }
        sampleStore).1 = Response.fail 400 "Validation error"
          "Name, genre, and platform are required" := by
  decide

/-! ## Release year of a platform -/

theorem create_platform_rejects_nonzero_year_outside (cfg : Config) (session : Session)
    (db : Store) (name : String) (manufacturer : Field String) (q : ℚ)
    (hauth : session.user.isSome = true) (hlo : 2 ≤ jsLength name) (hhi : jsLength name ≤ 50)
    (hq : q ≠ 0) (hout : q < 1970 ∨ ((cfg.currentYear + 5 : Int) : ℚ) < q) :
    createPlatform cfg session ⟨.val name, manufacturer, .val q⟩ db
      = (Response.fail 400 "Validation error" (yearMessage cfg), db) := by
  have hne := jsLength_pos_data name hlo
  have hlen : nameLengthOutside name = false := by
    simp only [nameLengthOutside, Bool.or_eq_false_iff, decide_eq_false_iff_not]
    omega
  have hy : yearOutside cfg (Field.val q) = true := by
    simp only [yearOutside, Bool.or_eq_true, decide_eq_true_eq]
    exact hout
  unfold createPlatform
  rw [requireAuth_user _ _ _ hauth]
  simp [truthyStr, hne, hlen, truthyNum, hq, hy]

/-- C10 (behaviour at the failing input): an authenticated POST /api/platforms
with body {name: "Atari 2600", releaseYear: 0} is not answered 400 "Validation
error": the range test is skipped for 0, the request goes on to the lookup of the
name and is answered 500. The same handler rejects the years -5 and 1969 with
400, and the update handler rejects the year 0 with 400. -/
theorem create_platform_year_zero_not_range_tested :
    createPlatform sampleConfig adminSession ⟨.val "Atari 2600", .undefined, .val 0⟩
        sampleStore
      = (Response.fail 500 "Internal server error" "Failed to create platform", sampleStore)
    ∧ createPlatform sampleConfig adminSession ⟨.val "Atari 2600", .undefined, .val (-5)⟩
        sampleStore
      = (Response.fail 400 "Validation error" "Release year must be between 1970 and 2030",
          sampleStore)
    ∧ createPlatform sampleConfig adminSession ⟨.val "Atari 2600", .undefined, .val 1969⟩
        sampleStore
      = (Response.fail 400 "Validation error" "Release year must be between 1970 and 2030",
          sampleStore)
    ∧ updatePlatform sampleConfig adminSession "1" ⟨.undefined, .undefined, .val 0⟩
        sampleStore
      = (Response.fail 400 "Validation error" "Release year must be between 1970 and 2030",
          sampleStore) := by
  decide

/-! ## Referential integrity under the writes that the handlers check -/

theorem referencesResolve_iff (db : Store) :
    referencesResolve db = true ↔
      ∀ g ∈ db.games, (Genre.findByPk db (some g.genreId)).isSome = true
        ∧ (Platform.findByPk db (some g.platformId)).isSome = true := by
  simp [referencesResolve, List.all_eq_true]

theorem keyOver_none_fieldKey {f : Field ℚ} {k : Int} (h : keyOver f none = some k) :
    fieldKey f = some k := by
  cases f with
  | undefined => simp [keyOver] at h
  | null => simp [keyOver] at h
  | val q => simpa [keyOver, fieldKey] using h

theorem truthy_keyOver_fieldKey {f : Field ℚ} {old : Option Int} (h : truthyNum f = true) :
    keyOver f old = fieldKey f := by
  cases f with
  | undefined => simp [truthyNum] at h
  | null => simp [truthyNum] at h
  | val q => rfl

theorem game_create_ok {cfg : Config} {db db' : Store} {row : Game} {v : GameFields}
    (h : Game.create cfg db v = .ok (row, db')) :
    db' = { db with games := db.games ++ [row], nextGameId := db.nextGameId + 1 }
    ∧ fieldKey v.genreId = some row.genreId
    ∧ fieldKey v.platformId = some row.platformId := by
  unfold Game.create at h
  simp only at h
  split at h
  · cases h
  · split at h
    · rename_i gk pk hgk hpk
      split at h
      · cases h
      · simp only [Except.ok.injEq, Prod.mk.injEq] at h
        obtain ⟨hrow, hdb⟩ := h
        subst hrow
        exact ⟨hdb.symm, keyOver_none_fieldKey hgk, keyOver_none_fieldKey hpk⟩
    · cases h

theorem game_update_keys {cfg : Config} {db db' : Store} {row row' : Game} {v : GameFields}
    (h : Game.update cfg db row v = .ok (row', db')) :
    keyOver v.genreId (some row.genreId) = some row'.genreId
    ∧ keyOver v.platformId (some row.platformId) = some row'.platformId := by
  unfold Game.update at h
  simp only at h
  split at h
  · cases h
  · split at h
    · rename_i gk pk hgk hpk
      split at h
      · cases h
      · simp only [Except.ok.injEq, Prod.mk.injEq] at h
        obtain ⟨hrow, _⟩ := h
        subst hrow
        exact ⟨hgk, hpk⟩
    · cases h

theorem isSome_of_not_isNone {α : Type} {o : Option α} (h : ¬ o.isNone = true) :
    o.isSome = true := by
  cases o with
  | none => exact absurd rfl h
  | some _ => rfl

theorem createGame_keeps_references (cfg : Config) (session : Session) (body : GameFields)
    (db : Store) (hauth : session.user.isSome = true) (hinv : referencesResolve db = true)
    (hok : (createGame cfg session body db).1.status = 201) :
    referencesResolve (createGame cfg session body db).2 = true := by
  unfold createGame at hok ⊢
  rw [requireAuth_user _ _ _ hauth] at hok ⊢
  split at hok
  · simp [Response.fail] at hok
  · rename_i h0
    rw [if_neg h0]
    simp only at hok ⊢
    split at hok
    · simp [Response.fail] at hok
    · rename_i h1
      rw [if_neg h1]
      split at hok
      · simp [Response.fail] at hok
      · rename_i h2
        rw [if_neg h2]
        split at hok
        · simp [Response.fail] at hok
        · rename_i h3
          rw [if_neg h3]
          cases hc : Game.create cfg db { body with rating := ratingValue body.rating } with
          | error e =>
            rw [hc] at hok
            cases e <;> simp [Response.fail] at hok
          | ok res =>
            obtain ⟨row, db'⟩ := res
            obtain ⟨e0, eg, ep⟩ := game_create_ok hc
            simp only at eg ep
            have hg := isSome_of_not_isNone h1
            have hp := isSome_of_not_isNone h2
            rw [eg] at hg
            rw [ep] at hp
            simp only
            rw [referencesResolve_iff] at hinv ⊢
            subst e0
            intro x hx
            have hgen : ∀ key, Genre.findByPk
                { db with games := db.games ++ [row], nextGameId := db.nextGameId + 1 } key
                = Genre.findByPk db key := fun key => genre_findByPk_congr rfl key
            have hpla : ∀ key, Platform.findByPk
                { db with games := db.games ++ [row], nextGameId := db.nextGameId + 1 } key
                = Platform.findByPk db key := fun key => platform_findByPk_congr rfl key
            rw [hgen, hpla]
            simp only [List.mem_append, List.mem_singleton] at hx
            rcases hx with hx | hx
            · exact hinv x hx
            · subst hx
              exact ⟨hg, hp⟩

theorem updateGame_keeps_references (cfg : Config) (session : Session) (id : String)
    (body : GameFields) (db : Store) (hauth : session.user.isSome = true)
    (hinv : referencesResolve db = true)
    (hgenre : body.genreId.supplied = true → truthyNum body.genreId = true)
    (hplatform : body.platformId.supplied = true → truthyNum body.platformId = true)
    (hok : (updateGame cfg session id body db).1.status = 200) :
    referencesResolve (updateGame cfg session id body db).2 = true := by
  unfold updateGame at hok ⊢
  rw [requireAuth_user _ _ _ hauth] at hok ⊢
  cases hf : Game.findByPk db (parseKey id) with
  | none =>
    rw [hf] at hok
    simp [Response.fail] at hok
  | some g =>
    rw [hf] at hok
    simp only at hok ⊢
    have hmem := (game_findByPk_key hf).2
    split at hok
    · simp [Response.fail] at hok
    · rename_i h1
      rw [if_neg h1]
      split at hok
      · simp [Response.fail] at hok
      · rename_i h2
        rw [if_neg h2]
        split at hok
        · simp [Response.fail] at hok
        · rename_i h3
          rw [if_neg h3]
          cases hu : Game.update cfg db g (gameUpdateData body) with
          | error e =>
            rw [hu] at hok
            cases e <;> simp [Response.fail] at hok
          | ok res =>
            obtain ⟨row', db'⟩ := res
            have e0 := (game_update_ok hu).1
            obtain ⟨kg, kp⟩ := game_update_keys hu
            have kg' : keyOver body.genreId (some g.genreId) = some row'.genreId := kg
            have kp' : keyOver body.platformId (some g.platformId) = some row'.platformId := kp
            simp only
            rw [referencesResolve_iff] at hinv ⊢
            have hrowg : (Genre.findByPk db (some row'.genreId)).isSome = true := by
              cases hs : body.genreId.supplied with
              | false =>
                cases hb : body.genreId with
                | undefined =>
                  rw [hb] at kg'
                  simp only [keyOver, Option.some.injEq] at kg'
                  rw [← kg']
                  exact (hinv g hmem).1
                | null => rw [hb] at hs; cases hs
                | val q => rw [hb] at hs; cases hs
              | true =>
                have ht := hgenre hs
                rw [truthy_keyOver_fieldKey ht] at kg'
                rw [ht, Bool.true_and] at h1
                have := isSome_of_not_isNone h1
                rw [kg'] at this
                exact this
            have hrowp : (Platform.findByPk db (some row'.platformId)).isSome = true := by
              cases hs : body.platformId.supplied with
              | false =>
                cases hb : body.platformId with
                | undefined =>
                  rw [hb] at kp'
                  simp only [keyOver, Option.some.injEq] at kp'
                  rw [← kp']
                  exact (hinv g hmem).2
                | null => rw [hb] at hs; cases hs
                | val q => rw [hb] at hs; cases hs
              | true =>
                have ht := hplatform hs
                rw [truthy_keyOver_fieldKey ht] at kp'
                rw [ht, Bool.true_and] at h2
                have := isSome_of_not_isNone h2
                rw [kp'] at this
                exact this
            subst e0
            intro x hx
            have hgen : ∀ key, Genre.findByPk
                { db with games := db.games.map fun x => if x.id = g.id then row' else x } key
                = Genre.findByPk db key := fun key => genre_findByPk_congr rfl key
            have hpla : ∀ key, Platform.findByPk
                { db with games := db.games.map fun x => if x.id = g.id then row' else x } key
                = Platform.findByPk db key := fun key => platform_findByPk_congr rfl key
            rw [hgen, hpla]
            simp only [List.mem_map] at hx
            obtain ⟨y, hy, hxy⟩ := hx
            by_cases hid : y.id = g.id
            · rw [if_pos hid] at hxy
              subst hxy
              exact ⟨hrowg, hrowp⟩
            · rw [if_neg hid] at hxy
              subst hxy
              exact hinv y hy

theorem deleteGenre_keeps_references (cfg : Config) (session : Session) (id : String)
    (db : Store) (hauth : session.user.isSome = true) (hinv : referencesResolve db = true)
    (hok : (deleteGenre cfg session id db).1.status = 200) :
    referencesResolve (deleteGenre cfg session id db).2 = true := by
  cases hf : Genre.findByPk db (parseKey id) with
  | none =>
    unfold deleteGenre at hok
    rw [requireAuth_user _ _ _ hauth, hf] at hok
    simp [Response.fail] at hok
  | some g =>
    obtain ⟨h1, h2, _⟩ := deleteGenre_contract cfg session id db g hauth hf
    have hN := h1.mp hok
    obtain ⟨_, _, eg, ep, egames⟩ := h2 hN
    rw [referencesResolve_iff] at hinv ⊢
    rw [egames]
    intro x hx
    rw [platform_findByPk_congr ep]
    refine ⟨?_, (hinv x hx).2⟩
    have hne : x.genreId ≠ g.id := by
      have := List.countP_eq_zero.mp hN x hx
      simpa using this
    have hsome := (hinv x hx).1
    simp only [Genre.findByPk, List.find?_isSome] at hsome ⊢
    obtain ⟨y, hy, hyid⟩ := hsome
    refine ⟨y, ?_, hyid⟩
    rw [eg, List.mem_filter]
    refine ⟨hy, ?_⟩
    have : y.id = x.genreId := by simpa using hyid
    simp [this, hne]

theorem deletePlatform_keeps_references (cfg : Config) (session : Session) (id : String)
    (db : Store) (hauth : session.user.isSome = true) (hinv : referencesResolve db = true)
    (hok : (deletePlatform cfg session id db).1.status = 200) :
    referencesResolve (deletePlatform cfg session id db).2 = true := by
  cases hf : Platform.findByPk db (parseKey id) with
  | none =>
    unfold deletePlatform at hok
    rw [requireAuth_user _ _ _ hauth, hf] at hok
    simp [Response.fail] at hok
  | some p =>
    obtain ⟨h1, h2, _⟩ := deletePlatform_contract cfg session id db p hauth hf
    have hN := h1.mp hok
    obtain ⟨_, _, ep, eg, egames⟩ := h2 hN
    rw [referencesResolve_iff] at hinv ⊢
    rw [egames]
    intro x hx
    rw [genre_findByPk_congr eg]
    refine ⟨(hinv x hx).1, ?_⟩
    have hne : x.platformId ≠ p.id := by
      have := List.countP_eq_zero.mp hN x hx
      simpa using this
    have hsome := (hinv x hx).2
    simp only [Platform.findByPk, List.find?_isSome] at hsome ⊢
    obtain ⟨y, hy, hyid⟩ := hsome
    refine ⟨y, ?_, hyid⟩
    rw [ep, List.mem_filter]
    refine ⟨hy, ?_⟩
    have : y.id = x.platformId := by simpa using hyid
    simp [this, hne]

/-! ## Inserts -/

theorem genre_create_ok {db db' : Store} {name : String} {description : Option String}
    {row : Genre} (h : Genre.create db name description = .ok (row, db')) :
    db'.genres = db.genres ++ [row] ∧ row.name = name := by
  unfold Genre.create at h
  simp only at h
  split at h
  · cases h
  · split at h
    · cases h
    · simp only [Except.ok.injEq, Prod.mk.injEq] at h
      obtain ⟨hrow, hdb⟩ := h
      subst hrow
      subst hdb
      exact ⟨rfl, rfl⟩

theorem platform_create_ok {cfg : Config} {db db' : Store} {name : String}
    {manufacturer : Option String} {releaseYear : Option Int} {row : Platform}
    (h : Platform.create cfg db name manufacturer releaseYear = .ok (row, db')) :
    db'.platforms = db.platforms ++ [row] ∧ row.name = name := by
  unfold Platform.create at h
  simp only at h
  split at h
  · cases h
  · split at h
    · cases h
    · simp only [Except.ok.injEq, Prod.mk.injEq] at h
      obtain ⟨hrow, hdb⟩ := h
      subst hrow
      subst hdb
      exact ⟨rfl, rfl⟩

/-! ## Release year: create against update -/

theorem platform_create_with_year {cfg : Config} {db db' : Store} {name : String}
    {m : Option String} {row : Platform} (y : Int)
    (h : Platform.create cfg db name m none = .ok (row, db')) :
    ((1970 ≤ y ∧ y ≤ cfg.bootYear + 5) →
      ∃ r d, Platform.create cfg db name m (some y) = .ok (r, d))
    ∧ (¬ (1970 ≤ y ∧ y ≤ cfg.bootYear + 5) →
      ∃ messages, Platform.create cfg db name m (some y) = .error (.validation messages)) := by
  unfold Platform.create at h ⊢
  simp only at h ⊢
  split at h
  · cases h
  · rename_i herr
    split at h
    · cases h
    · rename_i hdup
      have hempty : (nameErrors 50 name ++ platformErrors cfg m none) = [] := by
        simpa using herr
      have hname : nameErrors 50 name = [] := (List.append_eq_nil.mp hempty).1
      have hman : platformErrors cfg m none = [] := (List.append_eq_nil.mp hempty).2
      have hman' : (match m with
          | none => ([] : List String)
          | some t => check (lenOk 0 50 t) "Validation len on manufacturer failed") = [] := by
        simpa [platformErrors] using hman
      constructor
      · intro hy
        have hyear : platformErrors cfg m (some y) = [] := by
          simp only [platformErrors, hman', List.nil_append]
          simp [check, hy.1, hy.2]
        simp [hname, hyear, hdup]
      · intro hy
        have hyear : platformErrors cfg m (some y) ≠ [] := by
          simp only [platformErrors, hman', List.nil_append, check]
          by_cases h1 : 1970 ≤ y
          · have h2 : ¬ y ≤ cfg.bootYear + 5 := fun h2 => hy ⟨h1, h2⟩
            simp [h1, h2]
          · simp [h1]
        have hne : (nameErrors 50 name ++ platformErrors cfg m (some y)).isEmpty = false := by
          rw [hname, List.nil_append]
          cases hp : platformErrors cfg m (some y) with
          | nil => exact absurd hp hyear
          | cons a t => rfl
        simp [hne]

theorem platform_update_with_year (cfg : Config) (db : Store) (row : Platform) (y : Int) :
    ((1970 ≤ y ∧ y ≤ cfg.bootYear + 5) →
      ∃ r d, Platform.update cfg db row none none (some (some y)) = .ok (r, d))
    ∧ (¬ (1970 ≤ y ∧ y ≤ cfg.bootYear + 5) →
      ∃ messages,
        Platform.update cfg db row none none (some (some y)) = .error (.validation messages)) := by
  unfold Platform.update
  constructor
  · intro hy
    simp [platformErrors, check, hy.1, hy.2]
  · intro hy
    have hne : (platformErrors cfg none (some y)).isEmpty = false := by
      simp only [platformErrors, List.nil_append, check]
      by_cases h1 : 1970 ≤ y
      · have h2 : ¬ y ≤ cfg.bootYear + 5 := fun h2 => hy ⟨h1, h2⟩
        simp [h1, h2]
      · simp [h1]
    simp [hne]

theorem createPlatform_year_status (cfg : Config) (session : Session) (db : Store)
    (name : String) (manufacturer : Field String) (v : ℚ)
    (hauth : session.user.isSome = true) (hlo : 2 ≤ jsLength name) (hhi : jsLength name ≤ 50) :
    (createPlatform cfg session ⟨.val name, manufacturer, .val v⟩ db).1.status = 400 ↔
      (v ≠ 0 ∧ yearOutside cfg (.val v) = true) := by
  by_cases hv : v = 0
  · subst hv
    rw [createPlatform_fails_in_lookup cfg session db name manufacturer (.val 0) hauth hlo hhi
      (by simp [truthyNum])]
    simp [Response.fail]
  · by_cases hout : yearOutside cfg (Field.val v) = true
    · have hcases : v < 1970 ∨ ((cfg.currentYear + 5 : Int) : ℚ) < v := by
        simpa [yearOutside] using hout
      rw [create_platform_rejects_nonzero_year_outside cfg session db name manufacturer v hauth
        hlo hhi hv hcases]
      simp [Response.fail, hv, hout]
    · rw [createPlatform_fails_in_lookup cfg session db name manufacturer (.val v) hauth hlo hhi
        (by simp [hout])]
      simp [Response.fail, hout]

theorem updatePlatform_year_status (cfg : Config) (session : Session) (id : String)
    (db : Store) (v : ℚ) (hauth : session.user.isSome = true)
    (hexists : (Platform.findByPk db (parseKey id)).isSome = true) :
    (updatePlatform cfg session id ⟨.undefined, .undefined, .val v⟩ db).1.status = 400 ↔
      (yearOutside cfg (.val v) = true
        ∨ (v ≠ 0 ∧ ¬ (1970 ≤ parseInt v ∧ parseInt v ≤ cfg.bootYear + 5))) := by
  unfold updatePlatform
  rw [requireAuth_user _ _ _ hauth]
  cases hf : Platform.findByPk db (parseKey id) with
  | none => rw [hf] at hexists; cases hexists
  | some p =>
    simp only [Field.supplied, Bool.true_and, if_true, if_false, Bool.false_eq_true]
    have hnn : (decide (Field.val v ≠ (Field.null : Field ℚ))) = true := by simp
    by_cases hout : yearOutside cfg (Field.val v) = true
    · simp [hout, Response.fail]
    · by_cases hv : v = 0
      · subst hv
        exfalso
        apply hout
        simp [yearOutside]
      · have htv : truthyNum (Field.val v) = true := by simp [truthyNum, hv]
        have hyv : yearValue (Field.val v) = some (parseInt v) := by
          simp [yearValue, htv]
        simp only [hout, hyv, ne_eq, reduceCtorEq, not_false_eq_true, decide_True, Bool.and_false,
          Bool.false_eq_true, if_false, false_or]
        obtain ⟨hok, hbad⟩ := platform_update_with_year cfg db p (parseInt v)
        by_cases hy : 1970 ≤ parseInt v ∧ parseInt v ≤ cfg.bootYear + 5
        · obtain ⟨r, d, hr⟩ := hok hy
          rw [hr]
          simp [Response.withPlatform, hy]
        · obtain ⟨messages, hr⟩ := hbad hy
          rw [hr]
          simp only [platformCatch, Response.fail, true_iff]
          exact ⟨hv, hy⟩

/-- Off zero the two handlers apply the same range test: for a release year other
than 0, a create whose name passes the checks is answered 400 exactly when the
handler's range test of the update rejects the year. -/
theorem release_year_rule_agrees_off_zero (cfg : Config) (session : Session)
    (db : Store) (name : String) (manufacturer : Field String) (v : ℚ)
    (hauth : session.user.isSome = true) (hlo : 2 ≤ jsLength name) (hhi : jsLength name ≤ 50)
    (hv : v ≠ 0) :
    (createPlatform cfg session ⟨.val name, manufacturer, .val v⟩ db).1.status = 400 ↔
      yearOutside cfg (.val v) = true := by
  rw [createPlatform_year_status cfg session db name manufacturer v hauth hlo hhi]
  exact ⟨fun h => h.2, fun h => ⟨hv, h⟩⟩

/-- C11 (behaviour at the failing input): on the sample store platform 1 exists
and the name "Atari 2600" passes the checks of create. With releaseYear 0 the
update is answered 400 with the message of the range test, while the create is not
answered 400: its range test is skipped for 0 and the request ends in the lookup
of the name, answered 500. For the year 1969 both answer 400. -/
theorem release_year_zero_splits_create_and_update :
    (Platform.findByPk sampleStore (parseKey "1")).isSome = true
    ∧ updatePlatform sampleConfig adminSession "1" ⟨.undefined, .undefined, .val 0⟩
        sampleStore
      = (Response.fail 400 "Validation error" "Release year must be between 1970 and 2030",
          sampleStore)
    ∧ (createPlatform sampleConfig adminSession ⟨.val "Atari 2600", .undefined, .val 0⟩
        sampleStore).1.status = 500
    ∧ (createPlatform sampleConfig adminSession ⟨.val "Atari 2600", .undefined, .val 0⟩
        sampleStore).1.message = some "Failed to create platform"
    ∧ (updatePlatform sampleConfig adminSession "1" ⟨.undefined, .undefined, .val 1969⟩
        sampleStore).1.status = 400
    ∧ (createPlatform sampleConfig adminSession ⟨.val "Atari 2600", .undefined, .val 1969⟩
        sampleStore).1.status = 400 := by
  decide

/-! ## Length of stored names -/

theorem nameErrors_nil {hi : Nat} {s : String} (h : nameErrors hi s = []) :
    lenOk 2 hi s = true := by
  unfold nameErrors check at h
  cases hl : lenOk 2 hi s with
  | true => rfl
  | false => simp [hl] at h

theorem lenOk_bounds {lo hi : Nat} {s : String} (h : lenOk lo hi s = true) :
    lo ≤ s.data.length ∧ s.data.length ≤ hi := by
  simpa [lenOk] using h

theorem length_le_jsLength (s : String) : s.data.length ≤ jsLength s := by
  unfold jsLength
  induction s.data with
  | nil => simp
  | cons c t ih =>
    simp only [List.length_cons, List.map_cons, List.sum_cons]
    split <;> omega

theorem unitsSum_dropWhile (p : Char → Bool) (l : List Char) :
    ((l.dropWhile p).map fun c => if c.toNat < 65536 then 1 else 2).sum
      ≤ (l.map fun c => if c.toNat < 65536 then 1 else 2).sum := by
  induction l with
  | nil => simp
  | cons c t ih =>
    simp only [List.dropWhile_cons]
    split
    · simp only [List.map_cons, List.sum_cons]
      omega
    · exact le_refl _

theorem jsLength_jsTrim_le (s : String) : jsLength (jsTrim s) ≤ jsLength s := by
  unfold jsLength jsTrim trimChars
  simp only [List.map_reverse, List.sum_reverse]
  have h1 := unitsSum_dropWhile isJsSpace (s.data.dropWhile isJsSpace).reverse
  have h2 := unitsSum_dropWhile isJsSpace s.data
  simp only [List.map_reverse, List.sum_reverse] at h1
  omega

theorem genre_create_valid {db db' : Store} {name : String} {description : Option String}
    {row : Genre} (h : Genre.create db name description = .ok (row, db')) :
    lenOk 2 50 name = true := by
  unfold Genre.create at h
  simp only at h
  split at h
  · cases h
  · rename_i herr
    apply nameErrors_nil
    simpa using herr

theorem platform_create_valid {cfg : Config} {db db' : Store} {name : String}
    {manufacturer : Option String} {releaseYear : Option Int} {row : Platform}
    (h : Platform.create cfg db name manufacturer releaseYear = .ok (row, db')) :
    lenOk 2 50 name = true := by
  unfold Platform.create at h
  simp only at h
  split at h
  · cases h
  · rename_i herr
    apply nameErrors_nil
    have : nameErrors 50 name ++ platformErrors cfg manufacturer releaseYear = [] := by
      simpa using herr
    exact (List.append_eq_nil.mp this).1

theorem trimmed_within_bounds {n : String} (hlen : nameLengthOutside n = false)
    (hok : lenOk 2 50 (jsTrim n) = true) : nameWithinBounds (jsTrim n) := by
  refine ⟨(lenOk_bounds hok).1, ?_⟩
  have h1 := jsLength_jsTrim_le n
  simp only [nameLengthOutside, Bool.or_eq_false_iff, decide_eq_false_iff_not] at hlen
  omega

theorem names_within_bounds_of_eq {α : Type} (name : α → String) {before after : List α}
    (h : after.map name = before.map name)
    (hinv : ∀ x ∈ before, nameWithinBounds (name x)) :
    ∀ x ∈ after, nameWithinBounds (name x) := by
  intro x hx
  have hmem : name x ∈ before.map name := h ▸ List.mem_map_of_mem name hx
  obtain ⟨y, hy, hxy⟩ := List.mem_map.mp hmem
  rw [← hxy]
  exact hinv y hy

/-- C12: the length of names is an invariant of the store. If every stored genre
and platform name has between 2 and 50 characters, this still holds after any
create or update of a genre or a platform, whatever the name in the body (the
handlers test the length of the untrimmed name) and whatever the outcome: the
names of the two tables are the same list before and after, since a request with
a name ends in the lookup by `Op.iLike` or before it and the only request that
writes is an update without a name. -/
theorem stored_name_length_within_bounds (cfg : Config) (session : Session) (id : String)
    (db : Store) (hgenres : ∀ g ∈ db.genres, nameWithinBounds g.name)
    (hplatforms : ∀ p ∈ db.platforms, nameWithinBounds p.name) :
    (∀ body : GenreFields,
      (∀ g ∈ (createGenre session body db).2.genres, nameWithinBounds g.name)
      ∧ (∀ g ∈ (updateGenre session id body db).2.genres, nameWithinBounds g.name))
    ∧ (∀ body : PlatformFields,
      (∀ p ∈ (createPlatform cfg session body db).2.platforms, nameWithinBounds p.name)
      ∧ (∀ p ∈ (updatePlatform cfg session id body db).2.platforms,
          nameWithinBounds p.name)) := by
  constructor
  · intro body
    refine ⟨?_, names_within_bounds_of_eq Genre.name (updateGenre_names session id body db)
      hgenres⟩
    rw [createGenre_store]
    exact hgenres
  · intro body
    refine ⟨?_, names_within_bounds_of_eq Platform.name
      (updatePlatform_names cfg session id body db) hplatforms⟩
    rw [createPlatform_store]
    exact hplatforms

theorem sample_names_within_bounds :
    (∀ g ∈ sampleStore.genres, nameWithinBounds g.name)
    ∧ (∀ p ∈ sampleStore.platforms, nameWithinBounds p.name) := by
  constructor
  · intro g hg
    simp only [sampleStore, List.mem_cons, List.mem_singleton, List.not_mem_nil, or_false] at hg
    rcases hg with h | h <;> subst h <;> unfold nameWithinBounds <;> decide
  · intro p hp
    simp only [sampleStore, List.mem_cons, List.mem_singleton, List.not_mem_nil, or_false] at hp
    rcases hp with h | h <;> subst h <;> unfold nameWithinBounds <;> decide

/-- Witness of C12 on the sample store: the update of the manufacturer of
platform 2 is answered 200 and the create of the genre "  Strategy " is answered
500; after each, every stored name has between 2 and 50 characters. -/
theorem stored_name_length_within_bounds_witness :
    (updatePlatform sampleConfig adminSession "2" ⟨.undefined, .val "Nintendo Co.", .undefined⟩
      sampleStore).1.status = 200
    ∧ (∀ p ∈ (updatePlatform sampleConfig adminSession "2"
        ⟨.undefined, .val "Nintendo Co.", .undefined⟩ sampleStore).2.platforms,
        nameWithinBounds p.name)
    ∧ (∀ g ∈ (createGenre adminSession ⟨.val "  Strategy ", .undefined⟩ sampleStore).2.genres,
        nameWithinBounds g.name) :=
  ⟨by decide,
    ((stored_name_length_within_bounds sampleConfig adminSession "2" sampleStore
      sample_names_within_bounds.1 sample_names_within_bounds.2).2
        ⟨.undefined, .val "Nintendo Co.", .undefined⟩).2,
    ((stored_name_length_within_bounds sampleConfig adminSession "2" sampleStore
      sample_names_within_bounds.1 sample_names_within_bounds.2).1
        ⟨.val "  Strategy ", .undefined⟩).1⟩

/-! ## Paging of the list handlers -/

theorem roundNat_exact (a : Nat) (h : a ≤ 9007199254740992) : roundNat a = some a := by
  simp [roundNat, h]

theorem roundInt_exact (n : Int) (h : withinExact n) : roundInt n = some n := by
  unfold withinExact maxExact at h
  unfold roundInt
  by_cases hn : 0 ≤ n
  · rw [if_pos hn, roundNat_exact _ (by omega)]
    simp only [Option.map_some', Int.ofNat_eq_coe, Option.some.injEq]
    omega
  · rw [if_neg hn, roundNat_exact _ (by omega)]
    simp only [Option.map_some', Int.ofNat_eq_coe, Option.some.injEq]
    omega

theorem offsetOf_exact (p l : Int) (h1 : withinExact (p - 1)) (h2 : withinExact ((p - 1) * l)) :
    offsetOf (some p) (some l) = some ((p - 1) * l) := by
  simp only [offsetOf, roundInt_exact _ h1, Option.some_bind, roundInt_exact _ h2]

theorem isInt64_of_exact (n : Int) (h : withinExact n) : isInt64 n = true := by
  unfold withinExact maxExact at h
  simp only [isInt64, Bool.and_eq_true, decide_eq_true_eq]
  omega

theorem listPlan_parsed (fields : List String) (d : Int)
    (page limit sortBy sortOrder : Option String) (p l : Int)
    (hp : parseParam page 1 = some p) (hl : parseParam limit d = some l)
    (h1 : withinExact (p - 1)) (h2 : withinExact ((p - 1) * l)) :
    listPlan fields d page limit sortBy sortOrder
      = ⟨some p, some l, some ((p - 1) * l), sortColumn fields sortBy,
          sortDirection sortOrder⟩ := by
  simp only [listPlan, hp, hl, offsetOf_exact p l h1 h2]

theorem offset_nonneg {p l : Int} (hp : 1 ≤ p) (hl : 1 ≤ l) : 0 ≤ (p - 1) * l :=
  Int.mul_nonneg (by omega) (by omega)

theorem exact_of_positive {p l : Int} (hp : 1 ≤ p) (hl : 1 ≤ l)
    (hbound : (p - 1) * l ≤ maxExact) :
    withinExact (p - 1) ∧ withinExact ((p - 1) * l) := by
  have h0 : 0 ≤ (p - 1) * l := offset_nonneg hp hl
  have h1 : (p - 1) * 1 ≤ (p - 1) * l := Int.mul_le_mul_of_nonneg_left hl (by omega)
  unfold withinExact maxExact at *
  refine ⟨⟨by omega, by omega⟩, ⟨by omega, by omega⟩⟩

/-- Beyond 2^53 the numbers of the handler are rounded: the page
"9007199254740993" is read as 9007199254740992, and with the limit 10 the product
that the handler passes as offset is the double 90071992547409904, next to the
integer (9007199254740992 - 1) * 10. -/
theorem offset_is_rounded_beyond_exact_range :
    parseIntStr "9007199254740993" = some 9007199254740992
    ∧ listPlan gameSortFields 10 (some "9007199254740993") none none none
      = ⟨some 9007199254740992, some 10, some 90071992547409904, "name", "ASC"⟩
    ∧ listGames sampleEnv { emptyGameQuery with page := some "9007199254740993" } sampleStore
      = gamesResponse sampleEnv { emptyGameQuery with page := some "9007199254740993" }
          sampleStore ⟨some 9007199254740992, some 10, some 90071992547409904, "name", "ASC"⟩
    ∧ ((9007199254740992 - 1) * 10 : Int) ≠ 90071992547409904 := by
  decide

/-- C14 (counterexample): the parameters are parsed but not coerced. On the sample
store page "0" gives the games query offset -10, page "-3" with limit "0" gives
page -3 and limit 0, and a limit that is not a number gives no number at all, upon
which the handler answers 500. -/
theorem paging_parameters_are_not_coerced :
    listGames sampleEnv { emptyGameQuery with page := some "0" } sampleStore
      = gamesResponse sampleEnv { emptyGameQuery with page := some "0" } sampleStore
          ⟨some 0, some 10, some (-10), "name", "ASC"⟩
    ∧ listPlan genreSortFields 50 (some "-3") (some "0") none none
      = ⟨some (-3), some 0, some 0, "name", "ASC"⟩
    ∧ listPlan platformSortFields 50 (some "2") (some "-5") none none
      = ⟨some 2, some (-5), some (-5), "name", "ASC"⟩
    ∧ listPlan gameSortFields 10 none (some "abc") none none
      = ⟨some 1, none, none, "name", "ASC"⟩
    ∧ (listGames sampleEnv { emptyGameQuery with limit := some "abc" } sampleStore).status
      = 500 := by
  decide

/-- C14 (amended): when the page and limit parameters are absent or are read by
parseInt as positive integers p and l (absent: 1, and 10 for games or 50 for
genres and platforms) whose product (p - 1) * l is at most 2^53, the three list
handlers query the store with limit l, which is at least 1, and the offset
(p - 1) * l, which is not negative. -/
theorem paging_positive_for_positive_parameters (env : ListEnv) (db : Store) (p l : Int)
    (hp : 1 ≤ p) (hl : 1 ≤ l) (hbound : (p - 1) * l ≤ maxExact) :
    0 ≤ (p - 1) * l
    ∧ (∀ q : GameQuery, parseParam q.page 1 = some p → parseParam q.limit 10 = some l →
        listGames env q db = gamesResponse env q db
          ⟨some p, some l, some ((p - 1) * l),
            sortColumn gameSortFields q.sortBy, sortDirection q.sortOrder⟩)
    ∧ (∀ q : GenreQuery, parseParam q.page 1 = some p → parseParam q.limit 50 = some l →
        listGenres env q db = genresResponse env q db
          ⟨some p, some l, some ((p - 1) * l),
            sortColumn genreSortFields q.sortBy, sortDirection q.sortOrder⟩)
    ∧ (∀ q : PlatformQuery, parseParam q.page 1 = some p → parseParam q.limit 50 = some l →
        listPlatforms env q db = platformsResponse env q db
          ⟨some p, some l, some ((p - 1) * l),
            sortColumn platformSortFields q.sortBy, sortDirection q.sortOrder⟩)
    ∧ parseParam none 1 = some 1 ∧ parseParam none 10 = some 10
    ∧ parseParam none 50 = some 50 := by
  obtain ⟨hx1, hx2⟩ := exact_of_positive hp hl hbound
  refine ⟨offset_nonneg hp hl, ?_, ?_, ?_, rfl, rfl, rfl⟩
  · intro q h1 h2
    unfold listGames
    rw [listPlan_parsed _ _ _ _ _ _ p l h1 h2 hx1 hx2]
  · intro q h1 h2
    unfold listGenres
    rw [listPlan_parsed _ _ _ _ _ _ p l h1 h2 hx1 hx2]
  · intro q h1 h2
    unfold listPlatforms
    rw [listPlan_parsed _ _ _ _ _ _ p l h1 h2 hx1 hx2]

/-- Witness of C14 (amended) on the sample store: page "3" with limit "20". -/
theorem paging_positive_for_positive_parameters_witness :
    (0 : Int) ≤ (3 - 1) * 20
    ∧ listGames sampleEnv { emptyGameQuery with page := some "3", limit := some "20" }
        sampleStore
      = gamesResponse sampleEnv { emptyGameQuery with page := some "3", limit := some "20" }
          sampleStore ⟨some 3, some 20, some ((3 - 1) * 20), "name", "ASC"⟩ :=
  have h := paging_positive_for_positive_parameters sampleEnv sampleStore 3 20
    (by decide) (by decide) (by decide)
  ⟨h.1, h.2.1 { emptyGameQuery with page := some "3", limit := some "20" }
    (by decide) (by decide)⟩

theorem ceilDiv_eq_ceil (c l : Int) (hl : l ≠ 0) :
    ceilDiv c l = ⌈(c : ℚ) / (l : ℚ)⌉ := by
  unfold ceilDiv
  by_cases hpos : 0 < l
  · rw [if_pos hpos]
    have h := Rat.floor_intCast_div_natCast (-c) l.toNat
    have hcast : ((l.toNat : ℕ) : ℤ) = l := Int.toNat_of_nonneg (le_of_lt hpos)
    have hcastq : ((l.toNat : ℕ) : ℚ) = (l : ℚ) := by
      rw [← Int.cast_natCast, hcast]
    rw [hcastq, hcast] at h
    rw [← h, ← Int.ceil_neg]
    congr 1
    push_cast
    ring
  · rw [if_neg hpos]
    have hneg : 0 < -l := by omega
    have h := Rat.floor_intCast_div_natCast c (-l).toNat
    have hcast : (((-l).toNat : ℕ) : ℤ) = -l := Int.toNat_of_nonneg (le_of_lt hneg)
    have hcastq : (((-l).toNat : ℕ) : ℚ) = -(l : ℚ) := by
      rw [← Int.cast_natCast, hcast, Int.cast_neg]
    rw [hcastq, hcast] at h
    rw [← h, ← Int.ceil_neg]
    congr 1
    rw [div_neg]
    ring

theorem le_ceilDiv_mul (c l : Int) (hl : 0 < l) : c ≤ ceilDiv c l * l := by
  unfold ceilDiv
  rw [if_pos hl]
  have h := Int.ediv_mul_le (-c) (ne_of_gt hl)
  have : -(-c / l) * l = -((-c / l) * l) := by ring
  rw [this]
  omega

/-! ## The predicate of the games list -/

theorem truthyParam_some (s : String) : truthyParam (some s) = !s.data.isEmpty := rfl

theorem search_conjunct (o : Option String) (g : Game) :
    (match (if truthyParam o then o.map containsPattern else none) with
      | none => true
      | some pattern => gameSearchHolds pattern g)
      = paramHolds o (fun s => gameSearchHolds (containsPattern s) g) := by
  cases o with
  | none => rfl
  | some s =>
    cases he : s.data.isEmpty <;> simp [truthyParam, paramHolds, he]

theorem key_conjunct (o : Option String) (k : Int) :
    keyHolds (if truthyParam o then o else none) k
      = paramHolds o (fun s => decide (parseKey s = some k)) := by
  cases o with
  | none => rfl
  | some s =>
    cases he : s.data.isEmpty <;> simp [truthyParam, paramHolds, keyHolds, he]

theorem rating_conjunct (ok : ℚ → ℚ → Bool) (o : Option String) (r : Option ℚ) :
    ratingHolds ok (if truthyParam o then o.map parseFloatStr else none) r
      = paramHolds o (fun s => ratingCompare ok s r) := by
  cases o with
  | none => rfl
  | some s =>
    cases he : s.data.isEmpty
    · simp only [truthyParam, he, Bool.not_false, if_true, Option.map_some', paramHolds,
        Bool.false_or, ratingCompare]
      cases parseFloatStr s <;> cases r <;> rfl
    · simp [truthyParam, paramHolds, ratingHolds, he]

theorem gameWhere_holds_eq (q : GameQuery) (g : Game) :
    (gameWhere q).holds g = gameSelected q g := by
  unfold GameWhere.holds gameWhere gameSelected
  simp only
  rw [search_conjunct, key_conjunct, key_conjunct, rating_conjunct, rating_conjunct]

theorem window_mem {α : Type} {limit offset : Option Int} {rows out : List α}
    (h : window limit offset rows = .ok out) : ∀ x ∈ out, x ∈ rows := by
  unfold window at h
  split at h
  · split at h
    · simp only [Except.ok.injEq] at h
      subst h
      intro x hx
      split at hx
      · exact List.mem_of_mem_drop hx
      · exact List.mem_of_mem_drop (List.mem_of_mem_take hx)
    · cases h
  · cases h

theorem beyond_last_page {n : Nat} {p l : Int} (hl : 1 ≤ l)
    (hp : ceilDiv (Int.ofNat n) l < p) : (n : Int) ≤ (p - 1) * l := by
  have h1 := le_ceilDiv_mul (Int.ofNat n) l (by omega)
  have h2 : ceilDiv (Int.ofNat n) l ≤ p - 1 := by omega
  have h3 : ceilDiv (Int.ofNat n) l * l ≤ (p - 1) * l :=
    Int.mul_le_mul_of_nonneg_right h2 (by omega)
  have h4 : (Int.ofNat n) = (n : Int) := rfl
  omega

/-! ## Totals and page counts -/

theorem window_some {α : Type} (l o : Int) (rows : List α) (hl : withinExact l)
    (ho : withinExact o) :
    window (some l) (some o) rows
      = .ok (if l < 0 then rows.drop o.toNat else (rows.drop o.toNat).take l.toNat) := by
  simp only [window, isInt64_of_exact l hl, isInt64_of_exact o ho, Bool.and_self, if_true]

theorem pageCount_number (n : Nat) (l : Int) (hl : 1 ≤ l) :
    pageCount (Count.number n).toNumber (some l) = some ⌈((n : ℤ) : ℚ) / (l : ℚ)⌉ := by
  have hne : l ≠ 0 := by omega
  simp only [Count.toNumber, pageCount, hne, if_false]
  rw [ceilDiv_eq_ceil _ _ hne]
  rfl

theorem games_page (env : ListEnv) (db : Store) (q : GameQuery) (p l : Int)
    (hp : parseParam q.page 1 = some p) (hl : parseParam q.limit 10 = some l)
    (hx1 : withinExact (p - 1)) (hxl : withinExact l) (hx2 : withinExact ((p - 1) * l))
    (hv : (gameWhere q).valid = true) :
    listGames env q db =
      ⟨200, none, none,
        if (db.games.filter (gameSelected q)).length = 0 then []
        else (if l < 0 then
            (env.games.sort (sortColumn gameSortFields q.sortBy) (sortDirection q.sortOrder)
              (db.games.filter (gameSelected q))).drop ((p - 1) * l).toNat
          else ((env.games.sort (sortColumn gameSortFields q.sortBy)
              (sortDirection q.sortOrder)
              (db.games.filter (gameSelected q))).drop ((p - 1) * l).toNat).take l.toNat).map
            fun g => ⟨g, Genre.findByPk db (some g.genreId),
              Platform.findByPk db (some g.platformId)⟩,
        some ⟨some p, some l, .number (db.games.filter (gameSelected q)).length,
          pageCount (Count.number (db.games.filter (gameSelected q)).length).toNumber (some l)⟩,
        some ⟨q.search, q.genreId, q.platformId, q.minRating, q.maxRating, none, none,
          sortColumn gameSortFields q.sortBy, sortDirection q.sortOrder⟩⟩ := by
  have hfun : (gameWhere q).holds = gameSelected q := funext (gameWhere_holds_eq q)
  unfold listGames
  rw [listPlan_parsed _ _ _ _ _ _ p l hp hl hx1 hx2]
  unfold gamesResponse Game.findAndCountAll
  simp only [hv, Bool.not_true, Bool.false_eq_true, if_false, window_some _ _ _ hxl hx2, hfun,
    paginationOf]

theorem genres_page (env : ListEnv) (db : Store) (q : GenreQuery) (p l : Int)
    (hp : parseParam q.page 1 = some p) (hl : parseParam q.limit 50 = some l)
    (hx1 : withinExact (p - 1)) (hxl : withinExact l) (hx2 : withinExact ((p - 1) * l))
    (hplain : q.includeGameCount ≠ some "true") :
    listGenres env q db =
      ⟨200, none, none,
        if (db.genres.filter (genreHolds (searchPattern q.search))).length = 0 then []
        else (if l < 0 then
            (env.genres.sort (sortColumn genreSortFields q.sortBy) (sortDirection q.sortOrder)
              (db.genres.filter (genreHolds (searchPattern q.search)))).drop ((p - 1) * l).toNat
          else ((env.genres.sort (sortColumn genreSortFields q.sortBy)
              (sortDirection q.sortOrder)
              (db.genres.filter (genreHolds (searchPattern q.search)))).drop
                ((p - 1) * l).toNat).take l.toNat).map
            fun g => ⟨g, none⟩,
        some ⟨some p, some l,
          .number (db.genres.filter (genreHolds (searchPattern q.search))).length,
          pageCount (Count.number
            (db.genres.filter (genreHolds (searchPattern q.search))).length).toNumber (some l)⟩,
        some ⟨q.search, none, none, none, none, none, q.includeGameCount,
          sortColumn genreSortFields q.sortBy, sortDirection q.sortOrder⟩⟩ := by
  unfold listGenres
  rw [listPlan_parsed _ _ _ _ _ _ p l hp hl hx1 hx2]
  unfold genresResponse Genre.findAndCountAll
  simp only [hplain, decide_False, Bool.false_eq_true, if_false, window_some _ _ _ hxl hx2,
    paginationOf]

theorem platforms_page (env : ListEnv) (db : Store) (q : PlatformQuery) (p l : Int)
    (hp : parseParam q.page 1 = some p) (hl : parseParam q.limit 50 = some l)
    (hx1 : withinExact (p - 1)) (hxl : withinExact l) (hx2 : withinExact ((p - 1) * l))
    (hplain : q.includeGameCount ≠ some "true") :
    listPlatforms env q db =
      ⟨200, none, none,
        if (db.platforms.filter
            (platformHolds (searchPattern q.search) (searchPattern q.manufacturer))).length = 0
        then []
        else (if l < 0 then
            (env.platforms.sort (sortColumn platformSortFields q.sortBy)
              (sortDirection q.sortOrder)
              (db.platforms.filter
                (platformHolds (searchPattern q.search) (searchPattern q.manufacturer)))).drop
                ((p - 1) * l).toNat
          else ((env.platforms.sort (sortColumn platformSortFields q.sortBy)
              (sortDirection q.sortOrder)
              (db.platforms.filter
                (platformHolds (searchPattern q.search) (searchPattern q.manufacturer)))).drop
                ((p - 1) * l).toNat).take l.toNat).map
            fun x => ⟨x, none⟩,
        some ⟨some p, some l,
          .number (db.platforms.filter
            (platformHolds (searchPattern q.search) (searchPattern q.manufacturer))).length,
          pageCount (Count.number (db.platforms.filter
            (platformHolds (searchPattern q.search)
              (searchPattern q.manufacturer))).length).toNumber (some l)⟩,
        some ⟨q.search, none, none, none, none, q.manufacturer, q.includeGameCount,
          sortColumn platformSortFields q.sortBy, sortDirection q.sortOrder⟩⟩ := by
  unfold listPlatforms
  rw [listPlan_parsed _ _ _ _ _ _ p l hp hl hx1 hx2]
  unfold platformsResponse Platform.findAndCountAll
  simp only [hplain, decide_False, Bool.false_eq_true, if_false, window_some _ _ _ hxl hx2,
    paginationOf]

theorem page_beyond_is_empty {α β : Type} (sorter : Sorter α) (column direction : String)
    (matching : List α) (view : α → β) (p l : Int) (hl : 1 ≤ l)
    (hbeyond : ⌈((matching.length : ℤ) : ℚ) / (l : ℚ)⌉ < p) :
    (if matching.length = 0 then []
      else (if l < 0 then (sorter.sort column direction matching).drop ((p - 1) * l).toNat
        else ((sorter.sort column direction matching).drop ((p - 1) * l).toNat).take
          l.toNat).map view) = [] := by
  have hne : l ≠ 0 := by omega
  rw [← ceilDiv_eq_ceil _ _ hne] at hbeyond
  have hle : (matching.length : Int) ≤ (p - 1) * l := beyond_last_page hl hbeyond
  have hlen : (sorter.sort column direction matching).length = matching.length :=
    (sorter.perm column direction matching).length_eq
  have hdrop : (sorter.sort column direction matching).drop ((p - 1) * l).toNat = [] := by
    apply List.drop_eq_nil_of_le
    omega
  rw [hdrop]
  split <;> simp

/-! ## Offset and limit of the list queries -/

theorem page_rows_closed {α β : Type} (sorter : Sorter α) (column direction : String)
    (matching : List α) (view : α → β) (o l : Int) (hl : 0 ≤ l) :
    (if matching.length = 0 then []
      else (if l < 0 then (sorter.sort column direction matching).drop o.toNat
        else ((sorter.sort column direction matching).drop o.toNat).take l.toNat).map view)
      = (((sorter.sort column direction matching).drop o.toNat).take l.toNat).map view := by
  have hnot : ¬ l < 0 := by omega
  rw [if_neg hnot]
  split
  · rename_i h0
    have hlen : (sorter.sort column direction matching).length = 0 := by
      rw [(sorter.perm column direction matching).length_eq, h0]
    have hnil : sorter.sort column direction matching = [] := List.length_eq_zero.mp hlen
    simp [hnil]
  · rfl

/-- C13: in the three list handlers the store is queried with the limit l and the
offset that the handler's expression (p - 1) * l yields (`offsetOf`), where p is
the parsed page parameter, or 1 when it is absent, and l the parsed limit
parameter, or the default when it is absent (10 for games, 50 for genres and
platforms). The expression is evaluated in the numbers of JavaScript: it is the
integer (p - 1) * l whenever p - 1 and (p - 1) * l have a magnitude of at most
2^53. With neither parameter the offset is 0 and the limit is 10 (games) or 50
(genres, platforms). Accordingly, for a limit from 0 to 2^53, the rows of the
answer are the matching rows, in the order of the store, without the first
(p - 1) * l and cut after l. -/
theorem list_offset_is_page_times_limit (env : ListEnv) (db : Store) :
    (∀ (s : String) (d : Int), parseParam (some s) d = parseIntStr s)
    ∧ (∀ d : Int, parseParam none d = some d)
    ∧ (∀ (q : GameQuery) (p l : Int),
        parseParam q.page 1 = some p → parseParam q.limit 10 = some l →
        listGames env q db = gamesResponse env q db
          ⟨some p, some l, offsetOf (some p) (some l),
            sortColumn gameSortFields q.sortBy, sortDirection q.sortOrder⟩)
    ∧ (∀ (q : GenreQuery) (p l : Int),
        parseParam q.page 1 = some p → parseParam q.limit 50 = some l →
        listGenres env q db = genresResponse env q db
          ⟨some p, some l, offsetOf (some p) (some l),
            sortColumn genreSortFields q.sortBy, sortDirection q.sortOrder⟩)
    ∧ (∀ (q : PlatformQuery) (p l : Int),
        parseParam q.page 1 = some p → parseParam q.limit 50 = some l →
        listPlatforms env q db = platformsResponse env q db
          ⟨some p, some l, offsetOf (some p) (some l),
            sortColumn platformSortFields q.sortBy, sortDirection q.sortOrder⟩)
    ∧ (∀ p l : Int, withinExact (p - 1) → withinExact ((p - 1) * l) →
        offsetOf (some p) (some l) = some ((p - 1) * l))
    ∧ (∀ q : GameQuery, q.page = none → q.limit = none →
        listGames env q db = gamesResponse env q db
          ⟨some 1, some 10, some 0,
            sortColumn gameSortFields q.sortBy, sortDirection q.sortOrder⟩)
    ∧ (∀ q : GenreQuery, q.page = none → q.limit = none →
        listGenres env q db = genresResponse env q db
          ⟨some 1, some 50, some 0,
            sortColumn genreSortFields q.sortBy, sortDirection q.sortOrder⟩)
    ∧ (∀ q : PlatformQuery, q.page = none → q.limit = none →
        listPlatforms env q db = platformsResponse env q db
          ⟨some 1, some 50, some 0,
            sortColumn platformSortFields q.sortBy, sortDirection q.sortOrder⟩)
    ∧ (∀ (q : GameQuery) (p l : Int),
        parseParam q.page 1 = some p → parseParam q.limit 10 = some l →
        withinExact (p - 1) → withinExact ((p - 1) * l) → 0 ≤ l → l ≤ maxExact →
        (gameWhere q).valid = true →
        (listGames env q db).rows
          = (((env.games.sort (sortColumn gameSortFields q.sortBy) (sortDirection q.sortOrder)
              (db.games.filter (gameSelected q))).drop ((p - 1) * l).toNat).take l.toNat).map
              fun g => ⟨g, Genre.findByPk db (some g.genreId),
                Platform.findByPk db (some g.platformId)⟩)
    ∧ (∀ (q : GenreQuery) (p l : Int),
        parseParam q.page 1 = some p → parseParam q.limit 50 = some l →
        withinExact (p - 1) → withinExact ((p - 1) * l) → 0 ≤ l → l ≤ maxExact →
        q.includeGameCount ≠ some "true" →
        (listGenres env q db).rows
          = (((env.genres.sort (sortColumn genreSortFields q.sortBy)
              (sortDirection q.sortOrder)
              (db.genres.filter (genreHolds (searchPattern q.search)))).drop
                ((p - 1) * l).toNat).take l.toNat).map fun g => ⟨g, none⟩)
    ∧ (∀ (q : PlatformQuery) (p l : Int),
        parseParam q.page 1 = some p → parseParam q.limit 50 = some l →
        withinExact (p - 1) → withinExact ((p - 1) * l) → 0 ≤ l → l ≤ maxExact →
        q.includeGameCount ≠ some "true" →
        (listPlatforms env q db).rows
          = (((env.platforms.sort (sortColumn platformSortFields q.sortBy)
              (sortDirection q.sortOrder)
              (db.platforms.filter
                (platformHolds (searchPattern q.search) (searchPattern q.manufacturer)))).drop
                ((p - 1) * l).toNat).take l.toNat).map fun x => ⟨x, none⟩) := by
  have hlim : ∀ l : Int, 0 ≤ l → l ≤ maxExact → withinExact l := by
    intro l h0 h1
    unfold withinExact maxExact at *
    omega
  refine ⟨fun _ _ => rfl, fun _ => rfl, ?_, ?_, ?_, offsetOf_exact, ?_, ?_, ?_, ?_, ?_, ?_⟩
  · intro q p l hp hl
    simp only [listGames, listPlan, hp, hl]
  · intro q p l hp hl
    simp only [listGenres, listPlan, hp, hl]
  · intro q p l hp hl
    simp only [listPlatforms, listPlan, hp, hl]
  · intro q hp hl
    simp only [listGames, listPlan, hp, hl, parseParam]
    rfl
  · intro q hp hl
    simp only [listGenres, listPlan, hp, hl, parseParam]
    rfl
  · intro q hp hl
    simp only [listPlatforms, listPlan, hp, hl, parseParam]
    rfl
  · intro q p l hp hl h1 h2 hl0 hl1 hv
    rw [games_page env db q p l hp hl h1 (hlim l hl0 hl1) h2 hv]
    exact page_rows_closed env.games _ _ _ _ _ l hl0
  · intro q p l hp hl h1 h2 hl0 hl1 hplain
    rw [genres_page env db q p l hp hl h1 (hlim l hl0 hl1) h2 hplain]
    exact page_rows_closed env.genres _ _ _ _ _ l hl0
  · intro q p l hp hl h1 h2 hl0 hl1 hplain
    rw [platforms_page env db q p l hp hl h1 (hlim l hl0 hl1) h2 hplain]
    exact page_rows_closed env.platforms _ _ _ _ _ l hl0

/-- Witness of C13 on the sample store: page "2" with limit "1" queries the games
with limit 1 and offset 1 and returns the second game. -/
theorem list_offset_is_page_times_limit_witness :
    listGames sampleEnv { emptyGameQuery with page := some "2", limit := some "1" } sampleStore
      = gamesResponse sampleEnv { emptyGameQuery with page := some "2", limit := some "1" }
          sampleStore ⟨some 2, some 1, offsetOf (some 2) (some 1), "name", "ASC"⟩
    ∧ offsetOf (some 2) (some 1) = some ((2 - 1) * 1)
    ∧ (listGames sampleEnv { emptyGameQuery with page := some "2", limit := some "1" }
        sampleStore).rows.map (fun v => v.game.name) = ["Quake"]
    ∧ listGenres sampleEnv emptyGenreQuery sampleStore
      = genresResponse sampleEnv emptyGenreQuery sampleStore
          ⟨some 1, some 50, some 0, "name", "ASC"⟩ :=
  have h := list_offset_is_page_times_limit sampleEnv sampleStore
  ⟨h.2.2.1 { emptyGameQuery with page := some "2", limit := some "1" } 2 1
      (by decide) (by decide),
    h.2.2.2.2.2.1 2 1 (by unfold withinExact maxExact; decide)
      (by unfold withinExact maxExact; decide),
    by decide,
    h.2.2.2.2.2.2.2.1 emptyGenreQuery rfl rfl⟩

/-- C15, as stated, fails. With the limit "-5" the genres list reports 0 pages and
still returns both genres on page 1, a page greater than `pages`; and the page
"1000000000000000000" of the games, greater than `pages`, is answered 500, not
200 with an empty list: the offset 10^19 is no 64-bit integer and the store
rejects the query. -/
theorem pagination_fails_outside_positive_exact_paging :
    (listGenres sampleEnv { emptyGenreQuery with limit := some "-5" } sampleStore).status = 200
    ∧ (listGenres sampleEnv { emptyGenreQuery with limit := some "-5" } sampleStore).pagination
        = some ⟨some 1, some (-5), .number 2, some 0⟩
    ∧ (listGenres sampleEnv { emptyGenreQuery with limit := some "-5" }
        sampleStore).rows.map (fun r => r.genre.name) = ["Action", "RPG"]
    ∧ listPlan gameSortFields 10 (some "1000000000000000000") none none none
        = ⟨some 1000000000000000000, some 10, some 10000000000000000000, "name", "ASC"⟩
    ∧ (listGames sampleEnv { emptyGameQuery with page := some "1000000000000000000" }
        sampleStore).status = 500 := by
  decide

/-- C15 (amended): for a page parameter that is absent or a positive integer p, a
limit parameter that is absent or a positive integer l of at most 2^53, with
(p - 1) * l at most 2^53, and (for games) rating bounds that are finite numbers,
a list handler answers 200; pagination.total is the number of rows that satisfy
the filter, whatever p and l are; pagination.pages is the ceiling of total / l;
and for every page p greater than pages the row list is empty. For genres and
platforms this is the list without the count of games. -/
theorem pagination_counts_matching_rows (env : ListEnv) (db : Store) (p l : Int)
    (hp : 1 ≤ p) (hl : 1 ≤ l) (hlimit : l ≤ maxExact) (hbound : (p - 1) * l ≤ maxExact) :
    (∀ q : GameQuery, parseParam q.page 1 = some p → parseParam q.limit 10 = some l →
      (gameWhere q).valid = true →
      (listGames env q db).status = 200
      ∧ (listGames env q db).pagination
        = some ⟨some p, some l, .number (db.games.countP (gameSelected q)),
            some ⌈((db.games.countP (gameSelected q) : ℤ) : ℚ) / (l : ℚ)⌉⟩
      ∧ (⌈((db.games.countP (gameSelected q) : ℤ) : ℚ) / (l : ℚ)⌉ < p →
          (listGames env q db).rows = []))
    ∧ (∀ q : GenreQuery, parseParam q.page 1 = some p → parseParam q.limit 50 = some l →
      q.includeGameCount ≠ some "true" →
      (listGenres env q db).status = 200
      ∧ (listGenres env q db).pagination
        = some ⟨some p, some l,
            .number (db.genres.countP (genreHolds (searchPattern q.search))),
            some ⌈((db.genres.countP (genreHolds (searchPattern q.search)) : ℤ) : ℚ)
              / (l : ℚ)⌉⟩
      ∧ (⌈((db.genres.countP (genreHolds (searchPattern q.search)) : ℤ) : ℚ) / (l : ℚ)⌉ < p →
          (listGenres env q db).rows = []))
    ∧ (∀ q : PlatformQuery, parseParam q.page 1 = some p → parseParam q.limit 50 = some l →
      q.includeGameCount ≠ some "true" →
      (listPlatforms env q db).status = 200
      ∧ (listPlatforms env q db).pagination
        = some ⟨some p, some l,
            .number (db.platforms.countP
              (platformHolds (searchPattern q.search) (searchPattern q.manufacturer))),
            some ⌈((db.platforms.countP
              (platformHolds (searchPattern q.search) (searchPattern q.manufacturer)) : ℤ) : ℚ)
              / (l : ℚ)⌉⟩
      ∧ (⌈((db.platforms.countP
            (platformHolds (searchPattern q.search) (searchPattern q.manufacturer)) : ℤ) : ℚ)
            / (l : ℚ)⌉ < p →
          (listPlatforms env q db).rows = [])) := by
  obtain ⟨hx1, hx2⟩ := exact_of_positive hp hl hbound
  have hxl : withinExact l := by
    unfold withinExact maxExact at *
    omega
  refine ⟨?_, ?_, ?_⟩
  · intro q h1 h2 hv
    rw [games_page env db q p l h1 h2 hx1 hxl hx2 hv]
    simp only [List.countP_eq_length_filter]
    refine ⟨trivial, ?_, ?_⟩
    · rw [pageCount_number _ _ hl]
    · intro hb
      exact page_beyond_is_empty env.games _ _ _ _ p l hl hb
  · intro q h1 h2 hplain
    rw [genres_page env db q p l h1 h2 hx1 hxl hx2 hplain]
    simp only [List.countP_eq_length_filter]
    refine ⟨trivial, ?_, ?_⟩
    · rw [pageCount_number _ _ hl]
    · intro hb
      exact page_beyond_is_empty env.genres _ _ _ _ p l hl hb
  · intro q h1 h2 hplain
    rw [platforms_page env db q p l h1 h2 hx1 hxl hx2 hplain]
    simp only [List.countP_eq_length_filter]
    refine ⟨trivial, ?_, ?_⟩
    · rw [pageCount_number _ _ hl]
    · intro hb
      exact page_beyond_is_empty env.platforms _ _ _ _ p l hl hb

/-- Witness of C15 (amended) on the sample store: page "3" of the games with limit
"1" answers 200 with total 2 and the ceiling of 2 / 1 as pages, and no row. -/
theorem pagination_counts_matching_rows_witness :
    (listGames sampleEnv { emptyGameQuery with page := some "3", limit := some "1" }
      sampleStore).status = 200
    ∧ (listGames sampleEnv { emptyGameQuery with page := some "3", limit := some "1" }
      sampleStore).pagination
        = some ⟨some 3, some 1, .number 2, some ⌈(((2 : ℕ) : ℤ) : ℚ) / ((1 : ℤ) : ℚ)⌉⟩
    ∧ (listGames sampleEnv { emptyGameQuery with page := some "3", limit := some "1" }
      sampleStore).rows = [] :=
  have h := (pagination_counts_matching_rows sampleEnv sampleStore 3 1 (by decide) (by decide)
    (by decide) (by decide)).1 { emptyGameQuery with page := some "3", limit := some "1" }
    (by decide) (by decide) (by decide)
  have hcount : sampleStore.games.countP
      (gameSelected { emptyGameQuery with page := some "3", limit := some "1" }) = 2 := by
    decide
  ⟨h.1, by rw [h.2.1, hcount], h.2.2 (by rw [hcount]; norm_num)⟩

/-! ## Ordering of the list handlers -/

theorem sortColumn_mem (fields : List String) (sortBy : Option String)
    (hname : "name" ∈ fields) : sortColumn fields sortBy ∈ fields := by
  unfold sortColumn
  split
  · rename_i h
    exact List.elem_iff.mp h
  · exact hname

theorem sortColumn_of_mem (fields : List String) (s : String) (h : s ∈ fields) :
    sortColumn fields (some s) = s := by
  unfold sortColumn
  simp [h]

theorem sortColumn_of_not_mem (fields : List String) (s : String) (h : s ∉ fields) :
    sortColumn fields (some s) = "name" := by
  unfold sortColumn
  simp [h]

theorem sortColumn_idem (fields : List String) (sortBy : Option String) :
    sortColumn fields (some (sortColumn fields sortBy)) = sortColumn fields sortBy := by
  by_cases h : sortColumn fields sortBy ∈ fields
  · exact sortColumn_of_mem fields _ h
  · rw [sortColumn_of_not_mem fields _ h]
    unfold sortColumn at h ⊢
    split
    · rename_i hc
      rw [if_pos hc] at h
      exact absurd (List.elem_iff.mp hc) h
    · rfl

theorem games_filters (env : ListEnv) (q : GameQuery) (db : Store) :
    (listGames env q db).filters =
      if (listGames env q db).status = 200 then
        some ⟨q.search, q.genreId, q.platformId, q.minRating, q.maxRating, none, none,
          sortColumn gameSortFields q.sortBy, sortDirection q.sortOrder⟩
      else none := by
  unfold listGames gamesResponse
  cases Game.findAndCountAll env db (gameWhere q)
      (listPlan gameSortFields 10 q.page q.limit q.sortBy q.sortOrder) with
  | error e => simp [ListResponse.failed]
  | ok res => simp [listPlan]

theorem genres_filters (env : ListEnv) (q : GenreQuery) (db : Store) :
    (listGenres env q db).filters =
      if (listGenres env q db).status = 200 then
        some ⟨q.search, none, none, none, none, none, q.includeGameCount,
          sortColumn genreSortFields q.sortBy, sortDirection q.sortOrder⟩
      else none := by
  unfold listGenres genresResponse
  cases Genre.findAndCountAll env db (searchPattern q.search)
      (decide (q.includeGameCount = some "true"))
      (listPlan genreSortFields 50 q.page q.limit q.sortBy q.sortOrder) with
  | error e => simp [ListResponse.failed]
  | ok res => simp [listPlan]

theorem platforms_filters (env : ListEnv) (q : PlatformQuery) (db : Store) :
    (listPlatforms env q db).filters =
      if (listPlatforms env q db).status = 200 then
        some ⟨q.search, none, none, none, none, q.manufacturer, q.includeGameCount,
          sortColumn platformSortFields q.sortBy, sortDirection q.sortOrder⟩
      else none := by
  unfold listPlatforms platformsResponse
  cases Platform.findAndCountAll env db (searchPattern q.search)
      (searchPattern q.manufacturer) (decide (q.includeGameCount = some "true"))
      (listPlan platformSortFields 50 q.page q.limit q.sortBy q.sortOrder) with
  | error e => simp [ListResponse.failed]
  | ok res => simp [listPlan]

/-- C16: for every sortBy, the column that a list handler sorts by belongs to the
whitelist of its entity; it is sortBy when sortBy is in the whitelist and "name"
otherwise (also when sortBy is absent); the answer is the one the handler gives
when it is sent this column as sortBy; and every 200 answer echoes this column
in filters.sortBy. -/
theorem sort_column_is_whitelisted (env : ListEnv) (db : Store) :
    gameSortFields = ["name", "rating", "releaseDate", "createdAt"]
    ∧ genreSortFields = ["name", "createdAt"]
    ∧ platformSortFields = ["name", "manufacturer", "releaseYear", "createdAt"]
    ∧ (∀ sortBy : Option String,
        sortColumn gameSortFields sortBy ∈ gameSortFields
        ∧ sortColumn genreSortFields sortBy ∈ genreSortFields
        ∧ sortColumn platformSortFields sortBy ∈ platformSortFields)
    ∧ (∀ (fields : List String) (s : String),
        (s ∈ fields → sortColumn fields (some s) = s)
        ∧ (s ∉ fields → sortColumn fields (some s) = "name")
        ∧ sortColumn fields none = "name")
    ∧ (∀ q : GameQuery,
        listGames env q db
          = listGames env { q with sortBy := some (sortColumn gameSortFields q.sortBy) } db
        ∧ ((listGames env q db).status = 200 →
            (listGames env q db).filters.map (fun f => f.sortBy)
              = some (sortColumn gameSortFields q.sortBy)))
    ∧ (∀ q : GenreQuery,
        listGenres env q db
          = listGenres env { q with sortBy := some (sortColumn genreSortFields q.sortBy) } db
        ∧ ((listGenres env q db).status = 200 →
            (listGenres env q db).filters.map (fun f => f.sortBy)
              = some (sortColumn genreSortFields q.sortBy)))
    ∧ (∀ q : PlatformQuery,
        listPlatforms env q db
          = listPlatforms env
              { q with sortBy := some (sortColumn platformSortFields q.sortBy) } db
        ∧ ((listPlatforms env q db).status = 200 →
            (listPlatforms env q db).filters.map (fun f => f.sortBy)
              = some (sortColumn platformSortFields q.sortBy))) := by
  refine ⟨rfl, rfl, rfl, ?_, ?_, ?_, ?_, ?_⟩
  · intro sortBy
    exact ⟨sortColumn_mem _ _ (by decide), sortColumn_mem _ _ (by decide),
      sortColumn_mem _ _ (by decide)⟩
  · intro fields s
    refine ⟨sortColumn_of_mem fields s, sortColumn_of_not_mem fields s, ?_⟩
    unfold sortColumn
    split <;> rfl
  · intro q
    constructor
    · simp only [listGames, gamesResponse, listPlan, gameWhere, sortColumn_idem]
    · intro hok
      rw [games_filters, if_pos hok]
      rfl
  · intro q
    constructor
    · simp only [listGenres, genresResponse, listPlan, sortColumn_idem]
    · intro hok
      rw [genres_filters, if_pos hok]
      rfl
  · intro q
    constructor
    · simp only [listPlatforms, platformsResponse, listPlan, sortColumn_idem]
    · intro hok
      rw [platforms_filters, if_pos hok]
      rfl

/-- Witness of C16 on the sample store: "rating" is kept for games, "password" is
replaced by "name", and the answer echoes "name". -/
theorem sort_column_is_whitelisted_witness :
    sortColumn gameSortFields (some "rating") = "rating"
    ∧ sortColumn gameSortFields (some "password") = "name"
    ∧ (listGames sampleEnv { emptyGameQuery with sortBy := some "password" }
        sampleStore).filters.map (fun f => f.sortBy)
        = some (sortColumn gameSortFields (some "password")) :=
  have h := sort_column_is_whitelisted sampleEnv sampleStore
  ⟨(h.2.2.2.2.1 gameSortFields "rating").1 (by decide),
    (h.2.2.2.2.1 gameSortFields "password").2.1 (by decide),
    (h.2.2.2.2.2.1 { emptyGameQuery with sortBy := some "password" }).2 (by decide)⟩

theorem sortDirection_cases (o : Option String) :
    sortDirection o = "ASC" ∨ sortDirection o = "DESC" := by
  unfold sortDirection
  split
  · exact Or.inr rfl
  · exact Or.inl rfl

theorem sortDirection_idem (o : Option String) :
    sortDirection (some (sortDirection o)) = sortDirection o := by
  rcases sortDirection_cases o with h | h <;> rw [h] <;> decide

/-- C17: the effective sort order of a sortOrder string s is "DESC" when s
upper-cased equals "DESC" and "ASC" otherwise (also when sortOrder is absent); it
is always one of "ASC" and "DESC"; normalising a normalised value returns it; the
answer of a list handler is the one it gives when it is sent the normalised
value; and every 200 answer echoes it in filters.sortOrder. -/
theorem sort_order_is_normalised (env : ListEnv) (db : Store) :
    (∀ s : String,
      sortDirection (some s) = if toUpperCase s = "DESC" then "DESC" else "ASC")
    ∧ sortDirection none = "ASC"
    ∧ sortDirection (some "desc") = "DESC" ∧ sortDirection (some "Desc") = "DESC"
    ∧ sortDirection (some "descending") = "ASC" ∧ sortDirection (some "") = "ASC"
    ∧ (∀ o : Option String, sortDirection o = "ASC" ∨ sortDirection o = "DESC")
    ∧ (∀ o : Option String, sortDirection (some (sortDirection o)) = sortDirection o)
    ∧ (∀ q : GameQuery,
        listGames env q db
          = listGames env { q with sortOrder := some (sortDirection q.sortOrder) } db
        ∧ (listGames env q db).filters.map (fun f => f.sortOrder)
          = if (listGames env q db).status = 200 then some (sortDirection q.sortOrder)
            else none)
    ∧ (∀ q : GenreQuery,
        listGenres env q db
          = listGenres env { q with sortOrder := some (sortDirection q.sortOrder) } db
        ∧ (listGenres env q db).filters.map (fun f => f.sortOrder)
          = if (listGenres env q db).status = 200 then some (sortDirection q.sortOrder)
            else none)
    ∧ (∀ q : PlatformQuery,
        listPlatforms env q db
          = listPlatforms env { q with sortOrder := some (sortDirection q.sortOrder) } db
        ∧ (listPlatforms env q db).filters.map (fun f => f.sortOrder)
          = if (listPlatforms env q db).status = 200 then some (sortDirection q.sortOrder)
            else none) := by
  refine ⟨fun _ => rfl, by decide, by decide, by decide, by decide, by decide,
    sortDirection_cases, sortDirection_idem, ?_, ?_, ?_⟩
  · intro q
    constructor
    · simp only [listGames, gamesResponse, listPlan, gameWhere, sortDirection_idem]
    · rw [games_filters]
      split <;> rfl
  · intro q
    constructor
    · simp only [listGenres, genresResponse, listPlan, sortDirection_idem]
    · rw [genres_filters]
      split <;> rfl
  · intro q
    constructor
    · simp only [listPlatforms, platformsResponse, listPlan, sortDirection_idem]
    · rw [platforms_filters]
      split <;> rfl

/-! ## The search predicate -/

theorem anySuffix_iff (f : List Char → Bool) (t : List Char) :
    anySuffix f t = true ↔ ∃ u, u <:+ t ∧ f u = true := by
  induction t with
  | nil =>
    simp only [anySuffix, List.suffix_nil]
    constructor
    · intro h
      exact ⟨[], rfl, h⟩
    · rintro ⟨u, rfl, h⟩
      exact h
  | cons c t ih =>
    simp only [anySuffix, Bool.or_eq_true, ih, List.suffix_cons_iff]
    constructor
    · rintro (h | ⟨u, hu, h⟩)
      · exact ⟨c :: t, Or.inl rfl, h⟩
      · exact ⟨u, Or.inr hu, h⟩
    · rintro ⟨u, hu | hu, h⟩
      · subst hu
        exact Or.inl h
      · exact Or.inr ⟨u, hu, h⟩

theorem likeChars_percent (t : List Char) : likeChars ['%'] t = true := by
  unfold likeChars
  simp only [if_true]
  rw [anySuffix_iff]
  exact ⟨[], List.nil_suffix, rfl⟩

theorem likeChars_literal (s : List Char) (h1 : '%' ∉ s) (h2 : '_' ∉ s) :
    ∀ t : List Char, likeChars (s ++ ['%']) t = true ↔ foldCase s <+: foldCase t := by
  induction s with
  | nil =>
    intro t
    simp only [List.nil_append, likeChars_percent, foldCase, List.map_nil, List.nil_prefix]
  | cons a s ih =>
    intro t
    have ha1 : a ≠ '%' := fun h => h1 (h ▸ List.mem_cons_self _ _)
    have ha2 : a ≠ '_' := fun h => h2 (h ▸ List.mem_cons_self _ _)
    have ih' := ih (fun h => h1 (List.mem_cons_of_mem _ h))
      (fun h => h2 (List.mem_cons_of_mem _ h))
    rw [List.cons_append]
    unfold likeChars
    rw [if_neg ha1]
    cases t with
    | nil => simp [foldCase]
    | cons c t =>
      simp only [ha2, decide_False, Bool.false_or, Bool.and_eq_true, decide_eq_true_eq,
        foldCase, List.map_cons, List.cons_prefix_cons]
      rw [ih' t]
      rfl

theorem suffix_map_iff {α β : Type} (f : α → β) (v : List β) (t : List α) :
    v <:+ t.map f ↔ ∃ u, u <:+ t ∧ v = u.map f := by
  constructor
  · rintro ⟨w, hw⟩
    obtain ⟨t1, t2, ht, _, h2⟩ := List.map_eq_append_iff.mp hw.symm
    exact ⟨t2, ⟨t1, ht.symm⟩, h2.symm⟩
  · rintro ⟨u, hu, rfl⟩
    exact hu.map f

theorem like_contains (s t : List Char) (h1 : '%' ∉ s) (h2 : '_' ∉ s) :
    likeChars ('%' :: (s ++ ['%'])) t = true ↔ foldCase s <:+: foldCase t := by
  unfold likeChars
  simp only [if_true]
  rw [anySuffix_iff, List.infix_iff_prefix_suffix]
  constructor
  · rintro ⟨u, hu, h⟩
    exact ⟨foldCase u, (likeChars_literal s h1 h2 u).mp h, hu.map _⟩
  · rintro ⟨v, hv, hsuf⟩
    obtain ⟨u, hu, rfl⟩ := (suffix_map_iff _ v t).mp hsuf
    exact ⟨u, hu, (likeChars_literal s h1 h2 u).mpr hv⟩

theorem like_containsPattern (column : Option String) (s : String)
    (h1 : '%' ∉ s.data) (h2 : '_' ∉ s.data) :
    like column (containsPattern s) = true ↔ containsIgnoringCase column s := by
  cases column with
  | none =>
    simp [like, containsIgnoringCase]
  | some text =>
    simp only [like, containsPattern, containsIgnoringCase, Option.some.injEq,
      exists_eq_left']
    exact like_contains s.data text.data h1 h2

/-- C18 (counterexample): the search text "_" selects the genre "RPG", no column of
which contains an underscore, and on the sample store the searches "_" and "%"
return every genre and every game. -/
theorem search_wildcards_select_rows_without_the_text :
    genreHolds (searchPattern (some "_")) ⟨2, "RPG", none⟩ = true
    ∧ ¬ containsIgnoringCase (some "RPG") "_"
    ∧ ¬ containsIgnoringCase none "_"
    ∧ (listGenres sampleEnv { emptyGenreQuery with search := some "_" }
        sampleStore).rows.map (fun r => r.genre.name) = ["Action", "RPG"]
    ∧ (listGames sampleEnv { emptyGameQuery with search := some "%" }
        sampleStore).rows.map (fun v => v.game.name) = ["Doom", "Quake"]
    ∧ ¬ containsIgnoringCase (some "Quake") "%" := by
  refine ⟨by decide, ?_, ?_, by decide, by decide, ?_⟩
  · rintro ⟨text, h, hinf⟩
    cases h
    revert hinf
    decide
  · rintro ⟨text, h, _⟩
    cases h
  · rintro ⟨text, h, hinf⟩
    cases h
    revert hinf
    decide

/-- C18 (amended): for every non-empty search text s that contains neither % nor
_, the rows selected by the search predicate of a list handler are exactly the
rows in which at least one search column of the entity (Game: name, description,
developer, publisher; Genre: name, description; Platform: name, manufacturer)
contains s as a literal substring, ignoring the case of ASCII letters. -/
theorem search_selects_rows_containing_text (s : String) (hne : s.data.isEmpty = false)
    (h1 : '%' ∉ s.data) (h2 : '_' ∉ s.data) :
    (∀ g : Game, (gameWhere { emptyGameQuery with search := some s }).holds g = true ↔
      (containsIgnoringCase (some g.name) s ∨ containsIgnoringCase g.description s
        ∨ containsIgnoringCase g.developer s ∨ containsIgnoringCase g.publisher s))
    ∧ (∀ g : Genre, genreHolds (searchPattern (some s)) g = true ↔
      (containsIgnoringCase (some g.name) s ∨ containsIgnoringCase g.description s))
    ∧ (∀ p : Platform, platformHolds (searchPattern (some s)) none p = true ↔
      (containsIgnoringCase (some p.name) s ∨ containsIgnoringCase p.manufacturer s)) := by
  have hpat : searchPattern (some s) = some (containsPattern s) := by
    simp [searchPattern, truthyParam, hne]
  refine ⟨?_, ?_, ?_⟩
  · intro g
    rw [gameWhere_holds_eq]
    simp only [gameSelected, emptyGameQuery, paramHolds, hne, Bool.false_or, Bool.and_true,
      gameSearchHolds, Bool.or_eq_true, like_containsPattern _ s h1 h2]
    tauto
  · intro g
    simp only [hpat, genreHolds, Bool.or_eq_true, like_containsPattern _ s h1 h2]
  · intro p
    simp only [hpat, platformHolds, Bool.and_true, Bool.or_eq_true,
      like_containsPattern _ s h1 h2]

/-- Witness of C18 (amended): the search text "oo" selects the game "Doom". -/
theorem search_selects_rows_containing_text_witness :
    (gameWhere { emptyGameQuery with search := some "oo" }).holds doomGame = true
    ∧ (containsIgnoringCase (some doomGame.name) "oo"
      ∨ containsIgnoringCase doomGame.description "oo"
      ∨ containsIgnoringCase doomGame.developer "oo"
      ∨ containsIgnoringCase doomGame.publisher "oo") :=
  have h := (search_selects_rows_containing_text "oo" (by decide) (by decide) (by decide)).1
    doomGame
  ⟨by decide, h.mp (by decide)⟩

/-! ## Filters of the games list -/

theorem games_rows_selected (env : ListEnv) (q : GameQuery) (db : Store)
    (hok : (listGames env q db).status = 200) :
    (∀ v ∈ (listGames env q db).rows, v.game ∈ db.games ∧ gameSelected q v.game = true)
    ∧ (listGames env q db).pagination.map (fun p => p.total)
      = some (.number (db.games.countP (gameSelected q))) := by
  have hfun : (gameWhere q).holds = gameSelected q := funext (gameWhere_holds_eq q)
  unfold listGames gamesResponse Game.findAndCountAll at hok ⊢
  by_cases hv : (gameWhere q).valid = true
  · simp only [hv, Bool.not_true, Bool.false_eq_true, if_false, hfun] at hok ⊢
    cases hw : window (listPlan gameSortFields 10 q.page q.limit q.sortBy q.sortOrder).limit
        (listPlan gameSortFields 10 q.page q.limit q.sortBy q.sortOrder).offset
        (env.games.sort (listPlan gameSortFields 10 q.page q.limit q.sortBy q.sortOrder).column
          (listPlan gameSortFields 10 q.page q.limit q.sortBy q.sortOrder).direction
          (db.games.filter (gameSelected q))) with
    | error e =>
      rw [hw] at hok
      simp [ListResponse.failed] at hok
    | ok out =>
      simp only
      refine ⟨?_, ?_⟩
      · intro v hv'
        split at hv'
        · cases hv'
        · obtain ⟨g, hg, rfl⟩ := List.mem_map.mp hv'
          have h1 := window_mem hw g hg
          have h2 := (env.games.perm _ _ _).mem_iff.mp h1
          simp only [List.mem_filter] at h2
          exact h2
      · simp [paginationOf, List.countP_eq_length_filter]
  · have hv' : (gameWhere q).valid = false := by
      cases h : (gameWhere q).valid
      · rfl
      · exact absurd h hv
    simp [hv', ListResponse.failed] at hok

theorem paramHolds_some {s : String} {test : String → Bool} (hs : s.data.isEmpty = false)
    (h : paramHolds (some s) test = true) : test s = true := by
  simpa [paramHolds, hs] using h

theorem ratingCompare_true {ok : ℚ → ℚ → Bool} {s : String} {rating : Option ℚ}
    (h : ratingCompare ok s rating = true) :
    ∃ b r, parseFloatStr s = some b ∧ rating = some r ∧ ok r b = true := by
  unfold ratingCompare at h
  cases hb : parseFloatStr s with
  | none => simp [hb] at h
  | some b =>
    cases hr : rating with
    | none => simp [hb, hr] at h
    | some r =>
      simp only [hb, hr] at h
      exact ⟨b, r, rfl, rfl, h⟩

/-- C19: in the Games list the predicate built from search, genreId, platformId,
minRating and maxRating is the conjunction of the search predicate with one
conjunct per parameter that is present (not empty). Every game of a 200 answer is
a stored game that satisfies genreId = the given genreId, platformId = the given
platformId (the key that the store reads off the text), rating >= minRating and
rating <= maxRating (the number that the handler parses from the text) for each of
these parameters that is present, and the search predicate when search is
present; total counts the games that satisfy the conjunction; an absent or empty
parameter imposes no constraint. -/
theorem games_filters_are_conjoined (env : ListEnv) (q : GameQuery) (db : Store) :
    (∀ g : Game, (gameWhere q).holds g = gameSelected q g)
    ∧ (∀ test : String → Bool, paramHolds none test = true ∧ paramHolds (some "") test = true)
    ∧ (∀ g : Game, gameSelected emptyGameQuery g = true)
    ∧ ((listGames env q db).status = 200 →
        (listGames env q db).pagination.map (fun p => p.total)
          = some (.number (db.games.countP (gameSelected q)))
        ∧ ∀ v ∈ (listGames env q db).rows,
            v.game ∈ db.games
            ∧ (∀ s, q.search = some s → s.data.isEmpty = false →
                gameSearchHolds (containsPattern s) v.game = true)
            ∧ (∀ s, q.genreId = some s → s.data.isEmpty = false →
                parseKey s = some v.game.genreId)
            ∧ (∀ s, q.platformId = some s → s.data.isEmpty = false →
                parseKey s = some v.game.platformId)
            ∧ (∀ s, q.minRating = some s → s.data.isEmpty = false →
                ∃ b r, parseFloatStr s = some b ∧ v.game.rating = some r ∧ b ≤ r)
            ∧ (∀ s, q.maxRating = some s → s.data.isEmpty = false →
                ∃ b r, parseFloatStr s = some b ∧ v.game.rating = some r ∧ r ≤ b)) := by
  refine ⟨gameWhere_holds_eq q, fun _ => ⟨rfl, rfl⟩, fun _ => rfl, ?_⟩
  intro hok
  obtain ⟨hrows, htotal⟩ := games_rows_selected env q db hok
  refine ⟨htotal, ?_⟩
  intro v hv
  obtain ⟨hmem, hsel⟩ := hrows v hv
  simp only [gameSelected, Bool.and_eq_true] at hsel
  obtain ⟨⟨⟨⟨c1, c2⟩, c3⟩, c4⟩, c5⟩ := hsel
  refine ⟨hmem, ?_, ?_, ?_, ?_, ?_⟩
  · intro s hs hne
    rw [hs] at c1
    exact paramHolds_some hne c1
  · intro s hs hne
    rw [hs] at c2
    simpa using paramHolds_some hne c2
  · intro s hs hne
    rw [hs] at c3
    simpa using paramHolds_some hne c3
  · intro s hs hne
    rw [hs] at c4
    obtain ⟨b, r, hb, hr, hcmp⟩ := ratingCompare_true (paramHolds_some hne c4)
    exact ⟨b, r, hb, hr, by simpa using hcmp⟩
  · intro s hs hne
    rw [hs] at c5
    obtain ⟨b, r, hb, hr, hcmp⟩ := ratingCompare_true (paramHolds_some hne c5)
    exact ⟨b, r, hb, hr, by simpa using hcmp⟩

/-- Witness of C19 on the sample store: the query genreId=1, minRating=5 answers
200 with total 1 and returns the game "Doom" (rating 8) alone. -/
theorem games_filters_are_conjoined_witness :
    (listGames sampleEnv { emptyGameQuery with genreId := some "1", minRating := some "5" }
      sampleStore).pagination.map (fun p => p.total)
      = some (.number (sampleStore.games.countP
          (gameSelected { emptyGameQuery with genreId := some "1", minRating := some "5" })))
    ∧ (listGames sampleEnv { emptyGameQuery with genreId := some "1", minRating := some "5" }
      sampleStore).rows.map (fun v => v.game.name) = ["Doom"] :=
  have hparse : parseFloatStr "5" = some 5 := by
    have h : readDecimal "5" = some ⟨false, 5, 0, 0, 0⟩ := by decide
    simp [parseFloatStr, h, Decimal.value, roundRat]
  have hw : gameWhere { emptyGameQuery with genreId := some "1", minRating := some "5" }
      = ⟨none, some "1", none, some (some 5), none⟩ := by
    simp [gameWhere, emptyGameQuery, truthyParam, hparse]
  have hstatus : (listGames sampleEnv
      { emptyGameQuery with genreId := some "1", minRating := some "5" }
      sampleStore).status = 200 := by
    unfold listGames gamesResponse
    rw [hw]
    decide
  have h := (games_filters_are_conjoined sampleEnv
    { emptyGameQuery with genreId := some "1", minRating := some "5" } sampleStore).2.2.2
    hstatus
  ⟨h.1, by
    unfold listGames gamesResponse
    rw [hw]
    decide⟩

/-! ## Pagination with the count of games -/

/-- C20 (behaviour at the failing input): on the sample store GET /api/genres
answers total 2 and pages 1, while GET /api/genres?includeGameCount=true answers
as total the list of the two groups and no number of pages; the same holds for
GET /api/platforms. -/
theorem game_count_changes_pagination :
    (listGenres sampleEnv emptyGenreQuery sampleStore).pagination
      = some ⟨some 1, some 50, .number 2, some 1⟩
    ∧ (listGenres sampleEnv { emptyGenreQuery with includeGameCount := some "true" }
        sampleStore).status = 200
    ∧ (listGenres sampleEnv { emptyGenreQuery with includeGameCount := some "true" }
        sampleStore).pagination
      = some ⟨some 1, some 50, .groups [(1, 1), (2, 1)], none⟩
    ∧ (listGenres sampleEnv { emptyGenreQuery with includeGameCount := some "true" }
        sampleStore).rows.map (fun r => (r.genre.name, r.gameCount))
      = [("Action", some 2), ("RPG", some 0)]
    ∧ (listPlatforms sampleEnv emptyPlatformQuery sampleStore).pagination
      = some ⟨some 1, some 50, .number 2, some 1⟩
    ∧ (listPlatforms sampleEnv { emptyPlatformQuery with includeGameCount := some "true" }
        sampleStore).pagination
      = some ⟨some 1, some 50, .groups [(1, 1), (2, 1)], none⟩ := by
  decide


/-! ## Registration -/

theorem requireGuest_guest {σ : Type} (session : Session) (next : σ → AuthResponse × σ)
    (state : σ) (h : session.user = none) :
    AuthRoutes.requireGuest session next state = next state := by
  simp [AuthRoutes.requireGuest, h]

/-- C21: a guest registration in which username, email or password is missing or
empty, or the password differs from `confirmPassword`, or the password has fewer
than 6 characters, is answered 400 with error "Validation error", and the users
table is left as it was. -/
theorem register_rejects_invalid_fields (env : AuthEnv) (session : Session)
    (body : RegisterFields) (table : UserTable) (hguest : session.user = none)
    (h : registerFieldsRejected body = true) :
    (AuthRoutes.register env session body table).1.status = 400
      ∧ (AuthRoutes.register env session body table).1.error = some "Validation error"
      ∧ (AuthRoutes.register env session body table).2 = table := by
  unfold AuthRoutes.register
  rw [requireGuest_guest _ _ _ hguest]
  split
  · rename_i username email password hu he hp
    by_cases h1 : (!truthyStr body.username || !truthyStr body.email
        || !truthyStr body.password) = true
    · rw [if_pos h1]; exact ⟨rfl, rfl, rfl⟩
    · rw [if_neg h1]
      by_cases h2 : body.password ≠ body.confirmPassword
      · rw [if_pos h2]; exact ⟨rfl, rfl, rfl⟩
      · rw [if_neg h2]
        by_cases h3 : jsLength password < 6
        · rw [if_pos h3]; exact ⟨rfl, rfl, rfl⟩
        · exfalso
          rw [hp] at h1 h2
          simp only [Bool.or_eq_true] at h1
          simp only [registerFieldsRejected, hp, Bool.or_eq_true, decide_eq_true_eq] at h
          rcases h with (h | h) | h
          · exact h1 h
          · exact h2 h
          · exact h3 h
  · exact ⟨rfl, rfl, rfl⟩

theorem register_rejects_invalid_fields_witness :
    (AuthRoutes.register sampleAuthEnv guestSession
        ⟨.val "bob", .val "bob@games.com", .val "12345", .val "12345"⟩ sampleUsers).1.status = 400
      ∧ (AuthRoutes.register sampleAuthEnv guestSession
        ⟨.val "bob", .val "bob@games.com", .val "12345", .val "12345"⟩ sampleUsers).1.error
          = some "Validation error"
      ∧ (AuthRoutes.register sampleAuthEnv guestSession
        ⟨.val "bob", .val "bob@games.com", .val "12345", .val "12345"⟩ sampleUsers).2
          = sampleUsers :=
  register_rejects_invalid_fields sampleAuthEnv guestSession
    ⟨.val "bob", .val "bob@games.com", .val "12345", .val "12345"⟩ sampleUsers rfl (by decide)

theorem register_fields_accepted {body : RegisterFields}
    (h : registerFieldsRejected body = false) :
    ∃ username email password, body.username = .val username ∧ body.email = .val email
      ∧ body.password = .val password
      ∧ (!truthyStr body.username || !truthyStr body.email || !truthyStr body.password) = false
      ∧ body.password = body.confirmPassword ∧ ¬ jsLength password < 6 := by
  obtain ⟨u, e, p, c⟩ := body
  simp only [registerFieldsRejected, Bool.or_eq_false_iff, decide_eq_false_iff_not,
    not_not] at h
  obtain ⟨⟨⟨⟨h1, h2⟩, h3⟩, h4⟩, h5⟩ := h
  cases u <;> cases e <;> cases p <;> simp [truthyStr] at h1 h2 h3
  rename_i u e p
  refine ⟨u, e, p, rfl, rfl, rfl, ?_, h4, ?_⟩
  · simp [truthyStr, h1, h2, h3]
  · simpa using h5

/-- C22: a guest registration that passes the field checks and whose username
equals a stored username, or whose email equals a stored email, is answered 409
and the users table is left as it was. -/
theorem register_rejects_taken_credentials (env : AuthEnv) (session : Session)
    (body : RegisterFields) (table : UserTable) (hguest : session.user = none)
    (hfields : registerFieldsRejected body = false) (htaken : credentialsTaken table body) :
    (AuthRoutes.register env session body table).1.status = 409
      ∧ (AuthRoutes.register env session body table).2 = table := by
  obtain ⟨username, email, password, hu, he, hp, h1, h2, h3⟩ := register_fields_accepted hfields
  have hfound : (User.findOneByUsernameOrEmail table username email).isSome = true := by
    obtain ⟨u, hmem, hor⟩ := htaken
    simp only [User.findOneByUsernameOrEmail, List.find?_isSome]
    refine ⟨u, hmem, ?_⟩
    rw [hu, he] at hor
    simp only [Field.val.injEq] at hor
    rcases hor with h | h
    · simp [h]
    · simp [h]
  unfold AuthRoutes.register
  rw [requireGuest_guest _ _ _ hguest]
  simp only [hu, he, hp]
  rw [hu, he, hp] at h1
  rw [hp] at h2
  rw [if_neg (by simp [h1]), if_neg (by simp [h2]), if_neg h3, if_pos hfound]
  exact ⟨rfl, rfl⟩

theorem register_rejects_taken_credentials_witness :
    (AuthRoutes.register sampleAuthEnv guestSession
        ⟨.val "bob", .val "admin@games.com", .val "secret1", .val "secret1"⟩ sampleUsers).1.status
        = 409
      ∧ (AuthRoutes.register sampleAuthEnv guestSession
        ⟨.val "bob", .val "admin@games.com", .val "secret1", .val "secret1"⟩ sampleUsers).2
        = sampleUsers :=
  register_rejects_taken_credentials sampleAuthEnv guestSession
    ⟨.val "bob", .val "admin@games.com", .val "secret1", .val "secret1"⟩ sampleUsers rfl
    (by decide) ⟨adminUser, by simp [sampleUsers], Or.inr rfl⟩

/-! ## What the auth routes show of a user -/

theorem userKeys_fail (status : Nat) (error message : String) :
    (AuthResponse.fail status error message).userKeys = [] := rfl

theorem register_userKeys (env : AuthEnv) (session : Session) (body : RegisterFields)
    (table : UserTable) :
    ∀ k ∈ (AuthRoutes.register env session body table).1.userKeys,
      k ∈ ["id", "username", "email", "createdAt"] := by
  unfold AuthRoutes.register AuthRoutes.requireGuest
  beta_reduce
  intro k
  split
  · simp [userKeys_fail]
  · split
    · split
      · simp [userKeys_fail]
      · split
        · simp [userKeys_fail]
        · split
          · simp [userKeys_fail]
          · split
            · simp [userKeys_fail]
            · split
              · simp [AuthResponse.userKeys, JsonObject.keys]
              · rename_i e _
                cases e <;> simp [AuthRoutes.registerCatch, userKeys_fail]
    · simp [userKeys_fail]

theorem login_userKeys (env : AuthEnv) (body : LoginFields) (table : UserTable)
    (session : Session) :
    ∀ k ∈ (AuthRoutes.login env body table session).1.userKeys,
      k ∈ ["id", "username", "email"] := by
  unfold AuthRoutes.login AuthRoutes.requireGuest
  beta_reduce
  intro k
  split
  · simp [userKeys_fail]
  · split
    · split
      · simp [userKeys_fail]
      · split
        · simp [userKeys_fail]
        · split
          · simp [userKeys_fail]
          · simp [AuthResponse.userKeys, JsonObject.keys, SessionUser.toObject]
    · simp [userKeys_fail]

theorem me_userKeys (session : Session) (table : UserTable) :
    ∀ k ∈ (AuthRoutes.me session table).userKeys,
      k ∈ ["id", "username", "email", "createdAt", "updatedAt"] := by
  unfold AuthRoutes.me AuthRoutes.requireAuth
  beta_reduce
  intro k
  split
  · simp [userKeys_fail]
  · split
    · simp [userKeys_fail]
    · split
      · simp [userKeys_fail]
      · simp [AuthResponse.userKeys, JsonObject.keys]

theorem session_userKeys (session : Session) :
    ∀ k ∈ session.userKeys, k ∈ ["id", "username", "email"] := by
  intro k
  unfold Session.userKeys
  split
  · simp [JsonObject.keys, SessionUser.toObject]
  · simp

theorem status_userKeys (session : Session) :
    (AuthRoutes.status session).userKeys = session.userKeys := by
  unfold AuthRoutes.status AuthResponse.userKeys Session.userKeys
  cases session.user <;> rfl

/-- C23: the user object in the body of `register`, `login`, `me` and `status`,
and the record that the session keeps after `login` or `logout`, have only keys
among id, username, email, createdAt, updatedAt, for every input, users table
and session; `password` is not one of them. -/
theorem auth_user_objects_omit_password (env : AuthEnv) (session : Session)
    (registration : RegisterFields) (credentials : LoginFields) (table : UserTable) :
    (∀ k ∈ (AuthRoutes.register env session registration table).1.userKeys,
        k ∈ publicUserKeys)
      ∧ (∀ k ∈ (AuthRoutes.login env credentials table session).1.userKeys,
        k ∈ publicUserKeys)
      ∧ (∀ k ∈ (AuthRoutes.login env credentials table session).2.userKeys,
        k ∈ publicUserKeys)
      ∧ (∀ k ∈ (AuthRoutes.logout env session).1.userKeys ++ (AuthRoutes.logout env session).2.userKeys,
        k ∈ publicUserKeys)
      ∧ (∀ k ∈ (AuthRoutes.me session table).userKeys, k ∈ publicUserKeys)
      ∧ (∀ k ∈ (AuthRoutes.status session).userKeys, k ∈ publicUserKeys)
      ∧ "password" ∉ publicUserKeys := by
  have sub3 : ∀ k, k ∈ ["id", "username", "email"] → k ∈ publicUserKeys := by
    intro k hk
    simp only [List.mem_cons, List.mem_singleton, List.not_mem_nil, or_false] at hk
    rcases hk with h | h | h <;> subst h <;> decide
  have sub4 : ∀ k, k ∈ ["id", "username", "email", "createdAt"] → k ∈ publicUserKeys := by
    intro k hk
    simp only [List.mem_cons, List.mem_singleton, List.not_mem_nil, or_false] at hk
    rcases hk with h | h | h | h <;> subst h <;> decide
  refine ⟨fun k hk => sub4 k (register_userKeys env session registration table k hk),
    fun k hk => sub3 k (login_userKeys env credentials table session k hk),
    fun k hk => sub3 k (session_userKeys _ k hk), ?_,
    me_userKeys session table, ?_, by decide⟩
  · intro k hk
    rw [List.mem_append] at hk
    rcases hk with hk | hk
    · exfalso
      revert hk
      unfold AuthRoutes.logout AuthRoutes.requireAuth
      beta_reduce
      split
      · simp [userKeys_fail]
      · split
        · simp [userKeys_fail]
        · simp [AuthResponse.userKeys]
    · exact sub3 k (session_userKeys _ k hk)
  · intro k hk
    rw [status_userKeys] at hk
    exact sub3 k (session_userKeys _ k hk)

/-! ## Login -/

theorem login_guest (env : AuthEnv) (username password : String) (table : UserTable)
    (session : Session) (hguest : session.user = none) (hu : username.data.isEmpty = false)
    (hp : password.data.isEmpty = false) :
    AuthRoutes.login env ⟨.val username, .val password⟩ table session
      = match User.findByLogin table username with
        | none =>
          (AuthResponse.fail 401 "Authentication failed" "Invalid username or password",
            session)
        | some user =>
          if !User.validatePassword env user password then
            (AuthResponse.fail 401 "Authentication failed" "Invalid username or password",
              session)
          else
            (⟨200, none, some "Login successful",
              .val (SessionUser.toObject ⟨user.id, user.username, user.email⟩), none⟩,
              ⟨some ⟨user.id, user.username, user.email⟩⟩) := by
  unfold AuthRoutes.login
  rw [requireGuest_guest _ _ _ hguest]
  simp [truthyStr, hu, hp]

/-- C24: of two guest logins with a non-empty username and password, one failing
because no stored user has the login as username or email and one failing because
the password does not verify against the hash of the user found, both are answered
with the same status 401 and the same body, and both leave the session as it
was. -/
theorem login_failures_are_indistinguishable (env : AuthEnv) (table table' : UserTable)
    (session session' : Session) (login password login' password' : String) (user : User)
    (hguest : session.user = none) (hguest' : session'.user = none)
    (hl : login.data.isEmpty = false) (hp : password.data.isEmpty = false)
    (hl' : login'.data.isEmpty = false) (hp' : password'.data.isEmpty = false)
    (hnone : ∀ u ∈ table.users, u.username ≠ login ∧ u.email ≠ login)
    (hfound : User.findByLogin table' login' = some user)
    (hwrong : User.validatePassword env user password' = false) :
    (AuthRoutes.login env ⟨.val login, .val password⟩ table session).1
        = (AuthRoutes.login env ⟨.val login', .val password'⟩ table' session').1
      ∧ (AuthRoutes.login env ⟨.val login, .val password⟩ table session).1.status = 401
      ∧ (AuthRoutes.login env ⟨.val login, .val password⟩ table session).2 = session
      ∧ (AuthRoutes.login env ⟨.val login', .val password'⟩ table' session').2 = session' := by
  have hmiss : User.findByLogin table login = none := by
    simp only [User.findByLogin, User.findOneByUsernameOrEmail, List.find?_eq_none]
    intro u hu
    have := hnone u hu
    simp [this.1, this.2]
  rw [login_guest env login password table session hguest hl hp,
    login_guest env login' password' table' session' hguest' hl' hp', hmiss, hfound]
  simp [hwrong, AuthResponse.fail]

theorem login_failures_are_indistinguishable_witness :
    (AuthRoutes.login sampleAuthEnv ⟨.val "nobody", .val "admin123"⟩ sampleUsers guestSession).1
        = (AuthRoutes.login sampleAuthEnv ⟨.val "admin", .val "admin124"⟩ sampleUsers
            guestSession).1
      ∧ (AuthRoutes.login sampleAuthEnv ⟨.val "nobody", .val "admin123"⟩ sampleUsers
            guestSession).1.status = 401
      ∧ (AuthRoutes.login sampleAuthEnv ⟨.val "nobody", .val "admin123"⟩ sampleUsers
            guestSession).2 = guestSession
      ∧ (AuthRoutes.login sampleAuthEnv ⟨.val "admin", .val "admin124"⟩ sampleUsers
            guestSession).2 = guestSession :=
  login_failures_are_indistinguishable sampleAuthEnv sampleUsers sampleUsers guestSession
    guestSession "nobody" "admin123" "admin" "admin124" adminUser rfl rfl (by decide)
    (by decide) (by decide) (by decide) (by decide) (by decide) (by decide)

/-- C25 (behaviour at the failing input): `register` compares username with
username and e-mail with e-mail, while `login` checks the password against the one
row that the lookup by username-or-email returns. After two accepted
registrations, the first with username "bob@games.com" and the second with that
text as e-mail address, the second user is stored, the login string equals their
e-mail address and the password verifies against their hash, yet the login is
answered 401 and no session is established. -/
theorem login_by_email_shadowed_by_username :
    (AuthRoutes.register sampleAuthEnv guestSession aliceFields sampleUsers).1.status = 201
      ∧ (AuthRoutes.register sampleAuthEnv guestSession bobFields
          (AuthRoutes.register sampleAuthEnv guestSession aliceFields sampleUsers).2).1.status
          = 201
      ∧ bobUser ∈ twoUsers.users
      ∧ bobUser.email = "bob@games.com"
      ∧ User.validatePassword sampleAuthEnv bobUser "bobpass" = true
      ∧ (AuthRoutes.login sampleAuthEnv ⟨.val "bob@games.com", .val "bobpass"⟩ twoUsers
          guestSession).1.status = 401
      ∧ (AuthRoutes.login sampleAuthEnv ⟨.val "bob@games.com", .val "bobpass"⟩ twoUsers
          guestSession).2 = guestSession := by
  decide

theorem findByLogin_unique {table : UserTable} {u : User} {login : String}
    (hmem : u ∈ table.users) (hmatch : u.username = login ∨ u.email = login)
    (honly : ∀ v ∈ table.users, v.username = login ∨ v.email = login → v = u) :
    User.findByLogin table login = some u := by
  unfold User.findByLogin User.findOneByUsernameOrEmail
  cases hf : table.users.find? fun v => decide (v.username = login) || decide (v.email = login) with
  | none =>
    exfalso
    rw [List.find?_eq_none] at hf
    have := hf u hmem
    simp only [Bool.or_eq_true, decide_eq_true_eq] at this
    exact this hmatch
  | some v =>
    have hv := List.find?_some hf
    have hvm := List.mem_of_find?_eq_some hf
    simp only [Bool.or_eq_true, decide_eq_true_eq] at hv
    rw [honly v hvm hv]

/-- Login of an unambiguous user: when the stored user `u` is the only stored user
whose username or e-mail address equals the (non-empty) login string, and the
(non-empty) password verifies against the hash of `u`, a guest login is answered
200, the session's user becomes exactly `{id, username, email}` of `u`, and
`status` on that session reports `isAuthenticated = true` with the same
projection. -/
theorem login_establishes_session (env : AuthEnv) (table : UserTable) (session : Session)
    (u : User) (login password : String) (hguest : session.user = none)
    (hl : login.data.isEmpty = false) (hp : password.data.isEmpty = false)
    (hmem : u ∈ table.users) (hmatch : u.username = login ∨ u.email = login)
    (honly : ∀ v ∈ table.users, v.username = login ∨ v.email = login → v = u)
    (hverifies : User.validatePassword env u password = true) :
    (AuthRoutes.login env ⟨.val login, .val password⟩ table session).1.status = 200
      ∧ (AuthRoutes.login env ⟨.val login, .val password⟩ table session).1.user
          = .val (SessionUser.toObject ⟨u.id, u.username, u.email⟩)
      ∧ (AuthRoutes.login env ⟨.val login, .val password⟩ table session).2
          = ⟨some ⟨u.id, u.username, u.email⟩⟩
      ∧ AuthRoutes.status (AuthRoutes.login env ⟨.val login, .val password⟩ table session).2
          = ⟨200, none, none, .val (SessionUser.toObject ⟨u.id, u.username, u.email⟩),
              some true⟩ := by
  rw [login_guest env login password table session hguest hl hp,
    findByLogin_unique hmem hmatch honly]
  simp [hverifies, AuthRoutes.status]

theorem login_establishes_session_witness :
    (AuthRoutes.login sampleAuthEnv ⟨.val "admin@games.com", .val "admin123"⟩ sampleUsers
        guestSession).1.status = 200
      ∧ (AuthRoutes.login sampleAuthEnv ⟨.val "admin@games.com", .val "admin123"⟩ sampleUsers
        guestSession).1.user
          = .val (SessionUser.toObject ⟨adminUser.id, adminUser.username, adminUser.email⟩)
      ∧ (AuthRoutes.login sampleAuthEnv ⟨.val "admin@games.com", .val "admin123"⟩ sampleUsers
        guestSession).2 = ⟨some ⟨adminUser.id, adminUser.username, adminUser.email⟩⟩
      ∧ AuthRoutes.status (AuthRoutes.login sampleAuthEnv
          ⟨.val "admin@games.com", .val "admin123"⟩ sampleUsers guestSession).2
          = ⟨200, none, none,
              .val (SessionUser.toObject ⟨adminUser.id, adminUser.username, adminUser.email⟩),
              some true⟩ :=
  login_establishes_session sampleAuthEnv sampleUsers guestSession adminUser "admin@games.com"
    "admin123" rfl (by decide) (by decide) (by decide) (by decide) (by decide) (by decide)

/-! ## Requests for a row that does not exist -/

/-- The key that the store reads off a text, on examples: a numeral, the same
with a fraction, a sign, white space or an exponent denotes the key 1; a number
that is not an integer, and a text that is not a number, denote no key. -/
theorem parseKey_examples :
    parseKey "1" = some 1 ∧ parseKey "+1" = some 1 ∧ parseKey " 1" = some 1
      ∧ parseKey "1.0" = some 1 ∧ parseKey "1e0" = some 1 ∧ parseKey "10e-1" = some 1
      ∧ parseKey "1.5" = none
      ∧ parseKey "1x" = none ∧ parseKey "abc" = none ∧ parseKey "0x1" = none
      ∧ parseKey "" = none ∧ parseKey "1e" = none := by
  have h1 : readSqliteNumber "1.0" = some (false, ⟨false, 1, 0, 1, 0⟩) := by decide
  have h2 : readSqliteNumber "1e0" = some (false, ⟨false, 1, 0, 0, 0⟩) := by decide
  have h3 : readSqliteNumber "10e-1" = some (false, ⟨false, 10, 0, 0, -1⟩) := by decide
  have h4 : readSqliteNumber "1.5" = some (false, ⟨false, 1, 5, 1, 0⟩) := by decide
  have h5 : roundRat (3 / 2) = some (3 / 2) := by
    have hden : (3 / 2 : ℚ).den = 2 := by norm_num
    have hnum : (3 / 2 : ℚ).num = 3 := by norm_num
    have hlog3 : bitLength 3 = 2 := by decide
    have hlog2 : bitLength 2 = 2 := by decide
    simp only [roundRat, hden, hnum]
    norm_num [roundFraction, scaleBy, hlog3, hlog2]
  refine ⟨by decide, by decide, by decide, ?_, ?_, ?_, ?_, by decide, by decide, by decide,
    by decide, by decide⟩
  · simp [parseKey, h1, Decimal.value, roundRat, isInt64]
  · simp [parseKey, h2, Decimal.value, roundRat, isInt64]
  · simp [parseKey, h3, Decimal.value, roundRat, isInt64]
  · have hv : Decimal.value ⟨false, 1, 5, 1, 0⟩ = 3 / 2 := by
      norm_num [Decimal.value]
    simp only [parseKey, h4, hv, h5]
    norm_num [isInt64]

theorem game_findByPk_missing {db : Store} {id : String}
    (h : ∀ g ∈ db.games, parseKey id ≠ some g.id) : Game.findByPk db (parseKey id) = none := by
  unfold Game.findByPk
  cases hk : parseKey id with
  | none => rfl
  | some k =>
    simp only [List.find?_eq_none, decide_eq_true_eq]
    intro g hg he
    exact h g hg (by rw [hk, he])

theorem genre_findByPk_missing {db : Store} {id : String}
    (h : ∀ g ∈ db.genres, parseKey id ≠ some g.id) : Genre.findByPk db (parseKey id) = none := by
  unfold Genre.findByPk
  cases hk : parseKey id with
  | none => rfl
  | some k =>
    simp only [List.find?_eq_none, decide_eq_true_eq]
    intro g hg he
    exact h g hg (by rw [hk, he])

theorem platform_findByPk_missing {db : Store} {id : String}
    (h : ∀ p ∈ db.platforms, parseKey id ≠ some p.id) :
    Platform.findByPk db (parseKey id) = none := by
  unfold Platform.findByPk
  cases hk : parseKey id with
  | none => rfl
  | some k =>
    simp only [List.find?_eq_none, decide_eq_true_eq]
    intro p hp he
    exact h p hp (by rw [hk, he])

/-- C26: for an id that matches no row of the table, `get` answers 404 (it reads
the store and has no store to return), and an authenticated `update` and `delete`
answer 404 and return the store as it was, whatever the body holds: for games,
for genres and for platforms. A row matches the id when its key is the integer
that the store reads off the text of the id (`parseKey`: "1", "1.0" and "+1" all
match the key 1). -/
theorem missing_row_answers_not_found (cfg : Config) (session : Session) (id : String)
    (db : Store) (hauth : session.user.isSome = true) :
    ((∀ g ∈ db.games, parseKey id ≠ some g.id) →
        (getGame id db).status = 404
        ∧ (∀ body, (updateGame cfg session id body db).1.status = 404
            ∧ (updateGame cfg session id body db).2 = db)
        ∧ (deleteGame session id db).1.status = 404 ∧ (deleteGame session id db).2 = db)
      ∧ ((∀ g ∈ db.genres, parseKey id ≠ some g.id) →
        (∀ includeGames, (getGenre id includeGames db).status = 404)
        ∧ (∀ body, (updateGenre session id body db).1.status = 404
            ∧ (updateGenre session id body db).2 = db)
        ∧ (deleteGenre cfg session id db).1.status = 404
        ∧ (deleteGenre cfg session id db).2 = db)
      ∧ ((∀ p ∈ db.platforms, parseKey id ≠ some p.id) →
        (∀ includeGames, (getPlatform id includeGames db).status = 404)
        ∧ (∀ body, (updatePlatform cfg session id body db).1.status = 404
            ∧ (updatePlatform cfg session id body db).2 = db)
        ∧ (deletePlatform cfg session id db).1.status = 404
        ∧ (deletePlatform cfg session id db).2 = db) := by
  refine ⟨fun h => ?_, fun h => ?_, fun h => ?_⟩
  · have hk := game_findByPk_missing h
    refine ⟨?_, fun body => ?_, ?_⟩
    · simp [getGame, Game.findView, hk, ItemResponse.fail]
    · unfold updateGame
      rw [requireAuth_user _ _ _ hauth]
      simp [hk, Response.fail]
    · unfold deleteGame
      rw [requireAuth_user _ _ _ hauth]
      simp [hk, Response.fail]
  · have hk := genre_findByPk_missing h
    refine ⟨fun inc => ?_, fun body => ?_, ?_⟩
    · simp [getGenre, hk, ItemResponse.fail]
    · unfold updateGenre
      rw [requireAuth_user _ _ _ hauth]
      simp [hk, Response.fail]
    · unfold deleteGenre
      rw [requireAuth_user _ _ _ hauth]
      simp [hk, Response.fail]
  · have hk := platform_findByPk_missing h
    refine ⟨fun inc => ?_, fun body => ?_, ?_⟩
    · simp [getPlatform, hk, ItemResponse.fail]
    · unfold updatePlatform
      rw [requireAuth_user _ _ _ hauth]
      simp [hk, Response.fail]
    · unfold deletePlatform
      rw [requireAuth_user _ _ _ hauth]
      simp [hk, Response.fail]

theorem missing_row_answers_not_found_witness :
    (getGame "99" sampleStore).status = 404
      ∧ (updateGame sampleConfig adminSession "99" emptyGameFields sampleStore).1.status = 404
      ∧ (deleteGenre sampleConfig adminSession "99" sampleStore).2 = sampleStore
      ∧ (getPlatform "99" (some "true") sampleStore).status = 404
      ∧ (deleteGame adminSession "one" sampleStore).1.status = 404 :=
  have h := missing_row_answers_not_found sampleConfig adminSession "99" sampleStore rfl
  have h' := missing_row_answers_not_found sampleConfig adminSession "one" sampleStore rfl
  ⟨(h.1 (by decide)).1, ((h.1 (by decide)).2.1 emptyGameFields).1,
    (h.2.1 (by decide)).2.2.2, (h.2.2 (by decide)).1 (some "true"),
    (h'.1 (by decide)).2.2.1⟩

/-- A text with a fraction that denotes the key of a row finds the row: the id
"1.0" is answered with game 1, and a delete with that id removes game 1. -/
theorem numeric_text_finds_row :
    (getGame "1.0" sampleStore).status = 200
      ∧ (getGame "1.0" sampleStore).item.map (fun v => v.game.name) = some "Doom"
      ∧ (deleteGame adminSession "1.0" sampleStore).1.status = 200
      ∧ (deleteGame adminSession "1.0" sampleStore).2.games.map Game.name = ["Quake"] := by
  have hk : parseKey "1.0" = some 1 := parseKey_examples.2.2.2.1
  unfold getGame deleteGame Game.findView
  rw [hk]
  decide

/-! ## Shape of the error responses -/

theorem errorBody_some (status : Nat) (error message : String) :
    errorBody status (some error) (some message) := fun _ => ⟨rfl, rfl⟩

theorem errorBody_genreCatch (action : String) (e : DbError) :
    errorBody (genreCatch action e).status (genreCatch action e).error
      (genreCatch action e).message := by
  cases e <;> exact errorBody_some _ _ _

theorem errorBody_platformCatch (action : String) (e : DbError) :
    errorBody (platformCatch action e).status (platformCatch action e).error
      (platformCatch action e).message := by
  cases e <;> exact errorBody_some _ _ _

theorem errorBody_registerCatch (e : DbError) :
    errorBody (AuthRoutes.registerCatch e).status (AuthRoutes.registerCatch e).error
      (AuthRoutes.registerCatch e).message := by
  cases e <;> exact errorBody_some _ _ _

theorem errorBody_createGame (cfg : Config) (session : Session) (body : GameFields) (db : Store) :
    errorBody (createGame cfg session body db).1.status (createGame cfg session body db).1.error
      (createGame cfg session body db).1.message := by
  unfold createGame requireAuth
  dsimp only
  repeat' split
  all_goals simp [errorBody, Response.fail, Response.withGame]

theorem errorBody_updateGame (cfg : Config) (session : Session) (id : String)
    (body : GameFields) (db : Store) :
    errorBody (updateGame cfg session id body db).1.status
      (updateGame cfg session id body db).1.error
      (updateGame cfg session id body db).1.message := by
  unfold updateGame requireAuth
  dsimp only
  repeat' split
  all_goals simp [errorBody, Response.fail, Response.withGame]

theorem errorBody_deleteGame (session : Session) (id : String) (db : Store) :
    errorBody (deleteGame session id db).1.status (deleteGame session id db).1.error
      (deleteGame session id db).1.message := by
  unfold deleteGame requireAuth
  dsimp only
  repeat' split
  all_goals simp [errorBody, Response.fail, Response.withDeleted]

theorem errorBody_createGenre (session : Session) (body : GenreFields) (db : Store) :
    errorBody (createGenre session body db).1.status (createGenre session body db).1.error
      (createGenre session body db).1.message := by
  unfold createGenre requireAuth
  dsimp only
  repeat' split
  all_goals
    first
    | exact errorBody_genreCatch _ _
    | simp [errorBody, Response.fail, Response.withGenre]

theorem errorBody_updateGenre (session : Session) (id : String) (body : GenreFields)
    (db : Store) :
    errorBody (updateGenre session id body db).1.status
      (updateGenre session id body db).1.error (updateGenre session id body db).1.message := by
  unfold updateGenre requireAuth
  dsimp only
  repeat' split
  all_goals
    first
    | exact errorBody_genreCatch _ _
    | simp [errorBody, Response.fail, Response.withGenre]

theorem errorBody_deleteGenre (cfg : Config) (session : Session) (id : String) (db : Store) :
    errorBody (deleteGenre cfg session id db).1.status (deleteGenre cfg session id db).1.error
      (deleteGenre cfg session id db).1.message := by
  unfold deleteGenre requireAuth
  dsimp only
  repeat' split
  all_goals simp [errorBody, Response.fail, Response.withDeleted, Response.blocked]

theorem errorBody_createPlatform (cfg : Config) (session : Session) (body : PlatformFields)
    (db : Store) :
    errorBody (createPlatform cfg session body db).1.status
      (createPlatform cfg session body db).1.error
      (createPlatform cfg session body db).1.message := by
  unfold createPlatform requireAuth
  dsimp only
  repeat' split
  all_goals
    first
    | exact errorBody_platformCatch _ _
    | simp [errorBody, Response.fail, Response.withPlatform]

theorem errorBody_updatePlatform (cfg : Config) (session : Session) (id : String)
    (body : PlatformFields) (db : Store) :
    errorBody (updatePlatform cfg session id body db).1.status
      (updatePlatform cfg session id body db).1.error
      (updatePlatform cfg session id body db).1.message := by
  unfold updatePlatform requireAuth
  dsimp only
  repeat' split
  all_goals
    first
    | exact errorBody_platformCatch _ _
    | simp [errorBody, Response.fail, Response.withPlatform]

theorem errorBody_deletePlatform (cfg : Config) (session : Session) (id : String)
    (db : Store) :
    errorBody (deletePlatform cfg session id db).1.status
      (deletePlatform cfg session id db).1.error
      (deletePlatform cfg session id db).1.message := by
  unfold deletePlatform requireAuth
  dsimp only
  repeat' split
  all_goals simp [errorBody, Response.fail, Response.withDeleted, Response.blocked]

theorem errorBody_lists (env : ListEnv) (db : Store) (games : GameQuery) (genres : GenreQuery)
    (platforms : PlatformQuery) :
    errorBody (listGames env games db).status (listGames env games db).error
        (listGames env games db).message
      ∧ errorBody (listGenres env genres db).status (listGenres env genres db).error
        (listGenres env genres db).message
      ∧ errorBody (listPlatforms env platforms db).status (listPlatforms env platforms db).error
        (listPlatforms env platforms db).message := by
  refine ⟨?_, ?_, ?_⟩
  · unfold listGames gamesResponse
    split <;> simp [errorBody, ListResponse.failed]
  · unfold listGenres genresResponse
    split <;> simp [errorBody, ListResponse.failed]
  · unfold listPlatforms platformsResponse
    split <;> simp [errorBody, ListResponse.failed]

theorem errorBody_gets (db : Store) (id : String) (includeGames : Option String) :
    errorBody (getGame id db).status (getGame id db).error (getGame id db).message
      ∧ errorBody (getGenre id includeGames db).status (getGenre id includeGames db).error
        (getGenre id includeGames db).message
      ∧ errorBody (getPlatform id includeGames db).status
        (getPlatform id includeGames db).error (getPlatform id includeGames db).message := by
  refine ⟨?_, ?_, ?_⟩
  · unfold getGame
    split <;> simp [errorBody, ItemResponse.fail]
  · unfold getGenre
    split <;> simp [errorBody, ItemResponse.fail]
  · unfold getPlatform
    split <;> simp [errorBody, ItemResponse.fail]

theorem errorBody_register (env : AuthEnv) (session : Session) (body : RegisterFields)
    (table : UserTable) :
    errorBody (AuthRoutes.register env session body table).1.status
      (AuthRoutes.register env session body table).1.error
      (AuthRoutes.register env session body table).1.message := by
  unfold AuthRoutes.register AuthRoutes.requireGuest
  dsimp only
  repeat' split
  all_goals
    first
    | exact errorBody_registerCatch _
    | simp [errorBody, AuthResponse.fail]

theorem errorBody_login (env : AuthEnv) (body : LoginFields) (table : UserTable)
    (session : Session) :
    errorBody (AuthRoutes.login env body table session).1.status
      (AuthRoutes.login env body table session).1.error
      (AuthRoutes.login env body table session).1.message := by
  unfold AuthRoutes.login AuthRoutes.requireGuest
  dsimp only
  repeat' split
  all_goals simp [errorBody, AuthResponse.fail]

theorem errorBody_session_routes (env : AuthEnv) (session : Session) (table : UserTable) :
    errorBody (AuthRoutes.logout env session).1.status (AuthRoutes.logout env session).1.error
        (AuthRoutes.logout env session).1.message
      ∧ errorBody (AuthRoutes.me session table).status (AuthRoutes.me session table).error
        (AuthRoutes.me session table).message
      ∧ errorBody (AuthRoutes.status session).status (AuthRoutes.status session).error
        (AuthRoutes.status session).message := by
  refine ⟨?_, ?_, ?_⟩
  · unfold AuthRoutes.logout AuthRoutes.requireAuth
    dsimp only
    repeat' split
    all_goals simp [errorBody, AuthResponse.fail]
  · unfold AuthRoutes.me AuthRoutes.requireAuth
    dsimp only
    repeat' split
    all_goals simp [errorBody, AuthResponse.fail]
  · simp [errorBody, AuthRoutes.status]

/-- C27: every response with a status of 400 or more has an `error` field and a
`message` field, each a string: for the five handlers of each of the auth, games,
genres and platforms routers, for the catch-all 404 middleware and for the final
error middleware (handed an `Error`, whose `message` is a string). -/
theorem error_responses_carry_error_and_message (cfg : Config) (auth : AuthEnv)
    (env : ListEnv) (session : Session) (db : Store) (table : UserTable) (id : String)
    (registration : RegisterFields) (credentials : LoginFields)
    (gameQuery : GameQuery) (genreQuery : GenreQuery) (platformQuery : PlatformQuery)
    (includeGames : Option String)
    (game : GameFields) (genre : GenreFields) (platform : PlatformFields)
    (method path : String) (nodeEnv : Option String) (errorMessage : String) :
    (errorBody (AuthRoutes.register auth session registration table).1.status
        (AuthRoutes.register auth session registration table).1.error
        (AuthRoutes.register auth session registration table).1.message
      ∧ errorBody (AuthRoutes.login auth credentials table session).1.status
        (AuthRoutes.login auth credentials table session).1.error
        (AuthRoutes.login auth credentials table session).1.message
      ∧ errorBody (AuthRoutes.logout auth session).1.status
        (AuthRoutes.logout auth session).1.error (AuthRoutes.logout auth session).1.message
      ∧ errorBody (AuthRoutes.me session table).status (AuthRoutes.me session table).error
        (AuthRoutes.me session table).message
      ∧ errorBody (AuthRoutes.status session).status (AuthRoutes.status session).error
        (AuthRoutes.status session).message)
    ∧ (errorBody (listGames env gameQuery db).status (listGames env gameQuery db).error
        (listGames env gameQuery db).message
      ∧ errorBody (getGame id db).status (getGame id db).error (getGame id db).message
      ∧ errorBody (createGame cfg session game db).1.status
        (createGame cfg session game db).1.error (createGame cfg session game db).1.message
      ∧ errorBody (updateGame cfg session id game db).1.status
        (updateGame cfg session id game db).1.error
        (updateGame cfg session id game db).1.message
      ∧ errorBody (deleteGame session id db).1.status (deleteGame session id db).1.error
        (deleteGame session id db).1.message)
    ∧ (errorBody (listGenres env genreQuery db).status (listGenres env genreQuery db).error
        (listGenres env genreQuery db).message
      ∧ errorBody (getGenre id includeGames db).status (getGenre id includeGames db).error
        (getGenre id includeGames db).message
      ∧ errorBody (createGenre session genre db).1.status
        (createGenre session genre db).1.error (createGenre session genre db).1.message
      ∧ errorBody (updateGenre session id genre db).1.status
        (updateGenre session id genre db).1.error (updateGenre session id genre db).1.message
      ∧ errorBody (deleteGenre cfg session id db).1.status
        (deleteGenre cfg session id db).1.error (deleteGenre cfg session id db).1.message)
    ∧ (errorBody (listPlatforms env platformQuery db).status
        (listPlatforms env platformQuery db).error (listPlatforms env platformQuery db).message
      ∧ errorBody (getPlatform id includeGames db).status
        (getPlatform id includeGames db).error (getPlatform id includeGames db).message
      ∧ errorBody (createPlatform cfg session platform db).1.status
        (createPlatform cfg session platform db).1.error
        (createPlatform cfg session platform db).1.message
      ∧ errorBody (updatePlatform cfg session id platform db).1.status
        (updatePlatform cfg session id platform db).1.error
        (updatePlatform cfg session id platform db).1.message
      ∧ errorBody (deletePlatform cfg session id db).1.status
        (deletePlatform cfg session id db).1.error
        (deletePlatform cfg session id db).1.message)
    ∧ errorBody (notFoundHandler method path).status (notFoundHandler method path).error
        (notFoundHandler method path).message
    ∧ errorBody (errorHandler nodeEnv errorMessage).status
        (errorHandler nodeEnv errorMessage).error (errorHandler nodeEnv errorMessage).message := by
  have hl := errorBody_lists env db gameQuery genreQuery platformQuery
  have hg := errorBody_gets db id includeGames
  have hs := errorBody_session_routes auth session table
  exact ⟨⟨errorBody_register _ _ _ _, errorBody_login _ _ _ _, hs.1, hs.2.1, hs.2.2⟩,
    ⟨hl.1, hg.1, errorBody_createGame _ _ _ _, errorBody_updateGame _ _ _ _ _,
      errorBody_deleteGame _ _ _⟩,
    ⟨hl.2.1, hg.2.1, errorBody_createGenre _ _ _, errorBody_updateGenre _ _ _ _,
      errorBody_deleteGenre _ _ _ _⟩,
    ⟨hl.2.2, hg.2.2, errorBody_createPlatform _ _ _ _, errorBody_updatePlatform _ _ _ _ _,
      errorBody_deletePlatform _ _ _ _⟩,
    errorBody_some _ _ _, errorBody_some _ _ _⟩

/-! ## The final error handler -/

/-- C28, as stated, fails: with `NODE_ENV` set to "test", unset, or set to
"staging", the final error handler answers "Something went wrong", not the message
of the error. -/
theorem raw_error_message_hidden_outside_development :
    (errorHandler (some "test") "connect ECONNREFUSED").message = some "Something went wrong"
      ∧ (errorHandler none "connect ECONNREFUSED").message = some "Something went wrong"
      ∧ (errorHandler (some "staging") "connect ECONNREFUSED").message
          = some "Something went wrong"
      ∧ (errorHandler (some "test") "connect ECONNREFUSED").message
          ≠ some "connect ECONNREFUSED" := by
  decide

/-- C28, amended: the final error handler answers 500 with error "Internal Server
Error"; the message is the raw `error.message` when `NODE_ENV` is "development",
and "Something went wrong" for every other value, among them "production", "test"
and the unset variable. -/
theorem final_error_handler_message (nodeEnv : Option String) (errorMessage : String) :
    (errorHandler nodeEnv errorMessage).status = 500
      ∧ (errorHandler nodeEnv errorMessage).error = some "Internal Server Error"
      ∧ (nodeEnv = some "development" →
          (errorHandler nodeEnv errorMessage).message = some errorMessage)
      ∧ (nodeEnv ≠ some "development" →
          (errorHandler nodeEnv errorMessage).message = some "Something went wrong")
      ∧ (errorHandler (some "production") errorMessage).message
          = some "Something went wrong" := by
  refine ⟨rfl, rfl, fun h => ?_, fun h => ?_, ?_⟩
  · simp [errorHandler, h]
  · simp [errorHandler, h]
  · simp [errorHandler]

theorem final_error_handler_message_witness :
    (errorHandler (some "development") "connect ECONNREFUSED").message
        = some "connect ECONNREFUSED"
      ∧ (errorHandler none "connect ECONNREFUSED").message = some "Something went wrong" :=
  ⟨(final_error_handler_message (some "development") "connect ECONNREFUSED").2.2.1 rfl,
    (final_error_handler_message none "connect ECONNREFUSED").2.2.2.1 (by decide)⟩

/-! ## Rating at the boundary -/

/-- C29 (behaviour at the failing input): an authenticated create of a game with a valid name, genre
and platform and rating 0 is answered 201, and the game returned and the row
stored have no rating (`null`) instead of the rating 0. -/
theorem create_game_rating_zero_stored_as_null :
    (createGame sampleConfig adminSession
        { emptyGameFields with
          name := .val "Half-Life", rating := .val 0, genreId := .val 1, platformId := .val 1 }
        sampleStore).1.status = 201
      ∧ ((createGame sampleConfig adminSession
        { emptyGameFields with
          name := .val "Half-Life", rating := .val 0, genreId := .val 1, platformId := .val 1 }
        sampleStore).1.game.map fun v => v.game.rating) = some none
      ∧ ((createGame sampleConfig adminSession
        { emptyGameFields with
          name := .val "Half-Life", rating := .val 0, genreId := .val 1, platformId := .val 1 }
        sampleStore).2.games.getLast?.map fun g => (g.name, g.rating))
          = some ("Half-Life", none) := by
  decide

/-- Off zero the create stores the rating as sent: a rating in the interval that
is not 0 is answered 201 and is the rating of the appended row. -/
theorem createGame_stores_rating_off_zero (cfg : Config) (session : Session) (db : Store)
    (name : String) (description releaseDate : Field String) (r : ℚ) (gk pk : Int)
    (hauth : session.user.isSome = true) (hname : nameErrors 100 name = [])
    (hgk : gk ≠ 0) (hpk : pk ≠ 0)
    (hg : (Genre.findByPk db (some gk)).isSome = true)
    (hp : (Platform.findByPk db (some pk)).isSome = true)
    (h0 : 0 ≤ r) (h10 : r ≤ 10) (hr : r ≠ 0) :
    (createGame cfg session
        ⟨.val name, description, .val r, releaseDate, .undefined, .undefined, .undefined,
          .val gk, .val pk⟩ db).1.status = 201
      ∧ ∃ row : Game, row.rating = some r ∧ row.name = name
        ∧ (createGame cfg session
            ⟨.val name, description, .val r, releaseDate, .undefined, .undefined, .undefined,
              .val gk, .val pk⟩ db).2.games = db.games ++ [row] := by
  have hne : name.data.isEmpty = false := by
    have h := nameErrors_nil hname
    cases hd : name.data with
    | nil => simp [lenOk, hd] at h
    | cons c t => rfl
  have hkey : ∀ k : Int, fieldKey (.val (k : ℚ)) = some k := by
    intro k
    simp [fieldKey, numKey]
  have hgn : (Genre.findByPk db (some gk)).isNone = false := by
    cases hx : Genre.findByPk db (some gk) with
    | none => rw [hx] at hg; simp at hg
    | some _ => rfl
  have hpn : (Platform.findByPk db (some pk)).isNone = false := by
    cases hx : Platform.findByPk db (some pk) with
    | none => rw [hx] at hp; simp at hp
    | some _ => rfl
  have hin : ¬ (r < 0) ∧ ¬ (10 < r) := ⟨not_lt.mpr h0, not_lt.mpr h10⟩
  unfold createGame
  rw [requireAuth_user _ _ _ hauth]
  simp [truthyStr, truthyNum, hne, hgk, hpk, hkey, hgn, hpn, ratingOutside, hin, h0, h10,
    ratingValue, hr, Game.create, gameErrors, requiredErrors, hname, textErrors, check,
    keyOver, numKey, Response.withGame, Game.write, Field.over, referencesOk, Field.supplied,
    hg, hp]

/-! ## Conflicts on create -/

/-- C30 (behaviour at the failing input): no genre of the sample store has the
name "Puzzle" or "A_tion" ignoring case, and no platform the name "Xbox". An
authenticated create with each of these names is indeed not answered 409, but it
creates no row: the lookup for a clash uses `Op.iLike`, which the store rejects,
and the handler answers 500. -/
theorem create_of_free_name_creates_no_row :
    (∀ g ∈ sampleStore.genres, eqIgnoreCase g.name "Puzzle" = false
        ∧ eqIgnoreCase g.name "A_tion" = false)
      ∧ (∀ p ∈ sampleStore.platforms, eqIgnoreCase p.name "Xbox" = false)
      ∧ createGenre adminSession ⟨.val "Puzzle", .undefined⟩ sampleStore
          = (Response.fail 500 "Internal server error" "Failed to create genre", sampleStore)
      ∧ createGenre adminSession ⟨.val "A_tion", .undefined⟩ sampleStore
          = (Response.fail 500 "Internal server error" "Failed to create genre", sampleStore)
      ∧ createPlatform sampleConfig adminSession ⟨.val "Xbox", .undefined, .undefined⟩
          sampleStore
          = (Response.fail 500 "Internal server error" "Failed to create platform",
              sampleStore) := by
  decide

/-- No create of a genre or a platform is answered 201 or 409, whatever the body
and the store: the answer is 400, 401 or 500, and the store is as it was. -/
theorem create_never_succeeds (cfg : Config) (session : Session) (db : Store)
    (genre : GenreFields) (platform : PlatformFields) :
    ((createGenre session genre db).1.status = 400
        ∨ (createGenre session genre db).1.status = 401
        ∨ (createGenre session genre db).1.status = 500)
      ∧ (createGenre session genre db).2 = db
      ∧ ((createPlatform cfg session platform db).1.status = 400
        ∨ (createPlatform cfg session platform db).1.status = 401
        ∨ (createPlatform cfg session platform db).1.status = 500)
      ∧ (createPlatform cfg session platform db).2 = db := by
  refine ⟨?_, createGenre_store session genre db, ?_, createPlatform_store cfg session platform db⟩
  · unfold createGenre requireAuth Genre.findOneILike
    dsimp only
    repeat' split
    all_goals simp [Response.fail, genreCatch]
  · unfold createPlatform requireAuth Platform.findOneILike
    dsimp only
    repeat' split
    all_goals simp [Response.fail, platformCatch]

end GamesApi
